import Mathlib

/-!
Verification of the Cubzh core version-6 serializer
(src/core/serialization_v6.c and src/core/serialization.c).

The serialized buffer is modelled as a list of typed cells.  The C code
writes typed fields through memcpy on a raw byte cursor; each cell of the
model carries the byte width that the corresponding field occupies in the
C buffer, so every size and cursor computation of the C code is mirrored
in bytes while reads and writes stay typed.  Machine integers are Nat
reduced modulo 2 to the field width at write time; 32-bit floats carry
exact rational values (the serializer never performs any arithmetic on
them other than subtraction of block coordinates).

Collaborator interfaces (Shape, ColorPalette, Transform, RigidBody
accessors declared in headers outside src/) are modelled from the spec;
each such definition carries a doc comment saying so.
-/

set_option linter.unusedVariables false

namespace CubzhV6

/-- Exact model of a 32-bit float value: the serializer only copies floats
and subtracts integer block coordinates from them, so rationals model the
values faithfully for every claim considered here. -/
abbrev F32 := Rat

/-- Triple of floats, mirroring the float3 struct. -/
structure Float3 where
  x : F32
  y : F32
  z : F32
deriving DecidableEq, Repr

/-- Componentwise subtraction of the integer AABB corner from a float3,
as done by the writer for pivot and points of interest. -/
def Float3.subCoords (v : Float3) (cx cy cz : Int) : Float3 :=
  { x := v.x - (cx : Rat), y := v.y - (cy : Rat), z := v.z - (cz : Rat) }

/-- One typed field of a serialized buffer.  The constructor records the
value and the byte width the field occupies in the C buffer. -/
inductive Cell where
  | u8 (v : Nat)
  | u16 (v : Nat)
  | u32 (v : Nat)
  | f32 (v : F32)
deriving DecidableEq, Repr

/-- Byte width of a cell in the underlying C buffer. -/
def Cell.width : Cell → Nat
  | .u8 _ => 1
  | .u16 _ => 2
  | .u32 _ => 4
  | .f32 _ => 4

/-- Total byte length of a buffer. -/
def byteLen (l : List Cell) : Nat := (l.map Cell.width).sum

/-- Write a uint8_t: the value is reduced modulo 256 as by the C cast. -/
def mkU8 (v : Nat) : Cell := .u8 (v % 256)

/-- Write a uint16_t: the value is reduced modulo 2^16. -/
def mkU16 (v : Nat) : Cell := .u16 (v % 65536)

/-- Write a uint32_t: the value is reduced modulo 2^32. -/
def mkU32 (v : Nat) : Cell := .u32 (v % 4294967296)

/-- Cells of a float3 (three consecutive 4-byte floats). -/
def f3Cells (v : Float3) : List Cell := [.f32 v.x, .f32 v.y, .f32 v.z]

/-- Pop a uint8_t from the front of a buffer.  The C code reads raw bytes;
reads of a differently-typed field return 0 (such reads happen only on
malformed buffers never produced by the writer). -/
def popU8 : List Cell → Nat × List Cell
  | .u8 v :: r => (v, r)
  | _ :: r => (0, r)
  | [] => (0, [])

/-- Pop a uint16_t from the front of a buffer. -/
def popU16 : List Cell → Nat × List Cell
  | .u16 v :: r => (v, r)
  | _ :: r => (0, r)
  | [] => (0, [])

/-- Pop a uint32_t from the front of a buffer. -/
def popU32 : List Cell → Nat × List Cell
  | .u32 v :: r => (v, r)
  | _ :: r => (0, r)
  | [] => (0, [])

/-- Pop a 32-bit float from the front of a buffer. -/
def popF32 : List Cell → F32 × List Cell
  | .f32 v :: r => (v, r)
  | _ :: r => (0, r)
  | [] => (0, [])

/-- Pop three floats (a float3). -/
def popFloat3 (l : List Cell) : Float3 × List Cell :=
  let (x, l) := popF32 l
  let (y, l) := popF32 l
  let (z, l) := popF32 l
  (⟨x, y, z⟩, l)

/-- Pop n raw bytes (u8 cells), used for names. -/
def popBytes : Nat → List Cell → List Nat × List Cell
  | 0, l => ([], l)
  | n + 1, l =>
    let (b, l) := popU8 l
    let (bs, l) := popBytes n l
    (b :: bs, l)

/-- Advance a cursor by n bytes, mirroring pointer arithmetic on the raw
buffer.  Whole cells are consumed while bytes remain; a skip landing
inside a multi-byte field consumes that field (such skips happen only on
malformed buffers). -/
def dropBytes (n : Nat) : List Cell → List Cell
  | [] => []
  | c :: r => if n = 0 then c :: r else dropBytes (n - c.width) r

/-- Split off the first n bytes of a buffer; fails when the buffer holds
fewer than n bytes or when n falls inside a multi-byte field. -/
def takeBytes (n : Nat) (l : List Cell) : Option (List Cell × List Cell) :=
  if n = 0 then some ([], l)
  else match l with
    | [] => none
    | c :: r =>
      if c.width ≤ n then
        match takeBytes (n - c.width) r with
        | some (a, b) => some (c :: a, b)
        | none => none
      else none

/-- Replace-or-append update of an association list, mirroring
map_string_float3_set_key_value. -/
def assocSet {α β : Type} [DecidableEq α] : List (α × β) → α → β → List (α × β)
  | [], k, v => [(k, v)]
  | (k0, v0) :: t, k, v =>
    if k0 = k then (k0, v) :: t else (k0, v0) :: assocSet t k v

/-! ## Color palettes (collaborator interface, modelled from the spec) -/

/-- An RGBA color; four bytes. -/
structure RGBAColor where
  r : Nat
  g : Nat
  b : Nat
  a : Nat
deriving DecidableEq, Repr

/-- Cells of one RGBA color (four consecutive bytes). -/
def rgbaCells (c : RGBAColor) : List Cell := [mkU8 c.r, mkU8 c.g, mkU8 c.b, mkU8 c.a]

/-- Modelled from the spec: a ColorPalette is an ordered list of RGBA
colors with parallel emissive flags (at most 255 entries), together with
the internal canonical serialization order.  The order is represented
explicitly: mapping sends an in-memory color index to its serialized
index, which is exactly the table color_palette_get_colors_as_array
returns to the writer. -/
structure ColorPalette where
  entries : List (RGBAColor × Bool)
  mapping : List Nat
deriving DecidableEq, Repr

/-- Number of colors of a palette (color_palette_get_count). -/
def ColorPalette.colorCount (p : ColorPalette) : Nat := p.entries.length

/-- Modelled from the spec: the per-shape palette limit of 255 entries
(SHAPE_COLOR_INDEX_MAX_COUNT, declared outside src/). -/
def SHAPE_COLOR_INDEX_MAX_COUNT : Nat := 255

/-- Reserved sentinel marking an empty cell (SHAPE_COLOR_INDEX_AIR_BLOCK). -/
def SHAPE_COLOR_INDEX_AIR_BLOCK : Nat := 255

/-- Byte-valued color: every component fits one byte. -/
def RGBAColor.Wf (c : RGBAColor) : Prop :=
  c.r < 256 ∧ c.g < 256 ∧ c.b < 256 ∧ c.a < 256

/-- Well-formed palette: the serialization order is a permutation of the
entry indices, the palette respects the 255-entry limit, and colors are
byte-valued. -/
def ColorPalette.Wf (p : ColorPalette) : Prop :=
  List.Perm p.mapping (List.range p.entries.length) ∧
    p.entries.length ≤ SHAPE_COLOR_INDEX_MAX_COUNT ∧
    ∀ e ∈ p.entries, e.1.Wf

instance (c : RGBAColor) : Decidable c.Wf := by
  unfold RGBAColor.Wf
  infer_instance

instance (p : ColorPalette) : Decidable p.Wf := by
  unfold ColorPalette.Wf
  infer_instance

/-- Entry of the palette in serialized (canonical) order: position j of
the serialized arrays holds the entry whose mapping value is j.  This is
the array pair built by color_palette_get_colors_as_array. -/
def ColorPalette.orderedEntryAt (p : ColorPalette) (j : Nat) : RGBAColor × Bool :=
  p.entries.getD (p.mapping.indexOf j) (⟨0, 0, 0, 0⟩, false)

/-- Fresh empty palette (color_palette_new); modelled from the spec. -/
def color_palette_new : ColorPalette := { entries := [], mapping := [] }

/-- Copy of a palette (color_palette_new_copy); value-level identity. -/
def color_palette_new_copy (p : ColorPalette) : ColorPalette := p

/-- Palette built from serialized arrays (color_palette_new_from_data);
the count is clamped to 255 and the stored order becomes the canonical
order, so the mapping is the identity.  Modelled from the spec. -/
def color_palette_new_from_data (count : Nat) (colors : List RGBAColor)
    (emissive : List Bool) : ColorPalette :=
  let n := min count 255
  { entries := (List.zip colors emissive).take n,
    mapping := List.range ((List.zip colors emissive).take n).length }

/-- Color at an index (color_palette_get_color); modelled from the spec. -/
def color_palette_get_color (p : ColorPalette) (i : Nat) : RGBAColor :=
  ((p.entries.getD i (⟨0, 0, 0, 0⟩, false)).1)

/-- Modelled from the spec: color_palette_check_and_add_color returns the
index of the color when it is already present, appends it when there is
room, and fails when the palette is full.  A fresh appended entry is not
emissive and extends the canonical order at the end. -/
def color_palette_check_and_add_color (p : ColorPalette) (c : RGBAColor) :
    ColorPalette × Nat × Bool :=
  match (p.entries.map Prod.fst).findIdx? (fun x => x = c) with
  | some i => (p, i, true)
  | none =>
    if SHAPE_COLOR_INDEX_MAX_COUNT ≤ p.entries.length then (p, 0, false)
    else ({ entries := p.entries ++ [(c, false)],
            mapping := p.mapping ++ [p.entries.length] },
          p.entries.length, true)

/-- Modelled from the spec: the two built-in legacy palettes are external
tables; the model carries them as explicit data so no claim depends on
their concrete contents. -/
structure LegacyBuiltins where
  pico8p : List RGBAColor
  y2021 : List RGBAColor
deriving DecidableEq, Repr

/-- Modelled from the spec: check_and_add_default_color looks the index up
in the given built-in legacy palette and then check-and-adds that color to
the shape palette. -/
def color_palette_check_and_add_default_color (builtin : List RGBAColor)
    (p : ColorPalette) (i : Nat) : ColorPalette × Nat × Bool :=
  match builtin[i]? with
  | some c => color_palette_check_and_add_color p c
  | none => (p, i, false)

/-- Palette id constants (declared in color_palette.h outside src/);
modelled from the spec, only their distinctness matters. -/
def PALETTE_ID_IOS_ITEM_EDITOR_LEGACY : Nat := 0

/-- Palette id of the 2021 default palette; modelled from the spec. -/
def PALETTE_ID_2021 : Nat := 1

/-- Palette id marking a custom (serialized) palette; modelled from the
spec. -/
def PALETTE_ID_CUSTOM : Nat := 255

/-! ## Shapes (collaborator interface, modelled from the spec) -/

/-- Modelled from the spec: the accessor results of one in-memory Shape
as the writer consumes them.  getBlock returns the palette index of the
block at absolute model coordinates, with the AIR sentinel 255 for empty
cells (block_is_solid false).  aabbMin and size describe the occupied
bounding box returned by shape_get_model_aabb_2 and
shape_get_bounding_box_size, with the exclusive corner at aabbMin + size. -/
structure ShapeData where
  getBlock : Int → Int → Int → Nat
  aabbMin : Int × Int × Int
  width : Nat
  height : Nat
  depth : Nat
  palette : ColorPalette
  localPosition : Float3
  localRotation : Float3
  localScale : Float3
  pivot : Float3
  pois : List (List Nat × Float3)
  poisRotation : List (List Nat × Float3)
  collisionBox : Option (Float3 × Float3)
  isHiddenSelf : Bool
  name : List Nat

/-- A shape hierarchy: one shape and its child shapes in transform
children order. -/
inductive ShapeTree where
  | node (data : ShapeData) (children : List ShapeTree)

/-- Root data of a shape tree. -/
def ShapeTree.data : ShapeTree → ShapeData
  | .node d _ => d

/-- Children of a shape tree. -/
def ShapeTree.children : ShapeTree → List ShapeTree
  | .node _ c => c

/-! ## Chunk id constants (serialization_v6.c lines 25-51) -/

def P3S_CHUNK_ID_NONE : Nat := 0
def P3S_CHUNK_ID_PREVIEW : Nat := 1
def P3S_CHUNK_ID_PALETTE_LEGACY : Nat := 2
def P3S_CHUNK_ID_SHAPE : Nat := 3
def P3S_CHUNK_ID_SHAPE_SIZE : Nat := 4
def P3S_CHUNK_ID_SHAPE_BLOCKS : Nat := 5
def P3S_CHUNK_ID_SHAPE_POINT : Nat := 6
def P3S_CHUNK_ID_SHAPE_BAKED_LIGHTING : Nat := 7
def P3S_CHUNK_ID_SHAPE_POINT_ROTATION : Nat := 8
def P3S_CHUNK_ID_PALETTE_ID : Nat := 15
def P3S_CHUNK_ID_PALETTE : Nat := 16
def P3S_CHUNK_ID_SHAPE_ID : Nat := 17
def P3S_CHUNK_ID_SHAPE_NAME : Nat := 18
def P3S_CHUNK_ID_SHAPE_PARENT_ID : Nat := 19
def P3S_CHUNK_ID_SHAPE_TRANSFORM : Nat := 20
def P3S_CHUNK_ID_SHAPE_PIVOT : Nat := 21
def P3S_CHUNK_ID_SHAPE_PALETTE : Nat := 22
def P3S_CHUNK_ID_OBJECT_COLLISION_BOX : Nat := 23
def P3S_CHUNK_ID_OBJECT_IS_HIDDEN : Nat := 24
def P3S_CHUNK_ID_MAX : Nat := 25

/-- Size of the v6 chunk header without the chunk id:
u32 size, u8 compressed flag, u32 uncompressed size (9 bytes). -/
def CHUNK_V6_HEADER_NO_ID_SIZE : Nat := 9

/-- Magic bytes of the container.  Modelled from the spec: a fixed ASCII
tag declared in serialization.h outside src/; the concrete value is
immaterial to every claim. -/
def MAGIC_BYTES : List Nat := [67, 85, 66, 90, 72, 33]

/-! ## Writer (serialization_v6.c, write-as-buffer path) -/

/-- Serialized palette payload, mirroring
_chunk_v6_palette_create_and_write_uncompressed_buffer (lines 1861-1892):
u8 color count, then the colors in canonical order, then the emissive
flags in canonical order.  The writer keeps the in-memory-to-serialized
index table (the mapping field of the model) to rewrite block bytes. -/
def paletteDataCells (p : ColorPalette) : List Cell :=
  mkU8 p.colorCount ::
    ((List.range p.colorCount).flatMap (fun j => rgbaCells (p.orderedEntryAt j).1) ++
      (List.range p.colorCount).map (fun j =>
        mkU8 (if (p.orderedEntryAt j).2 then 1 else 0)))

/-- Byte size of the serialized palette payload:
1 + 4 * count + 1 * count (line 1873). -/
def paletteDataSize (p : ColorPalette) : Nat := 1 + 5 * p.colorCount

/-- SHAPE_SIZE sub-chunk (lines 1539-1554). -/
def sizeSec (S : ShapeData) : List Cell :=
  [mkU8 P3S_CHUNK_ID_SHAPE_SIZE, mkU32 6, mkU16 S.width, mkU16 S.height, mkU16 S.depth]

/-- SHAPE_ID sub-chunk (lines 1556-1567). -/
def idSec (shapeId : Nat) : List Cell :=
  [mkU8 P3S_CHUNK_ID_SHAPE_ID, mkU32 2, mkU16 shapeId]

/-- SHAPE_PARENT_ID and SHAPE_TRANSFORM sub-chunks, emitted together for
non-root shapes (lines 1569-1600). -/
def parentSec (S : ShapeData) (shapeParentId : Nat) : List Cell :=
  [mkU8 P3S_CHUNK_ID_SHAPE_PARENT_ID, mkU32 2, mkU16 shapeParentId,
   mkU8 P3S_CHUNK_ID_SHAPE_TRANSFORM, mkU32 36] ++
    f3Cells S.localPosition ++ f3Cells S.localRotation ++ f3Cells S.localScale

/-- SHAPE_PIVOT sub-chunk: the pivot is written offset by the AABB start
(lines 1602-1615). -/
def pivotSec (S : ShapeData) : List Cell :=
  [mkU8 P3S_CHUNK_ID_SHAPE_PIVOT, mkU32 12] ++
    f3Cells (S.pivot.subCoords S.aabbMin.1 S.aabbMin.2.1 S.aabbMin.2.2)

/-- OBJECT_COLLISION_BOX sub-chunk (lines 1617-1631). -/
def collisionSec (mn mx : Float3) : List Cell :=
  [mkU8 P3S_CHUNK_ID_OBJECT_COLLISION_BOX, mkU32 24] ++ f3Cells mn ++ f3Cells mx

/-- OBJECT_IS_HIDDEN sub-chunk (lines 1633-1643). -/
def hiddenSec : List Cell :=
  [mkU8 P3S_CHUNK_ID_OBJECT_IS_HIDDEN, mkU32 1, mkU8 1]

/-- SHAPE_PALETTE sub-chunk (lines 1645-1657). -/
def paletteSec (p : ColorPalette) : List Cell :=
  [mkU8 P3S_CHUNK_ID_SHAPE_PALETTE, mkU32 (paletteDataSize p)] ++ paletteDataCells p

/-- Block byte for one cell: AIR when empty, otherwise the color index
rewritten through the palette serialization table when one was produced
(lines 1671-1677). -/
def blockByte (pm : Option (List Nat)) (b : Nat) : Nat :=
  if b = SHAPE_COLOR_INDEX_AIR_BLOCK then SHAPE_COLOR_INDEX_AIR_BLOCK
  else match pm with
    | some m => m.getD b 0
    | none => b

/-- Coordinate order of the block grid: x outer, then y, then z,
shared by the writer loops (lines 1664-1681) and the reader loops
(lines 780-814). -/
def gridCoords (w h d : Nat) : List (Nat × Nat × Nat) :=
  (List.range w).flatMap fun x =>
    (List.range h).flatMap fun y =>
      (List.range d).map fun z => (x, y, z)

/-- Block byte of one grid cell as the writer emits it. -/
def writtenBlockByte (S : ShapeData) (pm : Option (List Nat))
    (c : Nat × Nat × Nat) : Nat :=
  blockByte pm (S.getBlock (S.aabbMin.1 + c.1) (S.aabbMin.2.1 + c.2.1)
    (S.aabbMin.2.2 + c.2.2))

/-- SHAPE_BLOCKS payload: the grid of the occupied AABB in x-major, then
y, then z order (lines 1664-1681). -/
def blockCells (S : ShapeData) (pm : Option (List Nat)) : List Cell :=
  (gridCoords S.width S.height S.depth).map fun c =>
    mkU8 (writtenBlockByte S pm c)

/-- SHAPE_BLOCKS sub-chunk (lines 1659-1681). -/
def blocksSec (S : ShapeData) (pm : Option (List Nat)) : List Cell :=
  [mkU8 P3S_CHUNK_ID_SHAPE_BLOCKS, mkU32 (S.width * S.height * S.depth)] ++
    blockCells S pm

/-- Clamped key length of a point name (CLAMP to 255, lines 1697, 1736). -/
def keyLenOf (key : List Nat) : Nat := min key.length 255

/-- One point sub-chunk (SHAPE_POINT or SHAPE_POINT_ROTATION): sub id,
u32 size, u8 name length, name bytes, three floats
(lines 1683-1720 and 1722-1759). -/
def pointSec (subId : Nat) (key : List Nat) (v : Float3) : List Cell :=
  [mkU8 subId, mkU32 (1 + keyLenOf key + 12), mkU8 (keyLenOf key)] ++
    (key.take (keyLenOf key)).map mkU8 ++ f3Cells v

/-- All SHAPE_POINT sub-chunks: positions are written offset by the AABB
start (lines 1710-1714). -/
def poiSecs (S : ShapeData) : List Cell :=
  S.pois.flatMap fun kv =>
    pointSec P3S_CHUNK_ID_SHAPE_POINT kv.1
      (kv.2.subCoords S.aabbMin.1 S.aabbMin.2.1 S.aabbMin.2.2)

/-- All SHAPE_POINT_ROTATION sub-chunks: rotations are written unchanged
(lines 1749-1753). -/
def poiRotationSecs (S : ShapeData) : List Cell :=
  S.poisRotation.flatMap fun kv =>
    pointSec P3S_CHUNK_ID_SHAPE_POINT_ROTATION kv.1 kv.2

/-- Name length as the C cast (uint8_t)strlen(name) (line 1454). -/
def nameLenOf (S : ShapeData) : Nat := S.name.length % 256

/-- SHAPE_NAME sub-chunk: bare u8 sub id, u8 length, name bytes, with no
u32 size field (lines 1775-1785). -/
def nameSec (S : ShapeData) : List Cell :=
  [mkU8 P3S_CHUNK_ID_SHAPE_NAME, mkU8 (nameLenOf S)] ++
    (S.name.take (nameLenOf S)).map mkU8

/-- Whether the writer emits a palette sub-chunk for this shape: always
for the root, and for children whose palette differs from the shared one
(line 1444; the C pointer comparison is modelled as structural
equality). -/
def writesPalette (S : ShapeData) (shapeParentId : Nat)
    (sharedPalette : ColorPalette) : Bool :=
  shapeParentId = 0 || S.palette ≠ sharedPalette

/-- The palette serialization table handed to the block writer: present
exactly when the palette sub-chunk is emitted (lines 1440-1449). -/
def paletteMappingOf (S : ShapeData) (shapeParentId : Nat)
    (sharedPalette : ColorPalette) : Option (List Nat) :=
  if writesPalette S shapeParentId sharedPalette then some S.palette.mapping else none

/-- Uncompressed size of a shape chunk, translated field by field from the
size computation of chunk_v6_shape_create_and_write_uncompressed_buffer
(lines 1517-1529).  The name term reserves a u32 size field that the
writer never emits, so this figure exceeds the bytes actually written by
4 when a name is present. -/
def shapeUncompressedSize (S : ShapeData) (shapeId shapeParentId : Nat)
    (sharedPalette : ColorPalette) : Nat :=
  let subheaderSize := 5
  let blockCount := S.width * S.height * S.depth
  let shapePaletteSize :=
    if writesPalette S shapeParentId sharedPalette then paletteDataSize S.palette else 0
  subheaderSize + 6 +
    (if shapeId > 0 then subheaderSize + 2 else 0) +
    (if shapeParentId > 0 then subheaderSize + 2 + subheaderSize + 36 else 0) +
    (subheaderSize + 12) + (subheaderSize + blockCount) +
    (if shapePaletteSize > 0 then subheaderSize + shapePaletteSize else 0) +
    (if S.collisionBox.isSome then subheaderSize + 24 else 0) +
    (if S.isHiddenSelf then subheaderSize + 1 else 0) +
    (S.pois.length * subheaderSize +
      (S.pois.map (fun kv => 1 + keyLenOf kv.1 + 12)).sum) +
    (S.poisRotation.length * subheaderSize +
      (S.poisRotation.map (fun kv => 1 + keyLenOf kv.1 + 12)).sum) +
    (if nameLenOf S > 0 then subheaderSize + 1 + nameLenOf S else 0)

/-- The four buffer bytes the shape size formula reserves for a u32 the
name writer never emits (modelled as zero bytes). -/
def namePadCells : List Cell := [mkU8 0, mkU8 0, mkU8 0, mkU8 0]

/-- Uncompressed payload of a shape chunk, mirroring the write order of
chunk_v6_shape_create_and_write_uncompressed_buffer (lines 1394-1788):
size, id, parent id and transform, pivot, collision box, hidden flag,
palette, blocks, points, point rotations, name.  Baked lighting is absent
(GLOBAL_LIGHTING_BAKE_WRITE_ENABLED off).  When a name is present the C
buffer ends with 4 bytes the size formula reserves but the writer never
fills; they are modelled as zero bytes. -/
def shapeEnvelopeCells (S : ShapeData) (shapeId shapeParentId : Nat)
    (sharedPalette : ColorPalette) : List Cell :=
  sizeSec S ++
    (if shapeId ≠ 0 then idSec shapeId else []) ++
    (if shapeParentId ≠ 0 then parentSec S shapeParentId else []) ++
    pivotSec S ++
    (match S.collisionBox with
      | some (mn, mx) => collisionSec mn mx
      | none => []) ++
    (if S.isHiddenSelf then hiddenSec else []) ++
    (if writesPalette S shapeParentId sharedPalette then paletteSec S.palette else []) ++
    blocksSec S (paletteMappingOf S shapeParentId sharedPalette) ++
    poiSecs S ++ poiRotationSecs S ++
    (if nameLenOf S > 0 then nameSec S ++ namePadCells else [])

/-- Abstract zlib: the codec is external to the repository; compression
of a buffer and its byte length are taken as parameters, with
decompression possibly failing. -/
structure Zlib where
  compress : List Cell → List Cell
  decompress : List Cell → Option (List Cell)

/-- Lossless zlib pair: decompression undoes compression. -/
def Zlib.Lossless (z : Zlib) : Prop :=
  ∀ l : List Cell, z.decompress (z.compress l) = some l

/-- The identity codec: a lossless Zlib instance used by witnesses. -/
def idZlib : Zlib := { compress := id, decompress := some }

/-- Chunk header plus payload written by write_chunk_in_buffer
(lines 1314-1349) with the compressed flag set, as used for SHAPE and
PALETTE chunks of the buffer writer. -/
def write_chunk_in_buffer (chunkID : Nat) (compressedData : List Cell)
    (uncompressedDataSize : Nat) : List Cell :=
  [mkU8 chunkID, mkU32 (byteLen compressedData), mkU8 1, mkU32 uncompressedDataSize] ++
    compressedData

/-- Full SHAPE chunk for one shape: compressed envelope with v6 framing
(chunk_v6_shape_create_and_write_compressed_buffer plus
write_chunk_in_buffer). -/
def shapeChunkCells (z : Zlib) (S : ShapeData) (shapeId shapeParentId : Nat)
    (sharedPalette : ColorPalette) : List Cell :=
  write_chunk_in_buffer P3S_CHUNK_ID_SHAPE
    (z.compress (shapeEnvelopeCells S shapeId shapeParentId sharedPalette))
    (shapeUncompressedSize S shapeId shapeParentId sharedPalette)

/-- Pre-order id assignment of create_shape_buffers (lines 1973-2019):
every shape receives the current counter value, the counter increments,
and children are visited in order carrying the id of their parent.
Returns the emitted (shapeId, parentId, data) list and the next counter
value. -/
def flattenList : List ShapeTree → Nat → Nat → List (Nat × Nat × ShapeData) × Nat
  | [], shapeId, _ => ([], shapeId)
  | .node d children :: ts, shapeId, shapeParentId =>
    let r := flattenList children (shapeId + 1) shapeId
    let r2 := flattenList ts r.2 shapeParentId
    ((shapeId, shapeParentId, d) :: r.1 ++ r2.1, r2.2)

/-- Pre-order id assignment of one tree. -/
def flattenTree (t : ShapeTree) (shapeId shapeParentId : Nat) :
    List (Nat × Nat × ShapeData) × Nat :=
  flattenList [t] shapeId shapeParentId

/-- PREVIEW chunk with v5 framing: u8 id, u32 size, raw payload
(write_preview_chunk_in_buffer, lines 1353-1392). -/
def previewChunkCells (previewData : List Cell) : List Cell :=
  [mkU8 P3S_CHUNK_ID_PREVIEW, mkU32 (byteLen previewData)] ++ previewData

/-- All SHAPE chunks of a tree in pre-order, each compressed, sharing the
palette of the root (serialization_v6_save_shape_as_buffer uses
shape_get_palette of the root as sharedPalette). -/
def shapeChunksCells (z : Zlib) (t : ShapeTree) : List Cell :=
  ((flattenTree t 1 0).1).flatMap fun e =>
    shapeChunkCells z e.2.2 e.1 e.2.1 t.data.palette

/-- serialization_v6_save_shape_as_buffer (lines 247-394): fails without a
shape; otherwise emits magic bytes, u32 version 6, u8 compression algo 1,
u32 total chunk size, then the optional preview chunk, the optional
artist palette chunk and the shape chunks in pre-order.  The C code
writes a placeholder total size and patches it at the end; the model
carries the final value directly. -/
def serialization_v6_save_shape_as_buffer (z : Zlib) (shape : Option ShapeTree)
    (artistPalette : Option ColorPalette) (previewData : Option (List Cell)) :
    Option (List Cell) :=
  match shape with
  | none => none
  | some t =>
    let hasPreview := match previewData with
      | some l => byteLen l > 0
      | none => false
    let previewPart := match previewData with
      | some l => if byteLen l > 0 then previewChunkCells l else []
      | none => []
    let palettePart := match artistPalette with
      | some p =>
        write_chunk_in_buffer P3S_CHUNK_ID_PALETTE (z.compress (paletteDataCells p))
          (paletteDataSize p)
      | none => []
    let chunks := previewPart ++ palettePart ++ shapeChunksCells z t
    some (MAGIC_BYTES.map mkU8 ++ [mkU32 6, mkU8 1, mkU32 (byteLen chunks)] ++ chunks)

/-! ## Reader (serialization_v6.c, read path) -/

/-- chunk_v6_read_identifier (lines 602-613): reads one byte from the
stream and validates it strictly inside (NONE, MAX); anything else,
including end of stream, yields NONE.  A failed read does not consume. -/
def chunk_v6_read_identifier (s : List Cell) : Nat × List Cell :=
  match s with
  | .u8 v :: r => if 0 < v ∧ v < P3S_CHUNK_ID_MAX then (v, r) else (0, r)
  | _ => (0, s)

/-- chunk_v6_read_size (lines 615-623): reads a u32, or 0 when the stream
is exhausted (without consuming). -/
def chunk_v6_read_size (s : List Cell) : Nat × List Cell :=
  match s with
  | .u32 v :: r => (v, r)
  | _ => (0, s)

/-- stream_skip over the cell stream: drops whole cells covering the
requested byte count. -/
def stream_skip (n : Nat) (s : List Cell) : List Cell := dropBytes n s

/-- chunk_v6_with_v5_header_skip (lines 674-681): reads a u32 size and
skips that many payload bytes; returns the bytes consumed (4 + size). -/
def chunk_v6_with_v5_header_skip (s : List Cell) : Nat × List Cell :=
  let (chunkSize, s1) := chunk_v6_read_size s
  (4 + chunkSize, stream_skip chunkSize s1)

/-- chunk_v6_read (lines 625-671): reads the v6 header (u32 stored size,
u8 compressed flag, u32 uncompressed size), rejects zero sizes, reads the
stored payload and decompresses it when flagged.  Returns the payload,
the stored size, the header uncompressed size and the remaining stream.
On failure the stream value is not used by any caller (the surrounding
loop stops), so it is returned unchanged. -/
def chunk_v6_read (z : Zlib) (s : List Cell) :
    Option (List Cell × Nat × Nat × List Cell) :=
  match s with
  | .u32 chunkSize :: .u8 isCompressed :: .u32 uncompressedSize :: rest =>
    if chunkSize = 0 ∨ uncompressedSize = 0 then none
    else
      match takeBytes chunkSize rest with
      | none => none
      | some (payload, rest2) =>
        if isCompressed ≠ 0 then
          match z.decompress payload with
          | some data => some (data, chunkSize, uncompressedSize, rest2)
          | none => none
        else some (payload, chunkSize, uncompressedSize, rest2)
  | _ => none

/-- Pop count RGBA colors (4 bytes each). -/
def popRGBAs : Nat → List Cell → List RGBAColor × List Cell
  | 0, l => ([], l)
  | n + 1, l =>
    let (r, l) := popU8 l
    let (g, l) := popU8 l
    let (b, l) := popU8 l
    let (a, l) := popU8 l
    let (cs, l) := popRGBAs n l
    (⟨r, g, b, a⟩ :: cs, l)

/-- Pop count emissive flags (1 byte each, nonzero means emissive). -/
def popBools : Nat → List Cell → List Bool × List Cell
  | 0, l => ([], l)
  | n + 1, l =>
    let (b, l) := popU8 l
    let (bs, l) := popBools n l
    (decide (b ≠ 0) :: bs, l)

/-- chunk_v6_read_palette_data (lines 689-720): parses a palette payload
in legacy or current layout and builds a palette clamped to 255 colors. -/
def chunk_v6_read_palette_data (cells : List Cell) (isLegacy : Bool) : ColorPalette :=
  let (colorCount, l) :=
    if isLegacy then
      let (_, l) := popU8 cells
      let (_, l) := popU8 l
      let (c, l) := popU16 l
      let (_, l) := popU8 l
      let (_, l) := popU8 l
      (c, l)
    else popU8 cells
  let (colors, l2) := popRGBAs colorCount l
  let (emissive, _) := popBools colorCount l2
  color_palette_new_from_data colorCount colors emissive

/-- chunk_v6_read_palette (lines 722-750): reads a full palette chunk;
returns the palette and the bytes consumed (9 + stored size), or fails. -/
def chunk_v6_read_palette (z : Zlib) (s : List Cell) (isLegacy : Bool) :
    Option (ColorPalette × Nat × List Cell) :=
  match chunk_v6_read z s with
  | none => none
  | some (chunkData, chunkSize, _, rest) =>
    some (chunk_v6_read_palette_data chunkData isLegacy,
      CHUNK_V6_HEADER_NO_ID_SIZE + chunkSize, rest)

/-- chunk_v6_read_palette_id (lines 752-766): reads the palette id chunk;
the id is the first byte of the payload. -/
def chunk_v6_read_palette_id (z : Zlib) (s : List Cell) :
    Option (Nat × Nat × List Cell) :=
  match chunk_v6_read z s with
  | none => none
  | some (chunkData, chunkSize, _, rest) =>
    some ((popU8 chunkData).1, CHUNK_V6_HEADER_NO_ID_SIZE + chunkSize, rest)

/-- Local transform triple (position, rotation, scale) as read from a
SHAPE_TRANSFORM sub-chunk. -/
structure LocalTransform where
  position : Float3
  rotation : Float3
  scale : Float3
deriving DecidableEq, Repr

/-- Default local transform of a freshly created shape: zero position and
rotation, unit scale (lines 880-884). -/
def defaultLocalTransform : LocalTransform :=
  { position := ⟨0, 0, 0⟩, rotation := ⟨0, 0, 0⟩, scale := ⟨1, 1, 1⟩ }

/-- State of the sub-chunk loop of chunk_v6_read_shape (lines 855-888):
the cursor is the remaining suffix of the envelope, totalSizeRead counts
bytes against the uncompressed size of the header, and the other fields
mirror the local variables of the C function.  blocksRest stores the
suffix at the SHAPE_BLOCKS size field for deferred processing. -/
structure EnvState where
  rest : List Cell
  totalSizeRead : Nat
  blocksRest : Option (List Cell)
  width : Nat
  height : Nat
  depth : Nat
  shapeId : Nat
  shapeParentId : Nat
  hasShape : Bool
  palette : Option ColorPalette
  paletteID : Nat
  localTransform : LocalTransform
  pivot : Float3
  hasPivot : Bool
  name : Option (List Nat)
  pois : List (List Nat × Float3)
  poisRotation : List (List Nat × Float3)
  collisionBox : Option (Float3 × Float3)
  isHiddenSelf : Nat
  rootShapePalette : Option ColorPalette
deriving DecidableEq, Repr

/-- Initial state of the envelope loop for a payload (lines 855-888). -/
def initEnvState (chunkData : List Cell) (paletteID : Nat)
    (rootShapePalette : Option ColorPalette) : EnvState :=
  { rest := chunkData, totalSizeRead := 0, blocksRest := none,
    width := 0, height := 0, depth := 0, shapeId := 1, shapeParentId := 0,
    hasShape := false, palette := none, paletteID := paletteID,
    localTransform := defaultLocalTransform, pivot := ⟨0, 0, 0⟩,
    hasPivot := false, name := none, pois := [], poisRotation := [],
    collisionBox := none, isHiddenSelf := 0,
    rootShapePalette := rootShapePalette }

/-- Shared body of the SHAPE_POINT and SHAPE_POINT_ROTATION cases
(lines 1011-1047 and 1048-1084): u32 size, u8 name length, name bytes,
three floats; the pair is inserted into the given map. -/
def readPointInto (st : EnvState) (uncompressedSize : Nat)
    (l : List Cell) (m : List (List Nat × Float3)) :
    List (List Nat × Float3) × List Cell × Nat :=
  let (sizeRead, l) := popU32 l
  let (nameLen, l) := popU8 l
  let (nameBytes, l) := popBytes nameLen l
  let (v, l) := popFloat3 l
  (assocSet m nameBytes v, l, st.totalSizeRead + sizeRead + 4)

/-- One iteration of the sub-chunk loop of chunk_v6_read_shape
(lines 889-1131).  The sub-chunk id byte has already advanced the cursor
and totalSizeRead by one when the switch runs, exactly as in the C code.
The SHAPE_BAKED_LIGHTING case is absent
(GLOBAL_LIGHTING_BAKE_READ_ENABLED off), so sub id 7 takes the default
branch. -/
def readShapeStep (uncompressedSize : Nat) (st : EnvState) : EnvState :=
  let (chunkID, l) := popU8 st.rest
  let st := { st with rest := l, totalSizeRead := st.totalSizeRead + 1 }
  if chunkID = P3S_CHUNK_ID_SHAPE_ID then
    let (sizeRead, l) := popU32 st.rest
    let (v, l) := popU16 l
    { st with
      rest := l
      shapeId := v
      totalSizeRead := st.totalSizeRead + sizeRead + 4 }
  else if chunkID = P3S_CHUNK_ID_SHAPE_PARENT_ID then
    let (sizeRead, l) := popU32 st.rest
    let (v, l) := popU16 l
    { st with
      rest := l
      shapeParentId := v
      totalSizeRead := st.totalSizeRead + sizeRead + 4 }
  else if chunkID = P3S_CHUNK_ID_SHAPE_TRANSFORM then
    let (sizeRead, l) := popU32 st.rest
    let (p, l) := popFloat3 l
    let (r, l) := popFloat3 l
    let (sc, l) := popFloat3 l
    { st with
      rest := l
      localTransform := ⟨p, r, sc⟩
      totalSizeRead := st.totalSizeRead + sizeRead + 4 }
  else if chunkID = P3S_CHUNK_ID_SHAPE_PIVOT then
    let (sizeRead, l) := popU32 st.rest
    let (v, l) := popFloat3 l
    { st with
      rest := l
      pivot := v
      hasPivot := true
      totalSizeRead := st.totalSizeRead + sizeRead + 4 }
  else if chunkID = P3S_CHUNK_ID_SHAPE_PALETTE then
    let (sizeRead, l) := popU32 st.rest
    let pal := chunk_v6_read_palette_data l false
    { st with
      rest := dropBytes sizeRead l
      palette := some pal
      paletteID := PALETTE_ID_CUSTOM
      rootShapePalette :=
        match st.rootShapePalette with
        | none => some pal
        | some p => some p
      totalSizeRead := st.totalSizeRead + sizeRead + 4 }
  else if chunkID = P3S_CHUNK_ID_OBJECT_COLLISION_BOX then
    let (sizeRead, l) := popU32 st.rest
    let (mn, l) := popFloat3 l
    let (mx, l) := popFloat3 l
    { st with
      rest := l
      collisionBox := some (mn, mx)
      totalSizeRead := st.totalSizeRead + sizeRead + 4 }
  else if chunkID = P3S_CHUNK_ID_OBJECT_IS_HIDDEN then
    let (sizeRead, l) := popU32 st.rest
    let (v, l) := popU8 l
    { st with
      rest := l
      isHiddenSelf := v
      totalSizeRead := st.totalSizeRead + sizeRead + 4 }
  else if chunkID = P3S_CHUNK_ID_SHAPE_NAME then
    let (nameLen, l) := popU8 st.rest
    let (nameBytes, l) := popBytes nameLen l
    { st with
      rest := l
      name := some nameBytes
      totalSizeRead := st.totalSizeRead + 1 + nameLen }
  else if chunkID = P3S_CHUNK_ID_SHAPE_SIZE then
    let (sizeRead, l) := popU32 st.rest
    let (w, l) := popU16 l
    let (h, l) := popU16 l
    let (d, l) := popU16 l
    { st with
      rest := l
      width := w
      height := h
      depth := d
      hasShape := true
      totalSizeRead := st.totalSizeRead + sizeRead + 4 }
  else if chunkID = P3S_CHUNK_ID_SHAPE_BLOCKS then
    let (sizeRead, l) := popU32 st.rest
    { st with
      rest := dropBytes sizeRead l
      blocksRest := some st.rest
      totalSizeRead := st.totalSizeRead + sizeRead + 4 }
  else if chunkID = P3S_CHUNK_ID_SHAPE_POINT then
    let (m, l, t) := readPointInto st uncompressedSize st.rest st.pois
    { st with rest := l, pois := m, totalSizeRead := t }
  else if chunkID = P3S_CHUNK_ID_SHAPE_POINT_ROTATION then
    let (m, l, t) := readPointInto st uncompressedSize st.rest st.poisRotation
    { st with rest := l, poisRotation := m, totalSizeRead := t }
  else
    if uncompressedSize ≥ st.totalSizeRead ∧
        uncompressedSize - st.totalSizeRead ≥ 4 then
      let sizeRead := CHUNK_V6_HEADER_NO_ID_SIZE + (popU32 st.rest).1
      { st with
        rest := dropBytes sizeRead st.rest
        totalSizeRead := st.totalSizeRead + sizeRead }
    else
      { st with totalSizeRead := uncompressedSize }

/-- The sub-chunk loop (line 889): iterates while totalSizeRead is below
the uncompressed size of the header.  Every iteration consumes at least
one byte of accounting, so a fuel of uncompressedSize always suffices. -/
def readShapeLoop (fuel uncompressedSize : Nat) (st : EnvState) : EnvState :=
  match fuel with
  | 0 => st
  | fuel + 1 =>
    if st.totalSizeRead < uncompressedSize then
      readShapeLoop fuel uncompressedSize (readShapeStep uncompressedSize st)
    else st

/-- One block of the triple loop of chunk_v6_read_shape_process_blocks
(lines 780-814): AIR is skipped; otherwise the index is translated for
the legacy palette ids or looked up in the shrink reference palette, with
index 0 on failure, and the block is added. -/
def processOneBlock (builtins : LegacyBuiltins) (paletteID : Nat)
    (shrinkPalette : Option ColorPalette)
    (acc : ColorPalette × List ((Nat × Nat × Nat) × Nat))
    (coords : Nat × Nat × Nat) (colorIndex : Nat) :
    ColorPalette × List ((Nat × Nat × Nat) × Nat) :=
  if colorIndex = SHAPE_COLOR_INDEX_AIR_BLOCK then acc
  else
    let (palette, idx, success) :=
      if paletteID = PALETTE_ID_IOS_ITEM_EDITOR_LEGACY then
        color_palette_check_and_add_default_color builtins.pico8p acc.1 colorIndex
      else if paletteID = PALETTE_ID_2021 then
        color_palette_check_and_add_default_color builtins.y2021 acc.1 colorIndex
      else
        match shrinkPalette with
        | some sp =>
          color_palette_check_and_add_color acc.1 (color_palette_get_color sp colorIndex)
        | none => (acc.1, colorIndex, true)
    (palette, acc.2 ++ [(coords, if success then idx else 0)])

/-- Inner fold of chunk_v6_read_shape_process_blocks over the x-major
coordinate order, reading one byte per cell. -/
def processBlocksFold (builtins : LegacyBuiltins) (paletteID : Nat)
    (shrinkPalette : Option ColorPalette) :
    List (Nat × Nat × Nat) → List Cell →
      ColorPalette × List ((Nat × Nat × Nat) × Nat) →
      ColorPalette × List ((Nat × Nat × Nat) × Nat)
  | [], _, acc => acc
  | c :: cs, l, acc =>
    let (b, l2) := popU8 l
    processBlocksFold builtins paletteID shrinkPalette cs l2
      (processOneBlock builtins paletteID shrinkPalette acc c b)

/-- chunk_v6_read_shape_process_blocks (lines 768-818): reads the u32
size field then streams w times h times d block bytes into the shape,
returning the final palette and the added blocks in order. -/
def chunk_v6_read_shape_process_blocks (builtins : LegacyBuiltins)
    (blocksRest : List Cell) (w h d paletteID : Nat)
    (shrinkPalette : Option ColorPalette) (palette : ColorPalette) :
    ColorPalette × List ((Nat × Nat × Nat) × Nat) :=
  let (_, l) := popU32 blocksRest
  processBlocksFold builtins paletteID shrinkPalette (gridCoords w h d) l (palette, [])

/-- A shape as observed by the caller after loading: block list with
indices into the final palette, dimensions, palette, attachment index of
the parent inside the declaration-order list, local transform, pivot,
optional name, points, optional custom collision box and hidden flag. -/
structure LoadedShape where
  blocks : List ((Nat × Nat × Nat) × Nat)
  width : Nat
  height : Nat
  depth : Nat
  palette : ColorPalette
  parentIdx : Option Nat
  localTransform : LocalTransform
  pivot : Float3
  name : Option (List Nat)
  pois : List (List Nat × Float3)
  poisRotation : List (List Nat × Float3)
  collisionBox : Option (Float3 × Float3)
  isHiddenSelf : Bool
deriving DecidableEq, Repr

/-- Block lookup of a loaded shape at relative coordinates. -/
def LoadedShape.blockAt (L : LoadedShape) (c : Nat × Nat × Nat) : Option Nat :=
  (L.blocks.find? (fun p => p.1 = c)).map Prod.snd

/-- Modelled from the spec: shape_reset_pivot_to_center sets the pivot of
a shape without a stored pivot to the center of its bounding box. -/
def defaultPivot (w h d : Nat) : Float3 :=
  ⟨(w : Rat) / 2, (h : Rat) / 2, (d : Rat) / 2⟩

/-- Load settings (LoadShapeSettings): mutability and lighting flags. -/
structure LoadShapeSettings where
  isMutable : Bool
  lighting : Bool
deriving DecidableEq, Repr

/-- Post-loop phase of chunk_v6_read_shape (lines 1133-1282): palette
compatibility resolution, deferred block processing, point assignment,
parenting with the stored transform when the parent lookup succeeds,
pivot, name, collision box and hidden flag.  The shape is appended to the
declaration-order list before the parent lookup, as in the C code.
Fails when no SHAPE_SIZE sub-chunk created a shape. -/
def chunk_v6_resolve_shape (builtins : LegacyBuiltins) (st : EnvState)
    (shapes : List LoadedShape) (filePalette : Option ColorPalette)
    (paletteIDArg : Nat) :
    Option (LoadedShape × List LoadedShape × Option ColorPalette) :=
  if st.hasShape = false then none
  else
    let resolved :
        ColorPalette × Nat × Option ColorPalette :=
      match st.rootShapePalette, st.palette with
      | some rsp, none => (rsp, PALETTE_ID_CUSTOM, none)
      | _, some p => (p, PALETTE_ID_CUSTOM, none)
      | none, none =>
        match filePalette with
        | some fp =>
          if SHAPE_COLOR_INDEX_MAX_COUNT ≤ fp.colorCount then
            (color_palette_new, PALETTE_ID_CUSTOM, some fp)
          else (color_palette_new_copy fp, PALETTE_ID_CUSTOM, none)
        | none => (color_palette_new, st.paletteID, none)
    let (shapePalette, paletteID, shrinkPalette) := resolved
    let (finalPalette, blocks) :=
      match st.blocksRest with
      | some br =>
        chunk_v6_read_shape_process_blocks builtins br st.width st.height st.depth
          paletteID shrinkPalette shapePalette
      | none => (shapePalette, [])
    let selfIdx := shapes.length
    let parentOk :=
      1 ≤ st.shapeParentId ∧ st.shapeParentId - 1 < selfIdx + 1
    let L : LoadedShape :=
      { blocks := blocks, width := st.width, height := st.height,
        depth := st.depth, palette := finalPalette,
        parentIdx := if parentOk then some (st.shapeParentId - 1) else none,
        localTransform :=
          if parentOk then st.localTransform else defaultLocalTransform,
        pivot := if st.hasPivot then st.pivot
          else defaultPivot st.width st.height st.depth,
        name := st.name, pois := st.pois, poisRotation := st.poisRotation,
        collisionBox := st.collisionBox,
        isHiddenSelf := st.isHiddenSelf = 1 }
    some (L, shapes ++ [L], st.rootShapePalette)

/-- chunk_v6_read_shape (lines 820-1283): reads and decompresses the
shape chunk, runs the sub-chunk loop with fuel equal to the uncompressed
size declared by the header (each iteration accounts at least one byte),
then resolves palette modes, blocks and parenting.  Returns the bytes
consumed (9 + stored size), the loaded shape, the updated
declaration-order list, the updated root palette and the remaining
stream. -/
def chunk_v6_read_shape (z : Zlib) (builtins : LegacyBuiltins) (s : List Cell)
    (shapes : List LoadedShape) (settings : LoadShapeSettings)
    (filePalette : Option ColorPalette) (paletteID : Nat)
    (rootShapePalette : Option ColorPalette) :
    Option (Nat × LoadedShape × List LoadedShape × Option ColorPalette × List Cell) :=
  match chunk_v6_read z s with
  | none => none
  | some (chunkData, chunkSize, uncompressedSize, rest) =>
    let st := readShapeLoop uncompressedSize uncompressedSize
      (initEnvState chunkData paletteID rootShapePalette)
    match chunk_v6_resolve_shape builtins st shapes filePalette paletteID with
    | none => none
    | some (L, shapes2, rsp2) =>
      some (CHUNK_V6_HEADER_NO_ID_SIZE + chunkSize, L, shapes2, rsp2, rest)

/-! ## Top-level asset loading (serialization_load_assets_v6) -/

/-- Asset filter values; modelled from the spec (an AssetType bitmask
with Palette, Shape, Object flags and an Any value). -/
def AssetType_Palette : Nat := 1

/-- Shape filter bit; modelled from the spec. -/
def AssetType_Shape : Nat := 2

/-- Object filter bit; modelled from the spec. -/
def AssetType_Object : Nat := 4

/-- Filter value accepting any asset; modelled from the spec. -/
def AssetType_Any : Nat := 7

/-- An entry of the returned asset list.  A palette asset carries an
optional palette because the C code pushes the palette pointer before
checking whether the read succeeded. -/
inductive Asset where
  | palette (p : Option ColorPalette)
  | shape (s : LoadedShape)
deriving DecidableEq, Repr

/-- Accumulated state of the chunk loop of serialization_load_assets_v6
(lines 2045-2080): the asset list, the standalone file palette and
whether it was pushed to the list, the shared root shape palette, the
current palette id, the declaration-order shape list and the error
flag. -/
structure LoadAcc where
  list : List Asset
  serializedPalette : Option ColorPalette
  serializedPaletteAssigned : Bool
  rootShapePalette : Option ColorPalette
  paletteID : Nat
  shapes : List LoadedShape
  error : Bool
deriving DecidableEq, Repr

/-- Initial accumulator: empty lists, no palettes, legacy pico8 palette
id by default (line 2075), no error. -/
def initLoadAcc : LoadAcc :=
  { list := [], serializedPalette := none, serializedPaletteAssigned := false,
    rootShapePalette := none, paletteID := PALETTE_ID_IOS_ITEM_EDITOR_LEGACY,
    shapes := [], error := false }

/-- One iteration of the chunk loop of serialization_load_assets_v6
(lines 2078-2174): reads a chunk id and dispatches.  Returns the new
stream, the bytes this iteration adds to totalSizeRead (the chunk id
byte plus whatever the case consumed; the C code accumulates the same
amounts with compound assignments) and the new accumulator. -/
def loadStep (z : Zlib) (builtins : LegacyBuiltins) (filterMask : Nat)
    (settings : LoadShapeSettings) (s : List Cell)
    (acc : LoadAcc) : List Cell × Nat × LoadAcc :=
  let (chunkID, s) := chunk_v6_read_identifier s
  if chunkID = P3S_CHUNK_ID_NONE then
    (s, 1, { acc with error := true })
  else if chunkID = P3S_CHUNK_ID_PALETTE_LEGACY ∨ chunkID = P3S_CHUNK_ID_PALETTE then
    match chunk_v6_read_palette z s (chunkID = P3S_CHUNK_ID_PALETTE_LEGACY) with
    | none =>
      let acc := { acc with
        serializedPalette := none
        paletteID := PALETTE_ID_CUSTOM }
      let acc :=
        if filterMask = AssetType_Any ∨ 0 < filterMask &&& AssetType_Palette then
          { acc with
            list := acc.list ++ [Asset.palette none]
            serializedPaletteAssigned := true }
        else acc
      (s, 1, { acc with error := true })
    | some (p, sizeRead, s2) =>
      let acc := { acc with
        serializedPalette := some p
        paletteID := PALETTE_ID_CUSTOM }
      let acc :=
        if filterMask = AssetType_Any ∨ 0 < filterMask &&& AssetType_Palette then
          { acc with
            list := acc.list ++ [Asset.palette (some p)]
            serializedPaletteAssigned := true }
        else acc
      (s2, 1 + sizeRead, acc)
  else if chunkID = P3S_CHUNK_ID_PALETTE_ID then
    match chunk_v6_read_palette_id z s with
    | none => (s, 1, { acc with error := true })
    | some (pid, sizeRead, s2) =>
      (s2, 1 + sizeRead, { acc with paletteID := pid })
  else if chunkID = P3S_CHUNK_ID_SHAPE then
    match chunk_v6_read_shape z builtins s acc.shapes settings
        acc.serializedPalette acc.paletteID acc.rootShapePalette with
    | none => (s, 1, { acc with error := true })
    | some (sizeRead, L, shapes2, rsp2, s2) =>
      let acc := { acc with shapes := shapes2, rootShapePalette := rsp2 }
      let acc :=
        if filterMask = AssetType_Any ∨
            0 < filterMask &&& (AssetType_Shape ||| AssetType_Object) then
          { acc with list := acc.list ++ [Asset.shape L] }
        else acc
      (s2, 1 + sizeRead, acc)
  else
    let (skipped, s2) := chunk_v6_with_v5_header_skip s
    (s2, 1 + skipped, acc)

/-- The chunk loop of serialization_load_assets_v6: iterates while
totalSizeRead is below totalSize and no error occurred, adding the bytes
consumed by each iteration to totalSizeRead.  Every iteration consumes
at least one byte of accounting, so a fuel of totalSize always
suffices. -/
def loadLoop (z : Zlib) (builtins : LegacyBuiltins) (filterMask : Nat)
    (settings : LoadShapeSettings) : Nat → List Cell → Nat → Nat → LoadAcc → LoadAcc
  | 0, _, _, _, acc => acc
  | fuel + 1, s, totalSize, totalSizeRead, acc =>
    if totalSizeRead < totalSize ∧ acc.error = false then
      let (s2, consumed, acc2) := loadStep z builtins filterMask settings s acc
      loadLoop z builtins filterMask settings fuel s2 totalSize
        (totalSizeRead + consumed) acc2
    else acc

/-- Result handed to the caller: the asset list and whether the loop
stopped on an error (the C code logs the error and still returns the
list). -/
structure LoadResult where
  assets : List Asset
  error : Bool
deriving DecidableEq, Repr

/-- serialization_load_assets_v6 (lines 2021-2187): reads the compression
algo byte (rejecting values above 1) and the total size, runs the chunk
loop, and returns the accumulated asset list together with the error
flag.  An unassigned file palette is released at the end (a no-op at the
value level). -/
def serialization_load_assets_v6 (z : Zlib) (builtins : LegacyBuiltins)
    (s : List Cell) (filterMask : Nat) (settings : LoadShapeSettings) :
    Option LoadResult :=
  match s with
  | .u8 algo :: .u32 totalSize :: rest =>
    if algo ≥ 2 then none
    else
      let acc := loadLoop z builtins filterMask settings totalSize rest totalSize 0
        initLoadAcc
      some { assets := acc.list, error := acc.error }
  | _ => none

/-- readMagicBytes of serialization.c (lines 21-34): checks the magic
bytes one by one, returning the rest of the stream on success. -/
def checkMagic : List Nat → List Cell → Option (List Cell)
  | [], s => some s
  | m :: ms, .u8 v :: s => if v = m then checkMagic ms s else none
  | _ :: _, _ => none

/-- Magic byte check of serialization.c (readMagicBytes, lines 21-34)
followed by the u32 format version dispatch: only version 6 is handled
here, mirroring the load entry points of serialization.c. -/
def loadAssetsFromBuffer (z : Zlib) (builtins : LegacyBuiltins)
    (buf : List Cell) (filterMask : Nat) (settings : LoadShapeSettings) :
    Option LoadResult :=
  match checkMagic MAGIC_BYTES buf with
  | none => none
  | some s =>
    match s with
    | .u32 version :: rest =>
      if version = 6 then serialization_load_assets_v6 z builtins rest filterMask settings
      else none
    | _ => none

/-! ## Concrete instances used by witnesses and counterexamples -/

/-- Trivial built-in tables for concrete runs (no claim considered here
exercises the legacy palette contents). -/
def cexBuiltins : LegacyBuiltins := { pico8p := [], y2021 := [] }

/-- Load settings used by concrete runs. -/
def cexSettings : LoadShapeSettings := { isMutable := true, lighting := false }

/-- One-color palette produced by the concrete palette chunk below. -/
def cexPalette : ColorPalette :=
  { entries := [(⟨255, 0, 0, 255⟩, false)], mapping := [0] }

/-- Raw (uncompressed) PALETTE chunk holding one red color: id 16, v6
header with stored and uncompressed size 6, then count 1, RGBA, one
emissive byte. -/
def cexPaletteChunk : List Cell :=
  [mkU8 16, mkU32 6, mkU8 0, mkU32 6,
   mkU8 1, mkU8 255, mkU8 0, mkU8 0, mkU8 255, mkU8 0]

/-- Well-formed v6 stream (after magic and version) holding exactly the
palette chunk: algo byte 1, total size 16, one chunk. -/
def cexBaseStream : List Cell := [mkU8 1, mkU32 16] ++ cexPaletteChunk

/-- A chunk with the given id and V5 framing (u8 id, u32 size 5, five
payload bytes spelling hello). -/
def cexUnknownChunk (i : Nat) : List Cell :=
  [mkU8 i, mkU32 5, mkU8 104, mkU8 101, mkU8 108, mkU8 108, mkU8 111]

/-- The base stream with the extra chunk injected at the first
inter-chunk boundary; the total size grows by the 10 injected bytes. -/
def cexInjectedStream (i : Nat) : List Cell :=
  [mkU8 1, mkU32 26] ++ cexUnknownChunk i ++ cexPaletteChunk

/-- Stream holding a valid palette chunk followed by an invalid chunk id
byte 0, with the total size covering both. -/
def c3BadStream : List Cell := [mkU8 1, mkU32 17] ++ cexPaletteChunk ++ [mkU8 0]

/-- Envelope state sitting at an unrecognized sub-chunk (id 9) whose
declared subSize is 0, followed by an OBJECT_IS_HIDDEN sub-chunk, inside
an envelope of 22 declared bytes (a SHAPE_SIZE sub-chunk of 11 bytes was
already consumed). -/
def c6State : EnvState :=
  { initEnvState [] 0 none with
    rest := [Cell.u8 9, Cell.u32 0, Cell.u8 24, Cell.u32 1, Cell.u8 1]
    totalSizeRead := 11
    width := 1
    height := 1
    depth := 1
    hasShape := true }

/-- Envelope of 22 declared bytes: SHAPE_SIZE, then the unknown sub-chunk
of c6State, then OBJECT_IS_HIDDEN. -/
def c6Envelope : List Cell :=
  [mkU8 4, mkU32 6, mkU16 1, mkU16 1, mkU16 1,
   mkU8 9, mkU32 0,
   mkU8 24, mkU32 1, mkU8 1]

/-- The empty scene buffer claim C9 describes: magic bytes, u32 version
6, u8 compression algo 1, u32 total size 0. -/
def c9EmptyBuffer : List Cell :=
  MAGIC_BYTES.map mkU8 ++ [mkU32 6, mkU8 1, mkU32 0]

/-- The palette as reconstructed after a serialization round trip: the
entries in canonical serialized order with the identity mapping, exactly
what color_palette_new_from_data builds from the writer output. -/
def serializedPaletteOf (p : ColorPalette) : ColorPalette :=
  { entries := (List.range p.colorCount).map p.orderedEntryAt,
    mapping := List.range p.colorCount }

/-- Raw (uncompressed) top-level PALETTE chunk for a palette value:
chunk id 16, v6 header with equal stored and uncompressed sizes and the
compressed flag clear, then the palette payload. -/
def rawPaletteChunk (p : ColorPalette) : List Cell :=
  [mkU8 P3S_CHUNK_ID_PALETTE, mkU32 (paletteDataSize p), mkU8 0,
    mkU32 (paletteDataSize p)] ++ paletteDataCells p

/-- Stream for claim C3: a valid PALETTE chunk followed by an invalid
chunk id byte 0, with totalSize covering both. -/
def c3File (p : ColorPalette) : List Cell :=
  [mkU8 1, mkU32 (10 + paletteDataSize p + 1)] ++ rawPaletteChunk p ++ [mkU8 0]

/-- Well-formed shape: accessor results fit the serialized field widths.
Dimensions fit u16 and their product fits u32; the palette is
well-formed; every block inside the occupied AABB is AIR or a valid
palette index; names and point keys are at most 255 bytes of byte-sized
values; point keys are distinct (they come from maps). -/
def ShapeData.Wf (S : ShapeData) : Prop :=
  S.width < 65536 ∧ S.height < 65536 ∧ S.depth < 65536 ∧
    S.width * S.height * S.depth < 4294967296 ∧
    S.palette.Wf ∧
    (∀ x < S.width, ∀ y < S.height, ∀ z < S.depth,
      S.getBlock (S.aabbMin.1 + x) (S.aabbMin.2.1 + y) (S.aabbMin.2.2 + z) =
          SHAPE_COLOR_INDEX_AIR_BLOCK ∨
        S.getBlock (S.aabbMin.1 + x) (S.aabbMin.2.1 + y) (S.aabbMin.2.2 + z) <
          S.palette.colorCount) ∧
    S.name.length ≤ 255 ∧ (∀ b ∈ S.name, b < 256) ∧
    (∀ kv ∈ S.pois, kv.1.length ≤ 255 ∧ ∀ b ∈ kv.1, b < 256) ∧
    (S.pois.map Prod.fst).Nodup ∧
    (∀ kv ∈ S.poisRotation, kv.1.length ≤ 255 ∧ ∀ b ∈ kv.1, b < 256) ∧
    (S.poisRotation.map Prod.fst).Nodup

instance (S : ShapeData) : Decidable S.Wf := by
  unfold ShapeData.Wf
  infer_instance

/-- Cells following the SHAPE_BLOCKS sub-chunk in a writer envelope. -/
def afterBlocksCells (S : ShapeData) : List Cell :=
  poiSecs S ++ poiRotationSecs S ++
    (if nameLenOf S > 0 then nameSec S ++ namePadCells else [])

/-- The envelope-loop state reached after parsing a writer-produced
envelope (established by the readShapeLoop_writer theorem below). -/
def writerEnvState (S : ShapeData) (shapeId shapeParentId : Nat)
    (sharedPalette : ColorPalette) (pal0 : Nat)
    (rsp : Option ColorPalette) : EnvState :=
  { rest := if nameLenOf S > 0 then [mkU8 0, mkU8 0, mkU8 0] else []
    totalSizeRead := shapeUncompressedSize S shapeId shapeParentId sharedPalette
    blocksRest := some (Cell.u32 (S.width * S.height * S.depth) ::
      (blockCells S (paletteMappingOf S shapeParentId sharedPalette) ++
        afterBlocksCells S))
    width := S.width
    height := S.height
    depth := S.depth
    shapeId := shapeId
    shapeParentId := shapeParentId
    hasShape := true
    palette := if writesPalette S shapeParentId sharedPalette then
        some (serializedPaletteOf S.palette)
      else none
    paletteID := if writesPalette S shapeParentId sharedPalette then
        PALETTE_ID_CUSTOM
      else pal0
    localTransform := if shapeParentId ≠ 0 then
        ⟨S.localPosition, S.localRotation, S.localScale⟩
      else defaultLocalTransform
    pivot := S.pivot.subCoords S.aabbMin.1 S.aabbMin.2.1 S.aabbMin.2.2
    hasPivot := true
    name := if nameLenOf S > 0 then some S.name else none
    pois := S.pois.map (fun kv =>
      (kv.1, kv.2.subCoords S.aabbMin.1 S.aabbMin.2.1 S.aabbMin.2.2))
    poisRotation := S.poisRotation
    collisionBox := S.collisionBox
    isHiddenSelf := if S.isHiddenSelf then 1 else 0
    rootShapePalette := if writesPalette S shapeParentId sharedPalette then
        (match rsp with
          | none => some (serializedPaletteOf S.palette)
          | some x => some x)
      else rsp }

/-- The shape the caller observes after loading a writer-produced root
shape chunk (established by the load theorems below): blocks are the
non-AIR cells of the occupied AABB in relative coordinates with indices
remapped through the writer's palette serialization table, the palette is
the serialized-order reconstruction, the pivot and point positions are
offset by the AABB start, rotations are unchanged, the parent link and
the local transform revert to the defaults. -/
def writerLoadedShape (S : ShapeData) : LoadedShape :=
  { blocks := ((gridCoords S.width S.height S.depth).filter
      (fun c => writtenBlockByte S (some S.palette.mapping) c ≠
        SHAPE_COLOR_INDEX_AIR_BLOCK)).map
      (fun c => (c, writtenBlockByte S (some S.palette.mapping) c))
    width := S.width
    height := S.height
    depth := S.depth
    palette := serializedPaletteOf S.palette
    parentIdx := none
    localTransform := defaultLocalTransform
    pivot := S.pivot.subCoords S.aabbMin.1 S.aabbMin.2.1 S.aabbMin.2.2
    name := if nameLenOf S > 0 then some S.name else none
    pois := S.pois.map (fun kv =>
      (kv.1, kv.2.subCoords S.aabbMin.1 S.aabbMin.2.1 S.aabbMin.2.2))
    poisRotation := S.poisRotation
    collisionBox := S.collisionBox
    isHiddenSelf := S.isHiddenSelf }

/-- The buffer serialization_v6_save_shape_as_buffer produces for a
single root shape with no preview and no artist palette. -/
def singleShapeBuffer (z : Zlib) (S : ShapeData) : List Cell :=
  MAGIC_BYTES.map mkU8 ++
    [mkU32 6, mkU8 1, mkU32 (byteLen (shapeChunkCells z S 1 0 S.palette))] ++
    shapeChunkCells z S 1 0 S.palette

/-- A file palette with exactly SHAPE_COLOR_INDEX_MAX_COUNT = 255 colors:
grey levels, identity serialization order. -/
def c7Palette : ColorPalette :=
  { entries := (List.range 255).map (fun i => (⟨i, i, i, 255⟩, false)),
    mapping := List.range 255 }

/-- Envelope-loop state of a shape whose envelope carried no
SHAPE_PALETTE sub-chunk, under a file with no shape loaded yet: only a
1x1x1 size was read.  Used to exercise the palette resolution modes. -/
def c7State : EnvState :=
  { initEnvState [] PALETTE_ID_CUSTOM none with
    width := 1
    height := 1
    depth := 1
    hasShape := true }

/-- A concrete 1x1x1 shape already in its own AABB-min frame (start at
the origin), with one red block, a nonzero local position and no name. -/
def c1Shape : ShapeData :=
  { getBlock := fun x y z => if x = 0 ∧ y = 0 ∧ z = 0 then 0 else 255
    aabbMin := (0, 0, 0)
    width := 1
    height := 1
    depth := 1
    palette := cexPalette
    localPosition := ⟨1, 2, 3⟩
    localRotation := ⟨0, 0, 0⟩
    localScale := ⟨1, 1, 1⟩
    pivot := ⟨1/2, 1/2, 1/2⟩
    pois := []
    poisRotation := []
    collisionBox := none
    isHiddenSelf := false
    name := [] }

/-- A concrete shape whose single block sits at absolute (5, 2, 7), with
a point of interest at (5.5, 2.5, 7.5) and a point rotation. -/
def c4Shape : ShapeData :=
  { getBlock := fun x y z => if x = 5 ∧ y = 2 ∧ z = 7 then 0 else 255
    aabbMin := (5, 2, 7)
    width := 1
    height := 1
    depth := 1
    palette := cexPalette
    localPosition := ⟨0, 0, 0⟩
    localRotation := ⟨0, 0, 0⟩
    localScale := ⟨1, 1, 1⟩
    pivot := ⟨11/2, 5/2, 15/2⟩
    pois := [([112], ⟨11/2, 5/2, 15/2⟩)]
    poisRotation := [([112], ⟨1, 2, 3⟩)]
    collisionBox := none
    isHiddenSelf := false
    name := [67, 52] }

/-- A three-shape tree: one root with two children. -/
def c8Tree : ShapeTree := .node c1Shape [.node c1Shape [], .node c1Shape []]

/-- Envelope state of a root shape (parent id 0) whose envelope carried a
SHAPE_TRANSFORM sub-chunk: the stored transform sits in the loop state. -/
def c10State : EnvState :=
  { c7State with localTransform := ⟨⟨1, 2, 3⟩, ⟨4, 5, 6⟩, ⟨7, 8, 9⟩⟩ }

/-- The shape chunk_v6_read_shape resolution produces from the c10State
loop state: no blocks, the empty palette, no parent and the default
transform, a centered default pivot. -/
def c10Loaded : LoadedShape :=
  { blocks := [], width := 1, height := 1, depth := 1,
    palette := color_palette_new, parentIdx := none,
    localTransform := defaultLocalTransform, pivot := defaultPivot 1 1 1,
    name := none, pois := [], poisRotation := [], collisionBox := none,
    isHiddenSelf := false }

/-- The c10State loop state with parent id 1: a non-root shape whose
envelope carried a SHAPE_TRANSFORM sub-chunk. -/
def c8State : EnvState :=
  { c10State with shapeParentId := 1 }

/-- The shape resolved from c8State: attached to declaration index 0 with
the stored transform. -/
def c8Loaded : LoadedShape :=
  { c10Loaded with
    parentIdx := some 0
    localTransform := ⟨⟨1, 2, 3⟩, ⟨4, 5, 6⟩, ⟨7, 8, 9⟩⟩ }


/-! ## Basic buffer lemmas -/

theorem Cell.width_pos (c : Cell) : 1 ≤ c.width := by
  cases c <;> simp [Cell.width]

@[simp] theorem byteLen_nil : byteLen [] = 0 := rfl

@[simp] theorem byteLen_cons (c : Cell) (l : List Cell) :
    byteLen (c :: l) = c.width + byteLen l := by
  simp [byteLen]

@[simp] theorem byteLen_append (l r : List Cell) :
    byteLen (l ++ r) = byteLen l + byteLen r := by
  simp [byteLen]

theorem dropBytes_zero (l : List Cell) : dropBytes 0 l = l := by
  cases l <;> simp [dropBytes]

theorem dropBytes_append (l r : List Cell) (k : Nat) :
    dropBytes (byteLen l + k) (l ++ r) = dropBytes k r := by
  induction l generalizing k with
  | nil => simp [byteLen]
  | cons c l ih =>
    have hw : 1 ≤ c.width := Cell.width_pos c
    have hne : c.width + byteLen l + k ≠ 0 := by omega
    simp only [byteLen_cons, List.cons_append, dropBytes, hne, if_false]
    have h2 : c.width + byteLen l + k - c.width = byteLen l + k := by omega
    rw [h2]
    simpa using ih k

theorem dropBytes_exact (l r : List Cell) :
    dropBytes (byteLen l) (l ++ r) = r := by
  have := dropBytes_append l r 0
  simpa [dropBytes_zero] using this

theorem takeBytes_zero (l : List Cell) : takeBytes 0 l = some ([], l) := by
  rw [takeBytes.eq_def]
  simp

theorem takeBytes_append (l r : List Cell) :
    takeBytes (byteLen l) (l ++ r) = some (l, r) := by
  induction l generalizing r with
  | nil => simp [byteLen, takeBytes_zero]
  | cons c l ih =>
    have hw : 1 ≤ c.width := Cell.width_pos c
    have hne : c.width + byteLen l ≠ 0 := by omega
    rw [byteLen_cons, List.cons_append, takeBytes.eq_def]
    simp only [hne, if_false]
    have hle : c.width ≤ c.width + byteLen l := by omega
    simp only [hle, if_true]
    have : c.width + byteLen l - c.width = byteLen l := by omega
    rw [this, ih]

@[simp] theorem popU8_u8 (v : Nat) (r : List Cell) : popU8 (.u8 v :: r) = (v, r) := rfl

@[simp] theorem popU16_u16 (v : Nat) (r : List Cell) : popU16 (.u16 v :: r) = (v, r) := rfl

@[simp] theorem popU32_u32 (v : Nat) (r : List Cell) : popU32 (.u32 v :: r) = (v, r) := rfl

@[simp] theorem popF32_f32 (v : F32) (r : List Cell) : popF32 (.f32 v :: r) = (v, r) := rfl

@[simp] theorem popFloat3_f3Cells (v : Float3) (r : List Cell) :
    popFloat3 (f3Cells v ++ r) = (v, r) := rfl

theorem byteLen_flatMap {α : Type} (l : List α) (f : α → List Cell) :
    byteLen (l.flatMap f) = (l.map (fun x => byteLen (f x))).sum := by
  induction l with
  | nil => rfl
  | cons x l ih => simp [List.flatMap_cons, ih]

theorem popBytes_map (bs : List Nat) (n : Nat) (r : List Cell)
    (hn : n = bs.length) (h : ∀ b ∈ bs, b < 256) :
    popBytes n (bs.map mkU8 ++ r) = (bs, r) := by
  subst hn
  induction bs with
  | nil => rfl
  | cons b bs ih =>
    have hb : b % 256 = b := Nat.mod_eq_of_lt (h b (by simp))
    simp only [List.length_cons, List.map_cons, List.cons_append, popBytes,
      mkU8, popU8_u8, hb, ih (fun x hx => h x (by simp [hx]))]

theorem popRGBAs_flat (cs : List RGBAColor) (n : Nat) (r : List Cell)
    (hn : n = cs.length) (h : ∀ c ∈ cs, c.Wf) :
    popRGBAs n (cs.flatMap rgbaCells ++ r) = (cs, r) := by
  subst hn
  induction cs with
  | nil => rfl
  | cons c cs ih =>
    obtain ⟨h1, h2, h3, h4⟩ := h c (by simp)
    simp only [List.length_cons, List.flatMap_cons, rgbaCells, mkU8,
      List.cons_append, List.append_assoc, List.nil_append, popRGBAs, popU8_u8,
      Nat.mod_eq_of_lt h1, Nat.mod_eq_of_lt h2, Nat.mod_eq_of_lt h3,
      Nat.mod_eq_of_lt h4]
    rw [ih (fun x hx => h x (by simp [hx]))]

theorem popBools_map (bs : List Bool) (n : Nat) (r : List Cell)
    (hn : n = bs.length) :
    popBools n ((bs.map (fun e => mkU8 (if e then 1 else 0))) ++ r) =
      (bs, r) := by
  subst hn
  induction bs with
  | nil => rfl
  | cons b bs ih =>
    have hhead : mkU8 (if b then 1 else 0) = Cell.u8 (if b = true then 1 else 0) := by
      cases b <;> rfl
    simp only [List.length_cons, List.map_cons, List.cons_append, popBools,
      hhead, popU8_u8, ih]
    cases b <;> simp

theorem byteLen_rgbaCells (c : RGBAColor) : byteLen (rgbaCells c) = 4 := rfl

theorem byteLen_f3Cells (v : Float3) : byteLen (f3Cells v) = 12 := rfl

theorem byteLen_paletteDataCells (p : ColorPalette) :
    byteLen (paletteDataCells p) = paletteDataSize p := by
  simp only [paletteDataCells, paletteDataSize, byteLen_cons, byteLen_append,
    byteLen_flatMap]
  have h1 : ((List.range p.colorCount).map
      (fun j => byteLen (rgbaCells (p.orderedEntryAt j).1))).sum =
      4 * p.colorCount := by
    rw [List.map_congr_left (fun j _ => byteLen_rgbaCells (p.orderedEntryAt j).1)]
    simp [List.map_const', List.sum_replicate, Nat.smul_one_eq_cast]
    omega
  have h2 : byteLen ((List.range p.colorCount).map
      (fun j => mkU8 (if (p.orderedEntryAt j).2 then 1 else 0))) =
      p.colorCount := by
    simp only [byteLen, List.map_map]
    have : ∀ j ∈ List.range p.colorCount,
        (Cell.width ∘ fun j => mkU8 (if (p.orderedEntryAt j).2 then 1 else 0)) j
          = 1 := by
      intro j _
      simp [mkU8, Cell.width]
    rw [List.map_congr_left this]
    simp [List.map_const', List.sum_replicate, Nat.smul_one_eq_cast]
  rw [h1, h2]
  simp only [mkU8, Cell.width]
  omega

/-- Every serialized-order entry of a well-formed palette is
byte-valued (out-of-range positions yield the zero default). -/
theorem orderedEntryAt_wf (p : ColorPalette) (hwf : p.Wf) (j : Nat) :
    (p.orderedEntryAt j).1.Wf := by
  obtain ⟨hperm, hcount, hbytes⟩ := hwf
  unfold ColorPalette.orderedEntryAt
  by_cases hj : p.mapping.indexOf j < p.entries.length
  · rw [List.getD_eq_getElem _ _ hj]
    exact hbytes _ (p.entries.getElem_mem hj)
  · rw [List.getD_eq_default _ _ (Nat.le_of_not_lt hj)]
    exact ⟨by norm_num, by norm_num, by norm_num, by norm_num⟩

/-- Parsing the palette payload written by the writer recovers the
palette in serialized order with the identity mapping, leaving any
trailing cells untouched. -/
theorem read_palette_data_roundTrip (p : ColorPalette) (extra : List Cell)
    (hwf : p.Wf) :
    chunk_v6_read_palette_data (paletteDataCells p ++ extra) false =
      serializedPaletteOf p := by
  have hcount : p.colorCount ≤ 255 := hwf.2.1
  have hhead : mkU8 p.colorCount = Cell.u8 p.colorCount := by
    rw [mkU8, Nat.mod_eq_of_lt (by omega)]
  have hflat : (List.range p.colorCount).flatMap
      (fun j => rgbaCells (p.orderedEntryAt j).1) =
      ((List.range p.colorCount).map (fun j => (p.orderedEntryAt j).1)).flatMap
        rgbaCells := by
    rw [List.flatMap_map]
  have hemis : (List.range p.colorCount).map
      (fun j => mkU8 (if (p.orderedEntryAt j).2 then 1 else 0)) =
      ((List.range p.colorCount).map (fun j => (p.orderedEntryAt j).2)).map
        (fun e => mkU8 (if e then 1 else 0)) := by
    rw [List.map_map]
    exact List.map_congr_left (fun j _ => rfl)
  simp only [chunk_v6_read_palette_data, paletteDataCells, hhead,
    List.cons_append, List.append_assoc, popU8_u8, Bool.false_eq_true,
    if_false, hflat, hemis]
  rw [popRGBAs_flat _ _ _ (by simp) (by
    intro c hc
    simp only [List.mem_map, List.mem_range] at hc
    obtain ⟨j, _, rfl⟩ := hc
    exact orderedEntryAt_wf p hwf j)]
  rw [popBools_map _ _ _ (by simp)]
  simp only [color_palette_new_from_data, serializedPaletteOf]
  rw [List.zip_map']
  have hmin : min p.colorCount 255 = p.colorCount := by omega
  rw [hmin]
  have htake : ((List.range p.colorCount).map
      (fun j => ((p.orderedEntryAt j).1, (p.orderedEntryAt j).2))).take
        p.colorCount =
      (List.range p.colorCount).map (fun j => p.orderedEntryAt j) := by
    rw [List.take_of_length_le (by simp)]
  rw [htake]
  simp

/-! ## Envelope loop lemmas -/

theorem readShapeLoop_succ (fuel u : Nat) (st : EnvState)
    (h : st.totalSizeRead < u) :
    readShapeLoop (fuel + 1) u st = readShapeLoop fuel u (readShapeStep u st) := by
  rw [readShapeLoop, if_pos h]

theorem readShapeLoop_stop (fuel u : Nat) (st : EnvState)
    (h : ¬ st.totalSizeRead < u) :
    readShapeLoop fuel u st = st := by
  cases fuel with
  | zero => rfl
  | succ fuel => rw [readShapeLoop, if_neg h]

theorem readShapeLoop_add (f1 f2 u : Nat) (st : EnvState) :
    readShapeLoop (f1 + f2) u st = readShapeLoop f2 u (readShapeLoop f1 u st) := by
  induction f1 generalizing st with
  | zero =>
    rw [Nat.zero_add]
    rfl
  | succ f1 ih =>
    by_cases h : st.totalSizeRead < u
    · rw [show f1 + 1 + f2 = (f1 + f2) + 1 from by omega,
        readShapeLoop_succ _ _ _ h, readShapeLoop_succ _ _ _ h, ih]
    · rw [readShapeLoop_stop _ _ _ h, readShapeLoop_stop _ _ _ h,
        readShapeLoop_stop _ _ _ h]

theorem step_size (u : Nat) (st : EnvState) (S : ShapeData) (rest : List Cell)
    (hrest : st.rest = sizeSec S ++ rest) :
    readShapeStep u st =
      { st with
        rest := rest
        width := S.width % 65536
        height := S.height % 65536
        depth := S.depth % 65536
        hasShape := true
        totalSizeRead := st.totalSizeRead + 1 + 6 + 4 } := by
  simp only [readShapeStep, hrest, sizeSec, mkU8, mkU16, mkU32, Nat.reduceMod,
    List.cons_append, popU8_u8, popU16_u16, popU32_u32,
    P3S_CHUNK_ID_SHAPE_ID, P3S_CHUNK_ID_SHAPE_PARENT_ID,
    P3S_CHUNK_ID_SHAPE_TRANSFORM, P3S_CHUNK_ID_SHAPE_PIVOT,
    P3S_CHUNK_ID_SHAPE_PALETTE, P3S_CHUNK_ID_OBJECT_COLLISION_BOX,
    P3S_CHUNK_ID_OBJECT_IS_HIDDEN, P3S_CHUNK_ID_SHAPE_NAME,
    P3S_CHUNK_ID_SHAPE_SIZE, P3S_CHUNK_ID_SHAPE_BLOCKS,
    P3S_CHUNK_ID_SHAPE_POINT, P3S_CHUNK_ID_SHAPE_POINT_ROTATION,
    Nat.reduceEqDiff, if_true, if_false, List.nil_append]

theorem step_id (u : Nat) (st : EnvState) (shapeId : Nat) (rest : List Cell)
    (hrest : st.rest = idSec shapeId ++ rest) :
    readShapeStep u st =
      { st with
        rest := rest
        shapeId := shapeId % 65536
        totalSizeRead := st.totalSizeRead + 1 + 2 + 4 } := by
  simp only [readShapeStep, hrest, idSec, mkU8, mkU16, mkU32, Nat.reduceMod,
    List.cons_append, popU8_u8, popU16_u16, popU32_u32,
    P3S_CHUNK_ID_SHAPE_ID, P3S_CHUNK_ID_SHAPE_PARENT_ID,
    P3S_CHUNK_ID_SHAPE_TRANSFORM, P3S_CHUNK_ID_SHAPE_PIVOT,
    P3S_CHUNK_ID_SHAPE_PALETTE, P3S_CHUNK_ID_OBJECT_COLLISION_BOX,
    P3S_CHUNK_ID_OBJECT_IS_HIDDEN, P3S_CHUNK_ID_SHAPE_NAME,
    P3S_CHUNK_ID_SHAPE_SIZE, P3S_CHUNK_ID_SHAPE_BLOCKS,
    P3S_CHUNK_ID_SHAPE_POINT, P3S_CHUNK_ID_SHAPE_POINT_ROTATION,
    Nat.reduceEqDiff, if_true, if_false, List.nil_append]

theorem step_parentId (u : Nat) (st : EnvState) (pid : Nat) (rest : List Cell)
    (hrest : st.rest = [mkU8 P3S_CHUNK_ID_SHAPE_PARENT_ID, mkU32 2,
      mkU16 pid] ++ rest) :
    readShapeStep u st =
      { st with
        rest := rest
        shapeParentId := pid % 65536
        totalSizeRead := st.totalSizeRead + 1 + 2 + 4 } := by
  simp only [readShapeStep, hrest, mkU8, mkU16, mkU32, Nat.reduceMod,
    List.cons_append, popU8_u8, popU16_u16, popU32_u32,
    P3S_CHUNK_ID_SHAPE_ID, P3S_CHUNK_ID_SHAPE_PARENT_ID,
    P3S_CHUNK_ID_SHAPE_TRANSFORM, P3S_CHUNK_ID_SHAPE_PIVOT,
    P3S_CHUNK_ID_SHAPE_PALETTE, P3S_CHUNK_ID_OBJECT_COLLISION_BOX,
    P3S_CHUNK_ID_OBJECT_IS_HIDDEN, P3S_CHUNK_ID_SHAPE_NAME,
    P3S_CHUNK_ID_SHAPE_SIZE, P3S_CHUNK_ID_SHAPE_BLOCKS,
    P3S_CHUNK_ID_SHAPE_POINT, P3S_CHUNK_ID_SHAPE_POINT_ROTATION,
    Nat.reduceEqDiff, if_true, if_false, List.nil_append]

theorem step_transform (u : Nat) (st : EnvState) (p r sc : Float3)
    (rest : List Cell)
    (hrest : st.rest = [mkU8 P3S_CHUNK_ID_SHAPE_TRANSFORM, mkU32 36] ++
      (f3Cells p ++ f3Cells r ++ f3Cells sc) ++ rest) :
    readShapeStep u st =
      { st with
        rest := rest
        localTransform := ⟨p, r, sc⟩
        totalSizeRead := st.totalSizeRead + 1 + 36 + 4 } := by
  simp only [readShapeStep, hrest, mkU8, mkU16, mkU32, f3Cells, Nat.reduceMod,
    List.cons_append, List.append_assoc, popU8_u8, popU16_u16, popU32_u32,
    popF32_f32, popFloat3,
    P3S_CHUNK_ID_SHAPE_ID, P3S_CHUNK_ID_SHAPE_PARENT_ID,
    P3S_CHUNK_ID_SHAPE_TRANSFORM, P3S_CHUNK_ID_SHAPE_PIVOT,
    P3S_CHUNK_ID_SHAPE_PALETTE, P3S_CHUNK_ID_OBJECT_COLLISION_BOX,
    P3S_CHUNK_ID_OBJECT_IS_HIDDEN, P3S_CHUNK_ID_SHAPE_NAME,
    P3S_CHUNK_ID_SHAPE_SIZE, P3S_CHUNK_ID_SHAPE_BLOCKS,
    P3S_CHUNK_ID_SHAPE_POINT, P3S_CHUNK_ID_SHAPE_POINT_ROTATION,
    Nat.reduceEqDiff, if_true, if_false, List.nil_append]

theorem step_pivot (u : Nat) (st : EnvState) (v : Float3) (rest : List Cell)
    (hrest : st.rest = [mkU8 P3S_CHUNK_ID_SHAPE_PIVOT, mkU32 12] ++
      f3Cells v ++ rest) :
    readShapeStep u st =
      { st with
        rest := rest
        pivot := v
        hasPivot := true
        totalSizeRead := st.totalSizeRead + 1 + 12 + 4 } := by
  simp only [readShapeStep, hrest, mkU8, mkU16, mkU32, f3Cells, Nat.reduceMod,
    List.cons_append, List.append_assoc, popU8_u8, popU16_u16, popU32_u32,
    popF32_f32, popFloat3,
    P3S_CHUNK_ID_SHAPE_ID, P3S_CHUNK_ID_SHAPE_PARENT_ID,
    P3S_CHUNK_ID_SHAPE_TRANSFORM, P3S_CHUNK_ID_SHAPE_PIVOT,
    P3S_CHUNK_ID_SHAPE_PALETTE, P3S_CHUNK_ID_OBJECT_COLLISION_BOX,
    P3S_CHUNK_ID_OBJECT_IS_HIDDEN, P3S_CHUNK_ID_SHAPE_NAME,
    P3S_CHUNK_ID_SHAPE_SIZE, P3S_CHUNK_ID_SHAPE_BLOCKS,
    P3S_CHUNK_ID_SHAPE_POINT, P3S_CHUNK_ID_SHAPE_POINT_ROTATION,
    Nat.reduceEqDiff, if_true, if_false, List.nil_append]

theorem step_collision (u : Nat) (st : EnvState) (mn mx : Float3)
    (rest : List Cell)
    (hrest : st.rest = collisionSec mn mx ++ rest) :
    readShapeStep u st =
      { st with
        rest := rest
        collisionBox := some (mn, mx)
        totalSizeRead := st.totalSizeRead + 1 + 24 + 4 } := by
  simp only [readShapeStep, hrest, collisionSec, mkU8, mkU16, mkU32, f3Cells,
    Nat.reduceMod, List.cons_append, List.append_assoc, popU8_u8, popU16_u16,
    popU32_u32, popF32_f32, popFloat3,
    P3S_CHUNK_ID_SHAPE_ID, P3S_CHUNK_ID_SHAPE_PARENT_ID,
    P3S_CHUNK_ID_SHAPE_TRANSFORM, P3S_CHUNK_ID_SHAPE_PIVOT,
    P3S_CHUNK_ID_SHAPE_PALETTE, P3S_CHUNK_ID_OBJECT_COLLISION_BOX,
    P3S_CHUNK_ID_OBJECT_IS_HIDDEN, P3S_CHUNK_ID_SHAPE_NAME,
    P3S_CHUNK_ID_SHAPE_SIZE, P3S_CHUNK_ID_SHAPE_BLOCKS,
    P3S_CHUNK_ID_SHAPE_POINT, P3S_CHUNK_ID_SHAPE_POINT_ROTATION,
    Nat.reduceEqDiff, if_true, if_false, List.nil_append]

theorem step_hidden (u : Nat) (st : EnvState) (rest : List Cell)
    (hrest : st.rest = hiddenSec ++ rest) :
    readShapeStep u st =
      { st with
        rest := rest
        isHiddenSelf := 1
        totalSizeRead := st.totalSizeRead + 1 + 1 + 4 } := by
  simp only [readShapeStep, hrest, hiddenSec, mkU8, mkU16, mkU32, Nat.reduceMod,
    List.cons_append, popU8_u8, popU16_u16, popU32_u32,
    P3S_CHUNK_ID_SHAPE_ID, P3S_CHUNK_ID_SHAPE_PARENT_ID,
    P3S_CHUNK_ID_SHAPE_TRANSFORM, P3S_CHUNK_ID_SHAPE_PIVOT,
    P3S_CHUNK_ID_SHAPE_PALETTE, P3S_CHUNK_ID_OBJECT_COLLISION_BOX,
    P3S_CHUNK_ID_OBJECT_IS_HIDDEN, P3S_CHUNK_ID_SHAPE_NAME,
    P3S_CHUNK_ID_SHAPE_SIZE, P3S_CHUNK_ID_SHAPE_BLOCKS,
    P3S_CHUNK_ID_SHAPE_POINT, P3S_CHUNK_ID_SHAPE_POINT_ROTATION,
    Nat.reduceEqDiff, if_true, if_false, List.nil_append]

theorem step_palette (u : Nat) (st : EnvState) (p : ColorPalette)
    (rest : List Cell) (hwf : p.Wf)
    (hrest : st.rest = paletteSec p ++ rest) :
    readShapeStep u st =
      { st with
        rest := rest
        palette := some (serializedPaletteOf p)
        paletteID := PALETTE_ID_CUSTOM
        rootShapePalette :=
          match st.rootShapePalette with
          | none => some (serializedPaletteOf p)
          | some x => some x
        totalSizeRead := st.totalSizeRead + 1 +
          paletteDataSize p + 4 } := by
  have hcount : p.colorCount ≤ 255 := hwf.2.1
  have hlt : paletteDataSize p < 4294967296 := by
    simp only [paletteDataSize]; omega
  have hmod : paletteDataSize p % 4294967296 = paletteDataSize p :=
    Nat.mod_eq_of_lt hlt
  simp only [readShapeStep, hrest, paletteSec, mkU8, mkU16, mkU32,
    Nat.reduceMod, hmod, List.cons_append, List.append_assoc,
    popU8_u8, popU16_u16, popU32_u32,
    P3S_CHUNK_ID_SHAPE_ID, P3S_CHUNK_ID_SHAPE_PARENT_ID,
    P3S_CHUNK_ID_SHAPE_TRANSFORM, P3S_CHUNK_ID_SHAPE_PIVOT,
    P3S_CHUNK_ID_SHAPE_PALETTE, P3S_CHUNK_ID_OBJECT_COLLISION_BOX,
    P3S_CHUNK_ID_OBJECT_IS_HIDDEN, P3S_CHUNK_ID_SHAPE_NAME,
    P3S_CHUNK_ID_SHAPE_SIZE, P3S_CHUNK_ID_SHAPE_BLOCKS,
    P3S_CHUNK_ID_SHAPE_POINT, P3S_CHUNK_ID_SHAPE_POINT_ROTATION,
    Nat.reduceEqDiff, if_true, if_false, List.nil_append]
  rw [read_palette_data_roundTrip p rest hwf,
    show paletteDataSize p = byteLen (paletteDataCells p) from
      (byteLen_paletteDataCells p).symm,
    dropBytes_exact]

theorem step_blocks (u : Nat) (st : EnvState) (cnt : Nat) (bc rest : List Cell)
    (hcnt : cnt < 4294967296) (hbl : byteLen bc = cnt)
    (hrest : st.rest = ([mkU8 P3S_CHUNK_ID_SHAPE_BLOCKS, mkU32 cnt] ++ bc) ++
      rest) :
    readShapeStep u st =
      { st with
        rest := rest
        blocksRest := some (Cell.u32 cnt :: (bc ++ rest))
        totalSizeRead := st.totalSizeRead + 1 + cnt + 4 } := by
  have hmod : cnt % 4294967296 = cnt := Nat.mod_eq_of_lt hcnt
  simp only [readShapeStep, hrest, mkU8, mkU16, mkU32, Nat.reduceMod, hmod,
    List.cons_append, List.append_assoc, popU8_u8, popU16_u16, popU32_u32,
    P3S_CHUNK_ID_SHAPE_ID, P3S_CHUNK_ID_SHAPE_PARENT_ID,
    P3S_CHUNK_ID_SHAPE_TRANSFORM, P3S_CHUNK_ID_SHAPE_PIVOT,
    P3S_CHUNK_ID_SHAPE_PALETTE, P3S_CHUNK_ID_OBJECT_COLLISION_BOX,
    P3S_CHUNK_ID_OBJECT_IS_HIDDEN, P3S_CHUNK_ID_SHAPE_NAME,
    P3S_CHUNK_ID_SHAPE_SIZE, P3S_CHUNK_ID_SHAPE_BLOCKS,
    P3S_CHUNK_ID_SHAPE_POINT, P3S_CHUNK_ID_SHAPE_POINT_ROTATION,
    Nat.reduceEqDiff, if_true, if_false, List.nil_append]
  rw [show cnt = byteLen bc from hbl.symm, dropBytes_exact]

theorem step_point (u : Nat) (st : EnvState) (key : List Nat) (v : Float3)
    (rest : List Cell) (hlen : key.length ≤ 255) (hb : ∀ b ∈ key, b < 256)
    (hrest : st.rest = pointSec P3S_CHUNK_ID_SHAPE_POINT key v ++ rest) :
    readShapeStep u st =
      { st with
        rest := rest
        pois := assocSet st.pois key v
        totalSizeRead := st.totalSizeRead + 1 + (1 + key.length + 12) + 4 } := by
  have hkey : keyLenOf key = key.length := by
    simp only [keyLenOf]; omega
  have hmod : (1 + key.length + 12) % 4294967296 = 1 + key.length + 12 :=
    Nat.mod_eq_of_lt (by omega)
  have hmod2 : key.length % 256 = key.length := Nat.mod_eq_of_lt (by omega)
  have htake : key.take key.length = key := List.take_of_length_le (by omega)
  simp only [readShapeStep, hrest, pointSec, readPointInto, hkey, htake, mkU8,
    mkU16, mkU32, Nat.reduceMod, hmod, hmod2, List.cons_append,
    List.append_assoc, popU8_u8, popU16_u16, popU32_u32,
    P3S_CHUNK_ID_SHAPE_ID, P3S_CHUNK_ID_SHAPE_PARENT_ID,
    P3S_CHUNK_ID_SHAPE_TRANSFORM, P3S_CHUNK_ID_SHAPE_PIVOT,
    P3S_CHUNK_ID_SHAPE_PALETTE, P3S_CHUNK_ID_OBJECT_COLLISION_BOX,
    P3S_CHUNK_ID_OBJECT_IS_HIDDEN, P3S_CHUNK_ID_SHAPE_NAME,
    P3S_CHUNK_ID_SHAPE_SIZE, P3S_CHUNK_ID_SHAPE_BLOCKS,
    P3S_CHUNK_ID_SHAPE_POINT, P3S_CHUNK_ID_SHAPE_POINT_ROTATION,
    Nat.reduceEqDiff, if_true, if_false, List.nil_append]
  rw [popBytes_map key key.length (f3Cells v ++ rest) rfl hb]
  simp only [popFloat3_f3Cells]

theorem step_pointRotation (u : Nat) (st : EnvState) (key : List Nat)
    (v : Float3) (rest : List Cell) (hlen : key.length ≤ 255)
    (hb : ∀ b ∈ key, b < 256)
    (hrest : st.rest = pointSec P3S_CHUNK_ID_SHAPE_POINT_ROTATION key v ++
      rest) :
    readShapeStep u st =
      { st with
        rest := rest
        poisRotation := assocSet st.poisRotation key v
        totalSizeRead := st.totalSizeRead + 1 + (1 + key.length + 12) + 4 } := by
  have hkey : keyLenOf key = key.length := by
    simp only [keyLenOf]; omega
  have hmod : (1 + key.length + 12) % 4294967296 = 1 + key.length + 12 :=
    Nat.mod_eq_of_lt (by omega)
  have hmod2 : key.length % 256 = key.length := Nat.mod_eq_of_lt (by omega)
  have htake : key.take key.length = key := List.take_of_length_le (by omega)
  simp only [readShapeStep, hrest, pointSec, readPointInto, hkey, htake, mkU8,
    mkU16, mkU32, Nat.reduceMod, hmod, hmod2, List.cons_append,
    List.append_assoc, popU8_u8, popU16_u16, popU32_u32,
    P3S_CHUNK_ID_SHAPE_ID, P3S_CHUNK_ID_SHAPE_PARENT_ID,
    P3S_CHUNK_ID_SHAPE_TRANSFORM, P3S_CHUNK_ID_SHAPE_PIVOT,
    P3S_CHUNK_ID_SHAPE_PALETTE, P3S_CHUNK_ID_OBJECT_COLLISION_BOX,
    P3S_CHUNK_ID_OBJECT_IS_HIDDEN, P3S_CHUNK_ID_SHAPE_NAME,
    P3S_CHUNK_ID_SHAPE_SIZE, P3S_CHUNK_ID_SHAPE_BLOCKS,
    P3S_CHUNK_ID_SHAPE_POINT, P3S_CHUNK_ID_SHAPE_POINT_ROTATION,
    Nat.reduceEqDiff, if_true, if_false, List.nil_append]
  rw [popBytes_map key key.length (f3Cells v ++ rest) rfl hb]
  simp only [popFloat3_f3Cells]

theorem step_name (u : Nat) (st : EnvState) (name : List Nat)
    (rest : List Cell) (hlen : name.length ≤ 255) (hlen0 : 0 < name.length)
    (hb : ∀ b ∈ name, b < 256)
    (hrest : st.rest = [mkU8 P3S_CHUNK_ID_SHAPE_NAME, mkU8 (name.length % 256)]
      ++ (name.take (name.length % 256)).map mkU8 ++ rest) :
    readShapeStep u st =
      { st with
        rest := rest
        name := some name
        totalSizeRead := st.totalSizeRead + 1 + 1 + name.length } := by
  have hmod2 : name.length % 256 = name.length := Nat.mod_eq_of_lt (by omega)
  have htake : name.take name.length = name := List.take_of_length_le (by omega)
  simp only [readShapeStep, hrest, hmod2, htake, mkU8, mkU16, mkU32,
    Nat.reduceMod, List.cons_append, List.append_assoc,
    popU8_u8, popU16_u16, popU32_u32,
    P3S_CHUNK_ID_SHAPE_ID, P3S_CHUNK_ID_SHAPE_PARENT_ID,
    P3S_CHUNK_ID_SHAPE_TRANSFORM, P3S_CHUNK_ID_SHAPE_PIVOT,
    P3S_CHUNK_ID_SHAPE_PALETTE, P3S_CHUNK_ID_OBJECT_COLLISION_BOX,
    P3S_CHUNK_ID_OBJECT_IS_HIDDEN, P3S_CHUNK_ID_SHAPE_NAME,
    P3S_CHUNK_ID_SHAPE_SIZE, P3S_CHUNK_ID_SHAPE_BLOCKS,
    P3S_CHUNK_ID_SHAPE_POINT, P3S_CHUNK_ID_SHAPE_POINT_ROTATION,
    Nat.reduceEqDiff, if_true, if_false, List.nil_append]
  rw [popBytes_map name name.length rest rfl hb]

theorem step_pad (u : Nat) (st : EnvState) (l : List Cell)
    (hrest : st.rest = mkU8 0 :: l)
    (hroom : ¬ (u ≥ st.totalSizeRead + 1 ∧ u - (st.totalSizeRead + 1) ≥ 4)) :
    readShapeStep u st =
      { st with
        rest := l
        totalSizeRead := u } := by
  simp only [readShapeStep, hrest, mkU8, Nat.reduceMod, popU8_u8,
    P3S_CHUNK_ID_SHAPE_ID, P3S_CHUNK_ID_SHAPE_PARENT_ID,
    P3S_CHUNK_ID_SHAPE_TRANSFORM, P3S_CHUNK_ID_SHAPE_PIVOT,
    P3S_CHUNK_ID_SHAPE_PALETTE, P3S_CHUNK_ID_OBJECT_COLLISION_BOX,
    P3S_CHUNK_ID_OBJECT_IS_HIDDEN, P3S_CHUNK_ID_SHAPE_NAME,
    P3S_CHUNK_ID_SHAPE_SIZE, P3S_CHUNK_ID_SHAPE_BLOCKS,
    P3S_CHUNK_ID_SHAPE_POINT, P3S_CHUNK_ID_SHAPE_POINT_ROTATION,
    Nat.reduceEqDiff, if_true, if_false]
  rw [if_neg hroom]

/-! ## Section byte-size lemmas -/

theorem sum_map_const {α : Type} (l : List α) (c : Nat) :
    (l.map (fun _ => c)).sum = l.length * c := by
  induction l with
  | nil => simp
  | cons x l ih => simp [ih]; ring

theorem byteLen_map_mkU8f {α : Type} (l : List α) (f : α → Nat) :
    byteLen (l.map (fun x => mkU8 (f x))) = l.length := by
  induction l with
  | nil => rfl
  | cons b l ih =>
    rw [List.map_cons, byteLen_cons, ih, List.length_cons]
    have hw : (mkU8 (f b)).width = 1 := rfl
    omega

theorem byteLen_map_mkU8 (l : List Nat) : byteLen (l.map mkU8) = l.length := by
  have h : l.map mkU8 = l.map (fun x => mkU8 x) := rfl
  rw [h, byteLen_map_mkU8f]

theorem length_gridCoords (w h d : Nat) :
    (gridCoords w h d).length = w * h * d := by
  simp only [gridCoords, List.length_flatMap, List.map_map]
  have hy : ∀ x : Nat, (((List.range h).flatMap fun y =>
      (List.range d).map fun z => (x, y, z))).length = h * d := by
    intro x
    simp only [List.length_flatMap, List.map_map]
    have : ∀ y ∈ List.range h, (List.length ∘ fun y =>
        (List.range d).map fun z => (x, y, z)) y = d := by
      intro y _
      simp
    rw [List.map_congr_left this]
    simp [sum_map_const]
  have : ∀ x ∈ List.range w, (List.length ∘ fun x =>
      (List.range h).flatMap fun y => (List.range d).map fun z => (x, y, z)) x
      = h * d := by
    intro x _
    exact hy x
  rw [List.map_congr_left this]
  simp [sum_map_const]
  ring

theorem byteLen_sizeSec (S : ShapeData) : byteLen (sizeSec S) = 11 := rfl

theorem byteLen_idSec (i : Nat) : byteLen (idSec i) = 7 := rfl

theorem byteLen_parentSec (S : ShapeData) (pid : Nat) :
    byteLen (parentSec S pid) = 48 := rfl

theorem byteLen_pivotSec (S : ShapeData) : byteLen (pivotSec S) = 17 := rfl

theorem byteLen_collisionSec (mn mx : Float3) :
    byteLen (collisionSec mn mx) = 29 := rfl

theorem byteLen_hiddenSec : byteLen hiddenSec = 6 := rfl

theorem byteLen_paletteSec (p : ColorPalette) :
    byteLen (paletteSec p) = 5 + paletteDataSize p := by
  simp [paletteSec, byteLen_paletteDataCells, mkU8, mkU32, Cell.width]
  omega

theorem byteLen_blockCells (S : ShapeData) (pm : Option (List Nat)) :
    byteLen (blockCells S pm) = S.width * S.height * S.depth := by
  rw [blockCells, byteLen_map_mkU8f, length_gridCoords]

theorem byteLen_blocksSec (S : ShapeData) (pm : Option (List Nat)) :
    byteLen (blocksSec S pm) = 5 + S.width * S.height * S.depth := by
  simp [blocksSec, byteLen_blockCells, mkU8, mkU32, Cell.width]
  omega

theorem byteLen_pointSec (subid : Nat) (key : List Nat) (v : Float3) :
    byteLen (pointSec subid key v) = 18 + keyLenOf key := by
  rw [pointSec, List.append_assoc, byteLen_append, byteLen_append]
  have h1 : byteLen [mkU8 subid, mkU32 (1 + keyLenOf key + 12),
      mkU8 (keyLenOf key)] = 6 := rfl
  have h2 : byteLen ((key.take (keyLenOf key)).map mkU8) =
      keyLenOf key := by
    rw [byteLen_map_mkU8, List.length_take]
    simp [keyLenOf]
  have h3 : byteLen (f3Cells v) = 12 := rfl
  omega

theorem byteLen_pointSecs (subid : Nat) (qs : List (List Nat × Float3)) :
    byteLen (qs.flatMap (fun kv => pointSec subid kv.1 kv.2)) =
      (qs.map (fun kv => 18 + keyLenOf kv.1)).sum := by
  rw [byteLen_flatMap]
  exact congrArg List.sum
    (List.map_congr_left (fun kv _ => byteLen_pointSec subid kv.1 kv.2))

theorem byteLen_nameSec (S : ShapeData) :
    byteLen (nameSec S) = 2 + nameLenOf S := by
  rw [nameSec, byteLen_append]
  have h1 : byteLen [mkU8 P3S_CHUNK_ID_SHAPE_NAME, mkU8 (nameLenOf S)] = 2 :=
    rfl
  have h2 : byteLen ((S.name.take (nameLenOf S)).map mkU8) = nameLenOf S := by
    rw [byteLen_map_mkU8, List.length_take]
    have : S.name.length % 256 ≤ S.name.length := Nat.mod_le _ _
    simp only [nameLenOf]
    omega
  omega

theorem sum_pointSizes (qs : List (List Nat × Float3)) :
    (qs.map (fun kv => 18 + keyLenOf kv.1)).sum =
      qs.length * 5 + (qs.map (fun kv => 1 + keyLenOf kv.1 + 12)).sum := by
  induction qs with
  | nil => rfl
  | cons kv qs ih => simp [ih]; omega

theorem length_le_sum_pointSizes (qs : List (List Nat × Float3)) :
    qs.length ≤ (qs.map (fun kv => 18 + keyLenOf kv.1)).sum := by
  induction qs with
  | nil => simp
  | cons kv qs ih => simp; omega

/-- The writer envelope occupies exactly the computed uncompressed size
(when a name is present, the 4 reserved bytes are included as padding). -/
theorem byteLen_shapeEnvelopeCells (S : ShapeData) (id pid : Nat)
    (sharedPalette : ColorPalette) (hid : 1 ≤ id) :
    byteLen (shapeEnvelopeCells S id pid sharedPalette) =
      shapeUncompressedSize S id pid sharedPalette := by
  simp only [shapeEnvelopeCells, shapeUncompressedSize, byteLen_append]
  rw [byteLen_sizeSec]
  have hids : byteLen (if id ≠ 0 then idSec id else []) = (if id > 0 then 7 else 0) := by
    rw [if_pos (show id ≠ 0 from by omega), byteLen_idSec,
      if_pos (show id > 0 from by omega)]
  have hpar : byteLen (if pid ≠ 0 then parentSec S pid else []) =
      (if pid > 0 then 48 else 0) := by
    by_cases h : pid = 0
    · simp [h]
    · rw [if_pos h, byteLen_parentSec, if_pos (show pid > 0 from by omega)]
  have hcol : byteLen (match S.collisionBox with
      | some (mn, mx) => collisionSec mn mx
      | none => []) = (if S.collisionBox.isSome then 29 else 0) := by
    cases hc : S.collisionBox with
    | none => simp
    | some v =>
      cases v with
      | mk mn mx => simp [byteLen_collisionSec]
  have hhid : byteLen (if S.isHiddenSelf then hiddenSec else []) =
      (if S.isHiddenSelf then 6 else 0) := by
    by_cases h : S.isHiddenSelf <;> simp [h, byteLen_hiddenSec]
  have hps : 0 < paletteDataSize S.palette := by
    simp only [paletteDataSize]; omega
  have hpal : byteLen (if writesPalette S pid sharedPalette then
        paletteSec S.palette else []) =
      (if (if writesPalette S pid sharedPalette then
          paletteDataSize S.palette else 0) > 0 then
        5 + (if writesPalette S pid sharedPalette then
          paletteDataSize S.palette else 0) else 0) := by
    by_cases h : writesPalette S pid sharedPalette
    · simp only [h, if_true, byteLen_paletteSec]
      rw [if_pos hps]
    · simp [h]
  have hname : byteLen (if nameLenOf S > 0 then nameSec S ++ namePadCells
        else []) = (if nameLenOf S > 0 then 5 + 1 + nameLenOf S else 0) := by
    by_cases h : nameLenOf S > 0
    · simp only [h, if_true, byteLen_append, byteLen_nameSec]
      have : byteLen namePadCells = 4 := rfl
      omega
    · simp [h]
  rw [hids, hpar, hcol, hhid, hpal, hname, byteLen_pivotSec,
    byteLen_blocksSec]
  rw [show poiSecs S = (S.pois.map (fun kv =>
      (kv.1, kv.2.subCoords S.aabbMin.1 S.aabbMin.2.1 S.aabbMin.2.2))).flatMap
        (fun kv => pointSec P3S_CHUNK_ID_SHAPE_POINT kv.1 kv.2) from by
    simp [poiSecs, List.flatMap_map]]
  rw [show poiRotationSecs S = S.poisRotation.flatMap
      (fun kv => pointSec P3S_CHUNK_ID_SHAPE_POINT_ROTATION kv.1 kv.2) from by
    simp [poiRotationSecs]]
  rw [byteLen_pointSecs, byteLen_pointSecs, sum_pointSizes, sum_pointSizes]
  have hmap1 : ((S.pois.map (fun kv =>
      (kv.1, kv.2.subCoords S.aabbMin.1 S.aabbMin.2.1 S.aabbMin.2.2))).map
        (fun kv => 1 + keyLenOf kv.1 + 12)) =
      S.pois.map (fun kv => 1 + keyLenOf kv.1 + 12) := by
    rw [List.map_map]
    exact List.map_congr_left (fun kv _ => rfl)
  have hlen1 : (S.pois.map (fun kv =>
      (kv.1, kv.2.subCoords S.aabbMin.1 S.aabbMin.2.1 S.aabbMin.2.2))).length =
      S.pois.length := by simp
  rw [hmap1, hlen1]
  split_ifs <;> omega

/-! ## Association list fold lemmas -/

theorem assocSet_append_of_not_mem {α β : Type} [DecidableEq α]
    (m : List (α × β)) (k : α) (v : β) (h : k ∉ m.map Prod.fst) :
    assocSet m k v = m ++ [(k, v)] := by
  induction m with
  | nil => rfl
  | cons kv m ih =>
    obtain ⟨k0, v0⟩ := kv
    simp only [List.map_cons, List.mem_cons] at h
    push_neg at h
    rw [assocSet, if_neg (show ¬ k0 = k from fun hc => h.1 hc.symm),
      List.cons_append, ih h.2]

theorem foldl_assocSet_append {α β : Type} [DecidableEq α] :
    ∀ (qs m : List (α × β)),
    (∀ k ∈ qs.map Prod.fst, k ∉ m.map Prod.fst) → (qs.map Prod.fst).Nodup →
    qs.foldl (fun m kv => assocSet m kv.1 kv.2) m = m ++ qs := by
  intro qs
  induction qs with
  | nil => intro m _ _; simp
  | cons kv qs ih =>
    intro m hdisj hnd
    simp only [List.foldl_cons]
    rw [assocSet_append_of_not_mem m kv.1 kv.2
      (hdisj kv.1 (by simp))]
    simp only [List.map_cons, List.nodup_cons] at hnd
    rw [ih (m ++ [(kv.1, kv.2)]) ?_ hnd.2]
    · simp
    · intro k hk
      simp only [List.map_append, List.mem_append]
      push_neg
      constructor
      · exact fun hc => hdisj k (by simp [hk]) hc
      · intro hc
        simp only [List.map_cons, List.map_nil, List.mem_singleton] at hc
        rw [hc] at hk
        exact hnd.1 hk

theorem foldl_assocSet_nil {α β : Type} [DecidableEq α]
    (qs : List (α × β)) (hnd : (qs.map Prod.fst).Nodup) :
    qs.foldl (fun m kv => assocSet m kv.1 kv.2) [] = qs := by
  rw [foldl_assocSet_append qs [] (by simp) hnd]
  simp

/-- Consuming a run of SHAPE_POINT sub-chunks accumulates the pairs into
the point map in order. -/
theorem loop_pointSecs (u : Nat) :
    ∀ (qs : List (List Nat × Float3)) (st : EnvState) (rest : List Cell),
    st.rest = qs.flatMap (fun kv => pointSec P3S_CHUNK_ID_SHAPE_POINT kv.1 kv.2)
      ++ rest →
    st.totalSizeRead + (qs.map (fun kv => 18 + keyLenOf kv.1)).sum ≤ u →
    (∀ kv ∈ qs, kv.1.length ≤ 255 ∧ ∀ b ∈ kv.1, b < 256) →
    readShapeLoop qs.length u st =
      { st with
        rest := rest
        pois := qs.foldl (fun m kv => assocSet m kv.1 kv.2) st.pois
        totalSizeRead := st.totalSizeRead +
          (qs.map (fun kv => 18 + keyLenOf kv.1)).sum } := by
  intro qs
  induction qs with
  | nil =>
    intro st rest hrest _ _
    simp only [List.flatMap_nil, List.nil_append] at hrest
    simp only [List.length_nil, List.foldl_nil, List.map_nil, List.sum_nil,
      Nat.add_zero, ← hrest]
    rfl
  | cons kv qs ih =>
    intro st rest hrest harith hwf
    obtain ⟨hlen, hb⟩ := hwf kv (by simp)
    have hkl : keyLenOf kv.1 = kv.1.length := by
      simp only [keyLenOf]; omega
    have hsum : ((kv :: qs).map (fun kv => 18 + keyLenOf kv.1)).sum =
        (18 + kv.1.length) + (qs.map (fun kv => 18 + keyLenOf kv.1)).sum := by
      simp [hkl]
    have htsr : st.totalSizeRead < u := by
      rw [hsum] at harith
      omega
    rw [List.length_cons, readShapeLoop_succ _ _ _ htsr,
      step_point u st kv.1 kv.2
        (qs.flatMap (fun kv => pointSec P3S_CHUNK_ID_SHAPE_POINT kv.1 kv.2) ++
          rest) hlen hb
        (by rw [hrest, List.flatMap_cons, List.append_assoc])]
    rw [ih _ rest rfl (by simp only []; rw [hsum] at harith; omega)
      (fun x hx => hwf x (by simp [hx]))]
    cases st
    simp only [EnvState.mk.injEq, List.foldl_cons, hsum, and_true, true_and]
    omega

/-- Consuming a run of SHAPE_POINT_ROTATION sub-chunks accumulates the
pairs into the point rotation map in order. -/
theorem loop_pointRotationSecs (u : Nat) :
    ∀ (qs : List (List Nat × Float3)) (st : EnvState) (rest : List Cell),
    st.rest = qs.flatMap
      (fun kv => pointSec P3S_CHUNK_ID_SHAPE_POINT_ROTATION kv.1 kv.2) ++ rest →
    st.totalSizeRead + (qs.map (fun kv => 18 + keyLenOf kv.1)).sum ≤ u →
    (∀ kv ∈ qs, kv.1.length ≤ 255 ∧ ∀ b ∈ kv.1, b < 256) →
    readShapeLoop qs.length u st =
      { st with
        rest := rest
        poisRotation := qs.foldl (fun m kv => assocSet m kv.1 kv.2)
          st.poisRotation
        totalSizeRead := st.totalSizeRead +
          (qs.map (fun kv => 18 + keyLenOf kv.1)).sum } := by
  intro qs
  induction qs with
  | nil =>
    intro st rest hrest _ _
    simp only [List.flatMap_nil, List.nil_append] at hrest
    simp only [List.length_nil, List.foldl_nil, List.map_nil, List.sum_nil,
      Nat.add_zero, ← hrest]
    rfl
  | cons kv qs ih =>
    intro st rest hrest harith hwf
    obtain ⟨hlen, hb⟩ := hwf kv (by simp)
    have hkl : keyLenOf kv.1 = kv.1.length := by
      simp only [keyLenOf]; omega
    have hsum : ((kv :: qs).map (fun kv => 18 + keyLenOf kv.1)).sum =
        (18 + kv.1.length) + (qs.map (fun kv => 18 + keyLenOf kv.1)).sum := by
      simp [hkl]
    have htsr : st.totalSizeRead < u := by
      rw [hsum] at harith
      omega
    rw [List.length_cons, readShapeLoop_succ _ _ _ htsr,
      step_pointRotation u st kv.1 kv.2
        (qs.flatMap (fun kv => pointSec P3S_CHUNK_ID_SHAPE_POINT_ROTATION
          kv.1 kv.2) ++ rest) hlen hb
        (by rw [hrest, List.flatMap_cons, List.append_assoc])]
    rw [ih _ rest rfl (by simp only []; rw [hsum] at harith; omega)
      (fun x hx => hwf x (by simp [hx]))]
    cases st
    simp only [EnvState.mk.injEq, List.foldl_cons, hsum, and_true, true_and]
    omega

/-- One loop iteration with positive fuel is one step. -/
theorem readShapeLoop_one (u : Nat) (st : EnvState)
    (h : st.totalSizeRead < u) :
    readShapeLoop 1 u st = readShapeStep u st :=
  readShapeLoop_succ 0 u st h

/-- Consuming the optional SHAPE_PARENT_ID plus SHAPE_TRANSFORM pair
emitted for non-root shapes. -/
theorem loop_parentSec (u : Nat) (S : ShapeData) (pid : Nat) (st : EnvState)
    (rest : List Cell) (hpid : pid < 65536)
    (hrest : st.rest = (if pid ≠ 0 then parentSec S pid else []) ++ rest)
    (hroom : st.totalSizeRead + (if pid ≠ 0 then 48 else 0) ≤ u) :
    readShapeLoop (if pid ≠ 0 then 2 else 0) u st =
      { st with
        rest := rest
        shapeParentId := if pid ≠ 0 then pid else st.shapeParentId
        localTransform := if pid ≠ 0 then
            ⟨S.localPosition, S.localRotation, S.localScale⟩
          else st.localTransform
        totalSizeRead := st.totalSizeRead +
          (if pid ≠ 0 then 48 else 0) } := by
  by_cases hp : pid ≠ 0
  · simp only [if_pos hp] at hrest hroom ⊢
    rw [show (2 : Nat) = 1 + 1 from rfl, readShapeLoop_add,
      readShapeLoop_one u st (by omega),
      step_parentId u st pid ([mkU8 P3S_CHUNK_ID_SHAPE_TRANSFORM, mkU32 36] ++
        (f3Cells S.localPosition ++ f3Cells S.localRotation ++
          f3Cells S.localScale) ++ rest)
        (by rw [hrest, parentSec]
            simp only [List.cons_append, List.append_assoc, List.nil_append]),
      readShapeLoop_one,
      step_transform u _ S.localPosition S.localRotation S.localScale rest]
    · cases st
      simp only [EnvState.mk.injEq, Nat.mod_eq_of_lt hpid, and_true, true_and]
    · rfl
    · show st.totalSizeRead + 1 + 2 + 4 < u
      omega
  · simp only [if_neg hp] at hrest ⊢
    have h1 : st.rest = rest := by simpa using hrest
    simp only [Nat.add_zero, ← h1]
    rfl

/-- Consuming the optional OBJECT_COLLISION_BOX sub-chunk. -/
theorem loop_collisionSec (u : Nat) (S : ShapeData) (st : EnvState)
    (rest : List Cell)
    (hrest : st.rest = (match S.collisionBox with
      | some (mn, mx) => collisionSec mn mx
      | none => []) ++ rest)
    (hroom : st.totalSizeRead + (if S.collisionBox.isSome then 29 else 0) ≤ u) :
    readShapeLoop (if S.collisionBox.isSome then 1 else 0) u st =
      { st with
        rest := rest
        collisionBox := if S.collisionBox.isSome then S.collisionBox
          else st.collisionBox
        totalSizeRead := st.totalSizeRead +
          (if S.collisionBox.isSome then 29 else 0) } := by
  cases hc : S.collisionBox with
  | none =>
    rw [hc] at hrest
    have h1 : st.rest = rest := by simpa using hrest
    simp only [← h1]
    rfl
  | some c =>
    obtain ⟨mn, mx⟩ := c
    rw [hc] at hrest hroom
    have hroom2 : st.totalSizeRead + 29 ≤ u := hroom
    show readShapeLoop 1 u st = { st with
      rest := rest
      collisionBox := some (mn, mx)
      totalSizeRead := st.totalSizeRead + 29 }
    rw [readShapeLoop_one u st (by omega), step_collision u st mn mx rest hrest]

/-- Consuming the optional OBJECT_IS_HIDDEN sub-chunk. -/
theorem loop_hiddenSec (u : Nat) (S : ShapeData) (st : EnvState)
    (rest : List Cell)
    (hrest : st.rest = (if S.isHiddenSelf then hiddenSec else []) ++ rest)
    (hroom : st.totalSizeRead + (if S.isHiddenSelf then 6 else 0) ≤ u) :
    readShapeLoop (if S.isHiddenSelf then 1 else 0) u st =
      { st with
        rest := rest
        isHiddenSelf := if S.isHiddenSelf then 1 else st.isHiddenSelf
        totalSizeRead := st.totalSizeRead +
          (if S.isHiddenSelf then 6 else 0) } := by
  by_cases hh : S.isHiddenSelf = true
  · simp only [if_pos hh] at hrest hroom ⊢
    rw [readShapeLoop_one u st (by omega), step_hidden u st rest hrest]
  · simp only [if_neg hh] at hrest ⊢
    have h1 : st.rest = rest := by simpa using hrest
    simp only [Nat.add_zero, ← h1]
    rfl

/-- Consuming the optional SHAPE_PALETTE sub-chunk. -/
theorem loop_paletteSec (u : Nat) (S : ShapeData) (shapeParentId : Nat)
    (sharedPalette : ColorPalette) (st : EnvState) (rest : List Cell)
    (hpwf : S.palette.Wf)
    (hrest : st.rest = (if writesPalette S shapeParentId sharedPalette then
      paletteSec S.palette else []) ++ rest)
    (hroom : st.totalSizeRead + (if writesPalette S shapeParentId sharedPalette
      then 5 + paletteDataSize S.palette else 0) ≤ u) :
    readShapeLoop (if writesPalette S shapeParentId sharedPalette then 1 else 0)
      u st =
      { st with
        rest := rest
        palette := if writesPalette S shapeParentId sharedPalette then
            some (serializedPaletteOf S.palette)
          else st.palette
        paletteID := if writesPalette S shapeParentId sharedPalette then
            PALETTE_ID_CUSTOM
          else st.paletteID
        rootShapePalette := if writesPalette S shapeParentId sharedPalette then
            (match st.rootShapePalette with
              | none => some (serializedPaletteOf S.palette)
              | some x => some x)
          else st.rootShapePalette
        totalSizeRead := st.totalSizeRead +
          (if writesPalette S shapeParentId sharedPalette then
            5 + paletteDataSize S.palette else 0) } := by
  have hps : 0 < paletteDataSize S.palette := by
    simp only [paletteDataSize]; omega
  by_cases hw : writesPalette S shapeParentId sharedPalette = true
  · simp only [if_pos hw] at hrest hroom ⊢
    rw [readShapeLoop_one u st (by omega),
      step_palette u st S.palette rest hpwf hrest]
    cases st
    simp only [EnvState.mk.injEq, and_true, true_and]
    omega
  · simp only [if_neg hw] at hrest ⊢
    have h1 : st.rest = rest := by simpa using hrest
    simp only [Nat.add_zero, ← h1]
    rfl

/-- Consuming the trailing SHAPE_NAME sub-chunk and the padding byte the
size formula reserves: the padding step exhausts the byte budget. -/
theorem loop_nameSecPad (u : Nat) (S : ShapeData) (st : EnvState)
    (rest : List Cell)
    (hnl : S.name.length ≤ 255) (hnb : ∀ b ∈ S.name, b < 256)
    (hrest : st.rest = (if nameLenOf S > 0 then nameSec S ++ namePadCells
      else []) ++ rest)
    (htsr : st.totalSizeRead + (if nameLenOf S > 0 then 6 + nameLenOf S
      else 0) = u) :
    readShapeLoop (if nameLenOf S > 0 then 2 else 0) u st =
      { st with
        rest := (if nameLenOf S > 0 then [mkU8 0, mkU8 0, mkU8 0] else []) ++
          rest
        name := if nameLenOf S > 0 then some S.name else st.name
        totalSizeRead := u } := by
  by_cases hn : nameLenOf S > 0
  · have hnl2 : nameLenOf S = S.name.length := by
      simp only [nameLenOf]; omega
    simp only [if_pos hn] at hrest htsr ⊢
    rw [hnl2] at htsr
    rw [show (2 : Nat) = 1 + 1 from rfl, readShapeLoop_add,
      readShapeLoop_one u st (by omega),
      step_name u st S.name (namePadCells ++ rest) hnl (by omega) hnb
        (by rw [hrest, nameSec, nameLenOf]
            simp only [List.cons_append, List.append_assoc, List.nil_append]),
      readShapeLoop_one,
      step_pad u _ ([mkU8 0, mkU8 0, mkU8 0] ++ rest)]
    · rfl
    · show ¬ (u ≥ st.totalSizeRead + 1 + 1 + S.name.length + 1 ∧
        u - (st.totalSizeRead + 1 + 1 + S.name.length + 1) ≥ 4)
      omega
    · show st.totalSizeRead + 1 + 1 + S.name.length < u
      omega
  · simp only [if_neg hn] at hrest htsr ⊢
    have h1 : st.rest = rest := by simpa using hrest
    have h2 : st.totalSizeRead = u := by omega
    simp only [List.nil_append, ← h1, ← h2]
    rfl

set_option maxHeartbeats 8000000 in
/-- Running the sub-chunk loop of chunk_v6_read_shape on a writer-produced
envelope, with fuel and byte budget equal to the computed uncompressed
size, recovers exactly the writer's data: dimensions, id, parenting,
pivot, collision box, hidden flag, palette, deferred blocks, points,
point rotations and name. -/
theorem readShapeLoop_writer (S : ShapeData) (id pid : Nat)
    (sharedPalette : ColorPalette) (pal0 : Nat) (rsp : Option ColorPalette)
    (hwf : S.Wf) (hid : 1 ≤ id) (hid2 : id < 65536) (hpid : pid < 65536) :
    readShapeLoop (shapeUncompressedSize S id pid sharedPalette)
        (shapeUncompressedSize S id pid sharedPalette)
        (initEnvState (shapeEnvelopeCells S id pid sharedPalette) pal0 rsp) =
      writerEnvState S id pid sharedPalette pal0 rsp := by
  obtain ⟨hW, hH, hD, hWHD, hPalWf, hBlk, hNl, hNb, hPwf, hPnd, hRwf, hRnd⟩ :=
    hwf
  set usz := shapeUncompressedSize S id pid sharedPalette with husz
  set pm := paletteMappingOf S pid sharedPalette with hpm
  set qsP := S.pois.map (fun kv =>
    (kv.1, kv.2.subCoords S.aabbMin.1 S.aabbMin.2.1 S.aabbMin.2.2)) with hqsP
  set A10 := (if nameLenOf S > 0 then nameSec S ++ namePadCells else [])
    with hA10
  set A9 := S.poisRotation.flatMap
    (fun kv => pointSec P3S_CHUNK_ID_SHAPE_POINT_ROTATION kv.1 kv.2) ++ A10
    with hA9
  set A8 := qsP.flatMap (fun kv => pointSec P3S_CHUNK_ID_SHAPE_POINT kv.1 kv.2)
    ++ A9 with hA8
  set A7 := blocksSec S pm ++ A8 with hA7
  set A6 := (if writesPalette S pid sharedPalette then paletteSec S.palette
    else []) ++ A7 with hA6
  set A5 := (if S.isHiddenSelf then hiddenSec else []) ++ A6 with hA5
  set A4 := (match S.collisionBox with
    | some (mn, mx) => collisionSec mn mx
    | none => []) ++ A5 with hA4
  set A3 := pivotSec S ++ A4 with hA3
  set A2 := (if pid ≠ 0 then parentSec S pid else []) ++ A3 with hA2
  set A1 := idSec id ++ A2 with hA1
  have hps : 0 < paletteDataSize S.palette := by
    simp only [paletteDataSize]; omega
  have hwm : S.width % 65536 = S.width := Nat.mod_eq_of_lt hW
  have hhm : S.height % 65536 = S.height := Nat.mod_eq_of_lt hH
  have hdm : S.depth % 65536 = S.depth := Nat.mod_eq_of_lt hD
  have hidm : id % 65536 = id := Nat.mod_eq_of_lt hid2
  have hndP : (qsP.map Prod.fst).Nodup := by
    have h : qsP.map Prod.fst = S.pois.map Prod.fst := by
      rw [hqsP, List.map_map]
      exact List.map_congr_left (fun kv _ => rfl)
    rw [h]
    exact hPnd
  have hwfP : ∀ kv ∈ qsP, kv.1.length ≤ 255 ∧ ∀ b ∈ kv.1, b < 256 := by
    intro kv hkv
    rw [hqsP] at hkv
    simp only [List.mem_map] at hkv
    obtain ⟨kv0, h0, rfl⟩ := hkv
    exact hPwf kv0 h0
  have hfoldP : qsP.foldl (fun m kv => assocSet m kv.1 kv.2) [] = qsP :=
    foldl_assocSet_nil qsP hndP
  have hfoldR : S.poisRotation.foldl (fun m kv => assocSet m kv.1 kv.2) [] =
      S.poisRotation := foldl_assocSet_nil S.poisRotation hRnd
  have habr : qsP.flatMap
      (fun kv => pointSec P3S_CHUNK_ID_SHAPE_POINT kv.1 kv.2) = poiSecs S := by
    simp [hqsP, poiSecs, List.flatMap_map, Function.comp]
  have hrotbr : S.poisRotation.flatMap
      (fun kv => pointSec P3S_CHUNK_ID_SHAPE_POINT_ROTATION kv.1 kv.2) =
      poiRotationSecs S := rfl
  have hsp : (if pid ≠ 0 then pid else 0) = pid := by
    split_ifs with h
    · rfl
    · omega
  have hcb : (if S.collisionBox.isSome then S.collisionBox else none) =
      S.collisionBox := by
    cases S.collisionBox <;> rfl
  have hu : usz = 11 + (7 + ((if pid ≠ 0 then 48 else 0) + (17 +
      ((if S.collisionBox.isSome then 29 else 0) +
      ((if S.isHiddenSelf then 6 else 0) +
      ((if writesPalette S pid sharedPalette then
          5 + paletteDataSize S.palette else 0) +
      ((5 + S.width * S.height * S.depth) +
      ((qsP.map (fun kv => 18 + keyLenOf kv.1)).sum +
      ((S.poisRotation.map (fun kv => 18 + keyLenOf kv.1)).sum +
      (if nameLenOf S > 0 then 6 + nameLenOf S else 0)))))))))) := by
    have hq1 : (qsP.map (fun kv => 18 + keyLenOf kv.1)).sum =
        S.pois.length * 5 +
          (S.pois.map (fun kv => 1 + keyLenOf kv.1 + 12)).sum := by
      rw [sum_pointSizes]
      congr 1
      · rw [hqsP, List.length_map]
      · rw [hqsP, List.map_map]
        exact congrArg List.sum (List.map_congr_left (fun kv _ => rfl))
    have hq2 := sum_pointSizes S.poisRotation
    rw [husz]
    simp only [shapeUncompressedSize]
    split_ifs <;> omega
  have hf3 : (if pid ≠ 0 then (2 : Nat) else 0) ≤
      (if pid ≠ 0 then 48 else 0) := by split_ifs <;> omega
  have hf5 : (if S.collisionBox.isSome then (1 : Nat) else 0) ≤
      (if S.collisionBox.isSome then 29 else 0) := by split_ifs <;> omega
  have hf6 : (if S.isHiddenSelf then (1 : Nat) else 0) ≤
      (if S.isHiddenSelf then 6 else 0) := by split_ifs <;> omega
  have hf7 : (if writesPalette S pid sharedPalette then (1 : Nat) else 0) ≤
      (if writesPalette S pid sharedPalette then
        5 + paletteDataSize S.palette else 0) := by split_ifs <;> omega
  have hf11 : (if nameLenOf S > 0 then (2 : Nat) else 0) ≤
      (if nameLenOf S > 0 then 6 + nameLenOf S else 0) := by
    split_ifs <;> omega
  have hlp := length_le_sum_pointSizes qsP
  have hlr := length_le_sum_pointSizes S.poisRotation
  have henv : shapeEnvelopeCells S id pid sharedPalette = sizeSec S ++ A1 := by
    simp only [hA1, hA2, hA3, hA4, hA5, hA6, hA7, hA8, hA9, hA10, hpm,
      shapeEnvelopeCells, ← habr, ← hrotbr, List.append_assoc,
      if_pos (show id ≠ 0 from by omega)]
  have hsplit : usz = (1 + (1 + ((if pid ≠ 0 then 2 else 0) + (1 +
      ((if S.collisionBox.isSome then 1 else 0) +
      ((if S.isHiddenSelf then 1 else 0) +
      ((if writesPalette S pid sharedPalette then 1 else 0) +
      (1 + (qsP.length + (S.poisRotation.length +
      (if nameLenOf S > 0 then 2 else 0))))))))))) +
      (usz - (1 + (1 + ((if pid ≠ 0 then 2 else 0) + (1 +
      ((if S.collisionBox.isSome then 1 else 0) +
      ((if S.isHiddenSelf then 1 else 0) +
      ((if writesPalette S pid sharedPalette then 1 else 0) +
      (1 + (qsP.length + (S.poisRotation.length +
      (if nameLenOf S > 0 then 2 else 0)))))))))))) := by omega
  rw [henv]
  dsimp only [initEnvState]
  nth_rewrite 1 [hsplit]
  rw [readShapeLoop_add]
  rw [readShapeLoop_add, readShapeLoop_one, step_size usz _ S A1]
  dsimp only
  rw [readShapeLoop_add, readShapeLoop_one, step_id usz _ id A2]
  dsimp only
  rw [readShapeLoop_add, loop_parentSec usz S pid _ A3 hpid]
  dsimp only
  rw [readShapeLoop_add, readShapeLoop_one, step_pivot usz _
    (S.pivot.subCoords S.aabbMin.1 S.aabbMin.2.1 S.aabbMin.2.2) A4]
  dsimp only
  rw [readShapeLoop_add, loop_collisionSec usz S _ A5]
  dsimp only
  rw [readShapeLoop_add, loop_hiddenSec usz S _ A6]
  dsimp only
  rw [readShapeLoop_add, loop_paletteSec usz S pid sharedPalette _ A7 hPalWf]
  dsimp only
  rw [readShapeLoop_add, readShapeLoop_one, step_blocks usz _
    (S.width * S.height * S.depth) (blockCells S pm) A8]
  dsimp only
  rw [readShapeLoop_add, loop_pointSecs usz qsP _ A9]
  dsimp only
  rw [readShapeLoop_add, loop_pointRotationSecs usz S.poisRotation _ A10]
  dsimp only
  rw [loop_nameSecPad usz S _ [] hNl hNb]
  dsimp only
  rw [readShapeLoop_stop]
  · simp only [writerEnvState, afterBlocksCells,
      EnvState.mk.injEq, List.append_nil, List.append_assoc, hA8, hA9, hA10,
      habr, hrotbr, hfoldP, hfoldR, ← hqsP, ← hpm, ← husz, hwm, hhm, hdm,
      hidm, hsp, hcb, and_true, true_and]
  all_goals first
    | exact hwfP
    | exact hRwf
    | (rw [byteLen_blockCells])
    | omega
    | (dsimp only; omega)
    | rfl
    | (rw [List.append_nil])

/-! ## Loading a writer-produced shape chunk -/

theorem loadLoop_stop (z : Zlib) (b : LegacyBuiltins) (f : Nat)
    (set : LoadShapeSettings) (fuel : Nat) (s : List Cell) (ts tsr : Nat)
    (acc : LoadAcc) (h : ¬ (tsr < ts ∧ acc.error = false)) :
    loadLoop z b f set fuel s ts tsr acc = acc := by
  cases fuel with
  | zero => rfl
  | succ fuel => rw [loadLoop, if_neg h]

theorem shapeUncompressedSize_pos (S : ShapeData) (id pid : Nat)
    (sharedPalette : ColorPalette) :
    0 < shapeUncompressedSize S id pid sharedPalette := by
  simp only [shapeUncompressedSize]
  split_ifs <;> omega

/-- chunk_v6_read on a compressed chunk body produced by the writer:
the payload is recovered through the lossless codec. -/
theorem chunk_v6_read_compressed (z : Zlib) (hz : z.Lossless)
    (payload rest : List Cell) (usz : Nat) (husz0 : usz ≠ 0)
    (husz : usz < 4294967296)
    (hcs0 : byteLen (z.compress payload) ≠ 0)
    (hcs : byteLen (z.compress payload) < 4294967296) :
    chunk_v6_read z ([mkU32 (byteLen (z.compress payload)), mkU8 1,
        mkU32 usz] ++ (z.compress payload ++ rest)) =
      some (payload, byteLen (z.compress payload), usz, rest) := by
  have hm1 : byteLen (z.compress payload) % 4294967296 =
      byteLen (z.compress payload) := Nat.mod_eq_of_lt hcs
  have hm2 : usz % 4294967296 = usz := Nat.mod_eq_of_lt husz
  simp only [mkU32, mkU8, hm1, hm2, Nat.reduceMod, List.cons_append,
    List.nil_append, chunk_v6_read]
  rw [if_neg (by omega), takeBytes_append]
  simp [hz payload]

theorem mapping_getD_lt (p : ColorPalette) (hwf : p.Wf) (i : Nat) :
    p.mapping.getD i 0 < 256 := by
  obtain ⟨hperm, hcount, _⟩ := hwf
  simp only [SHAPE_COLOR_INDEX_MAX_COUNT] at hcount
  by_cases h : i < p.mapping.length
  · rw [List.getD_eq_getElem _ _ h]
    have hmem : p.mapping[i] ∈ p.mapping := p.mapping.getElem_mem h
    have hr : p.mapping[i] ∈ List.range p.entries.length :=
      hperm.mem_iff.mp hmem
    rw [List.mem_range] at hr
    omega
  · rw [List.getD_eq_default _ _ (Nat.le_of_not_lt h)]
    omega

theorem writtenBlockByte_lt (S : ShapeData) (hwf : S.palette.Wf)
    (c : Nat × Nat × Nat) :
    writtenBlockByte S (some S.palette.mapping) c < 256 := by
  unfold writtenBlockByte blockByte
  split_ifs with h
  · simp only [SHAPE_COLOR_INDEX_AIR_BLOCK]
    omega
  · exact mapping_getD_lt S.palette hwf _

/-- With a custom palette id and no shrink reference, a non-AIR block is
added with its index unchanged and AIR is skipped. -/
theorem processOneBlock_custom (b : LegacyBuiltins)
    (acc : ColorPalette × List ((Nat × Nat × Nat) × Nat))
    (c : Nat × Nat × Nat) (v : Nat) :
    processOneBlock b PALETTE_ID_CUSTOM none acc c v =
      if v = SHAPE_COLOR_INDEX_AIR_BLOCK then acc
      else (acc.1, acc.2 ++ [(c, v)]) := by
  rw [processOneBlock]
  by_cases h : v = SHAPE_COLOR_INDEX_AIR_BLOCK
  · simp only [if_pos h]
  · simp only [if_neg h]
    rfl

/-- Streaming the writer's block bytes with a custom palette id and no
shrink reference collects exactly the non-AIR cells with their bytes. -/
theorem processBlocksFold_custom (b : LegacyBuiltins) :
    ∀ (cs : List (Nat × Nat × Nat)) (f : Nat × Nat × Nat → Nat),
    (∀ c ∈ cs, f c < 256) → ∀ (after : List Cell) (pal : ColorPalette)
      (acc : List ((Nat × Nat × Nat) × Nat)),
    processBlocksFold b PALETTE_ID_CUSTOM none cs
        ((cs.map (fun c => mkU8 (f c))) ++ after) (pal, acc) =
      (pal, acc ++ (cs.filter
        (fun c => f c ≠ SHAPE_COLOR_INDEX_AIR_BLOCK)).map
          (fun c => (c, f c))) := by
  intro cs
  induction cs with
  | nil =>
    intro f hf after pal acc
    simp [processBlocksFold]
  | cons c cs ih =>
    intro f hf after pal acc
    have hb : f c < 256 := hf c (by simp)
    have hm : f c % 256 = f c := Nat.mod_eq_of_lt hb
    rw [List.map_cons, List.cons_append, processBlocksFold]
    simp only [mkU8] at ih ⊢
    simp only [popU8_u8, hm, processOneBlock_custom]
    by_cases hair : f c = SHAPE_COLOR_INDEX_AIR_BLOCK
    · rw [if_pos hair, ih f (fun x hx => hf x (by simp [hx])) after pal acc,
        List.filter_cons]
      simp [hair]
    · rw [if_neg hair, ih f (fun x hx => hf x (by simp [hx])) after pal _,
        List.filter_cons]
      simp [hair]

/-- chunk_v6_read_shape_process_blocks on the writer's deferred block
stream with a custom palette: the palette passes through unchanged and
the added blocks are the non-AIR grid cells with their written bytes. -/
theorem process_blocks_writer (b : LegacyBuiltins) (S : ShapeData)
    (hwf : S.palette.Wf) (after : List Cell) (pal : ColorPalette) :
    chunk_v6_read_shape_process_blocks b
        (Cell.u32 (S.width * S.height * S.depth) ::
          (blockCells S (some S.palette.mapping) ++ after))
        S.width S.height S.depth PALETTE_ID_CUSTOM none pal =
      (pal, ((gridCoords S.width S.height S.depth).filter
        (fun c => writtenBlockByte S (some S.palette.mapping) c ≠
          SHAPE_COLOR_INDEX_AIR_BLOCK)).map
        (fun c => (c, writtenBlockByte S (some S.palette.mapping) c))) := by
  simp only [chunk_v6_read_shape_process_blocks, popU32_u32]
  rw [show blockCells S (some S.palette.mapping) =
      (gridCoords S.width S.height S.depth).map
        (fun c => mkU8 (writtenBlockByte S (some S.palette.mapping) c))
    from rfl]
  rw [processBlocksFold_custom b _ _
    (fun c _ => writtenBlockByte_lt S hwf c) after pal []]
  rw [List.nil_append]

theorem decide_hidden (b : Bool) :
    decide ((if b then (1 : Nat) else 0) = 1) = b := by
  cases b <;> rfl

/-- Resolving the parsed state of a writer-produced root envelope: the
embedded palette wins, blocks stream through the custom path unchanged,
the parent lookup fails for parentId 0 so the transform reverts to the
default, and the shape is appended to the declaration-order list. -/
theorem resolve_writer_root (b : LegacyBuiltins) (S : ShapeData) (id : Nat)
    (pal0 : Nat) (shapes : List LoadedShape) (fp : Option ColorPalette)
    (hwf : S.palette.Wf) :
    chunk_v6_resolve_shape b (writerEnvState S id 0 S.palette pal0 none)
        shapes fp pal0 =
      some (writerLoadedShape S, shapes ++ [writerLoadedShape S],
        some (serializedPaletteOf S.palette)) := by
  have hwp : writesPalette S 0 S.palette = true := rfl
  have hpm : paletteMappingOf S 0 S.palette = some S.palette.mapping := rfl
  have hblocks := process_blocks_writer b S hwf (afterBlocksCells S)
    (serializedPaletteOf S.palette)
  simp only [chunk_v6_resolve_shape, writerEnvState, writerLoadedShape,
    hwp, hpm, reduceIte, hblocks, decide_hidden,
    if_neg (show ¬ (true = false) from by decide),
    if_neg (show ¬ ((1 : Nat) ≤ 0 ∧ 0 - 1 < shapes.length + 1) from by
      omega)]

theorem chunk_v6_read_shape_writer (z : Zlib) (hz : z.Lossless)
    (b : LegacyBuiltins) (S : ShapeData) (rest : List Cell)
    (shapes : List LoadedShape) (settings : LoadShapeSettings)
    (fp : Option ColorPalette) (pal0 : Nat) (hwf : S.Wf)
    (husz : shapeUncompressedSize S 1 0 S.palette < 4294967296)
    (hcs0 : byteLen (z.compress (shapeEnvelopeCells S 1 0 S.palette)) ≠ 0)
    (hcs : byteLen (z.compress (shapeEnvelopeCells S 1 0 S.palette)) <
      4294967296) :
    chunk_v6_read_shape z b
        ([mkU32 (byteLen (z.compress (shapeEnvelopeCells S 1 0 S.palette))),
          mkU8 1, mkU32 (shapeUncompressedSize S 1 0 S.palette)] ++
          (z.compress (shapeEnvelopeCells S 1 0 S.palette) ++ rest))
        shapes settings fp pal0 none =
      some (CHUNK_V6_HEADER_NO_ID_SIZE +
          byteLen (z.compress (shapeEnvelopeCells S 1 0 S.palette)),
        writerLoadedShape S, shapes ++ [writerLoadedShape S],
        some (serializedPaletteOf S.palette), rest) := by
  have husz0 : shapeUncompressedSize S 1 0 S.palette ≠ 0 := by
    have := shapeUncompressedSize_pos S 1 0 S.palette
    omega
  rw [chunk_v6_read_shape,
    chunk_v6_read_compressed z hz _ rest _ husz0 husz hcs0 hcs]
  dsimp only
  rw [readShapeLoop_writer S 1 0 S.palette pal0 none hwf (by omega)
    (by omega) (by omega)]
  rw [resolve_writer_root b S 1 pal0 shapes fp hwf.2.2.2.2.1]

/-- The magic byte check succeeds on the writer's magic bytes. -/
theorem checkMagic_magic (s : List Cell) :
    checkMagic MAGIC_BYTES (MAGIC_BYTES.map mkU8 ++ s) = some s := rfl

/-- Saving a single root shape with no preview and no artist palette
produces exactly the single-shape buffer. -/
theorem save_single (z : Zlib) (S : ShapeData) :
    serialization_v6_save_shape_as_buffer z (some (.node S [])) none none =
      some (singleShapeBuffer z S) := by
  simp [serialization_v6_save_shape_as_buffer, singleShapeBuffer,
    shapeChunksCells, flattenTree, flattenList, ShapeTree.data]

/-- Loading the buffer saved for a single root shape yields exactly one
shape asset carrying the writer's data in the origin-at-start frame: the
palette in serialized order, blocks remapped through the writer's
serialization table, pivot and points offset by the AABB start, rotations
unchanged, and the default local transform. -/
theorem load_single (z : Zlib) (hz : z.Lossless) (b : LegacyBuiltins)
    (settings : LoadShapeSettings) (S : ShapeData) (hwf : S.Wf)
    (husz : shapeUncompressedSize S 1 0 S.palette < 4294967296)
    (hcs0 : byteLen (z.compress (shapeEnvelopeCells S 1 0 S.palette)) ≠ 0)
    (hcs : 10 + byteLen (z.compress (shapeEnvelopeCells S 1 0 S.palette)) <
      4294967296) :
    loadAssetsFromBuffer z b (singleShapeBuffer z S) AssetType_Any settings =
      some { assets := [Asset.shape (writerLoadedShape S)],
             error := false } := by
  have hread := chunk_v6_read_shape_writer z hz b S [] [] settings none
    PALETTE_ID_IOS_ITEM_EDITOR_LEGACY hwf husz hcs0 (by omega)
  rw [List.append_nil] at hread
  have hcc : shapeChunkCells z S 1 0 S.palette =
      [mkU8 P3S_CHUNK_ID_SHAPE,
        mkU32 (byteLen (z.compress (shapeEnvelopeCells S 1 0 S.palette))),
        mkU8 1, mkU32 (shapeUncompressedSize S 1 0 S.palette)] ++
        z.compress (shapeEnvelopeCells S 1 0 S.palette) := rfl
  have hbl : byteLen (shapeChunkCells z S 1 0 S.palette) =
      10 + byteLen (z.compress (shapeEnvelopeCells S 1 0 S.palette)) := by
    rw [hcc, byteLen_append]
    rfl
  rw [singleShapeBuffer, loadAssetsFromBuffer, List.append_assoc,
    checkMagic_magic]
  nth_rewrite 2 [hcc]
  simp only [mkU32, mkU8, Nat.reduceMod, List.cons_append, List.nil_append,
    reduceIte] at hread ⊢
  rw [serialization_load_assets_v6]
  dsimp only
  rw [if_neg (by omega)]
  have hTm : byteLen (shapeChunkCells z S 1 0 S.palette) % 4294967296 =
      byteLen (shapeChunkCells z S 1 0 S.palette) := by omega
  rw [hTm]
  obtain ⟨T3, hT3⟩ : ∃ T3, byteLen (shapeChunkCells z S 1 0 S.palette) =
      T3 + 1 := ⟨byteLen (shapeChunkCells z S 1 0 S.palette) - 1, by omega⟩
  rw [hT3]
  rw [loadLoop, if_pos ⟨by omega, rfl⟩]
  rw [loadStep]
  simp only [chunk_v6_read_identifier, P3S_CHUNK_ID_NONE, P3S_CHUNK_ID_SHAPE,
    P3S_CHUNK_ID_PALETTE_LEGACY, P3S_CHUNK_ID_PALETTE,
    P3S_CHUNK_ID_PALETTE_ID, P3S_CHUNK_ID_MAX, Nat.reduceMod, initLoadAcc]
  rw [if_pos (show 0 < 3 ∧ 3 < 25 from by omega)]
  dsimp only
  rw [if_neg (show ¬ ((3 : Nat) = 0) from by omega),
    if_neg (show ¬ ((3 : Nat) = 2 ∨ (3 : Nat) = 16) from by
      intro hc
      rcases hc with hc | hc <;> omega),
    if_neg (show ¬ ((3 : Nat) = 15) from by omega),
    if_pos (show (3 : Nat) = 3 from rfl)]
  rw [hread]
  dsimp only
  rw [if_pos (Or.inl trivial)]
  rw [loadLoop_stop]
  · rfl
  · intro hc
    obtain ⟨hlt, -⟩ := hc
    simp only [CHUNK_V6_HEADER_NO_ID_SIZE] at hlt
    omega

theorem mem_gridCoords (w h d : Nat) (c : Nat × Nat × Nat) :
    c ∈ gridCoords w h d ↔ c.1 < w ∧ c.2.1 < h ∧ c.2.2 < d := by
  obtain ⟨x, y, z⟩ := c
  simp only [gridCoords, List.mem_flatMap, List.mem_map, List.mem_range,
    Prod.mk.injEq]
  constructor
  · rintro ⟨a, ha, b, hb, z2, hz2, rfl, rfl, rfl⟩
    exact ⟨ha, hb, hz2⟩
  · rintro ⟨hx, hy, hz⟩
    exact ⟨x, hx, y, hy, z, hz, rfl, rfl, rfl⟩

theorem find?_pair_map {α β : Type} [DecidableEq α] (f : α → β) :
    ∀ (l : List α) (c : α), c ∈ l →
    ((l.map (fun x => (x, f x))).find? (fun p => p.1 = c)).map Prod.snd =
      some (f c) := by
  intro l
  induction l with
  | nil =>
    intro c hc
    cases hc
  | cons a l ih =>
    intro c hc
    rw [List.map_cons]
    by_cases h : a = c
    · subst h
      rw [List.find?_cons_of_pos _ (by simp)]
      rfl
    · rw [List.find?_cons_of_neg _ (by simp [h])]
      rcases List.mem_cons.mp hc with h2 | h2
      · exact absurd h2.symm h
      · exact ih c h2

/-- Block lookup in the loaded shape: a non-AIR grid cell is found with
its written byte. -/
theorem writerLoadedShape_blockAt (S : ShapeData) (c : Nat × Nat × Nat)
    (hc : c ∈ gridCoords S.width S.height S.depth)
    (hsolid : writtenBlockByte S (some S.palette.mapping) c ≠
      SHAPE_COLOR_INDEX_AIR_BLOCK) :
    (writerLoadedShape S).blockAt c =
      some (writtenBlockByte S (some S.palette.mapping) c) := by
  rw [LoadedShape.blockAt]
  rw [show (writerLoadedShape S).blocks =
      ((gridCoords S.width S.height S.depth).filter
        (fun c => writtenBlockByte S (some S.palette.mapping) c ≠
          SHAPE_COLOR_INDEX_AIR_BLOCK)).map
        (fun c => (c, writtenBlockByte S (some S.palette.mapping) c))
    from rfl]
  exact find?_pair_map _ _ c (List.mem_filter.mpr ⟨hc, by simpa using hsolid⟩)

/-- The serialization table sends an in-range index below the color
count. -/
theorem mapping_getD_lt_count (p : ColorPalette) (hwf : p.Wf) (i : Nat)
    (hi : i < p.colorCount) :
    p.mapping.getD i 0 < p.colorCount := by
  obtain ⟨hperm, _, _⟩ := hwf
  have hlen : p.mapping.length = p.entries.length := by
    simpa using hperm.length_eq
  simp only [ColorPalette.colorCount] at hi ⊢
  have hi2 : i < p.mapping.length := by omega
  rw [List.getD_eq_getElem _ _ hi2]
  have hmem := p.mapping.getElem_mem hi2
  have hr := hperm.mem_iff.mp hmem
  rw [List.mem_range] at hr
  exact hr

/-- Color correspondence of the round-tripped palette: the entry the
writer's table sends index i to holds the same color as entry i of the
original palette. -/
theorem serializedPaletteOf_color (p : ColorPalette) (hwf : p.Wf) (i : Nat)
    (hi : i < p.colorCount) :
    color_palette_get_color (serializedPaletteOf p) (p.mapping.getD i 0) =
      color_palette_get_color p i := by
  obtain ⟨hperm, hcount, hbytes⟩ := hwf
  have hlen : p.mapping.length = p.entries.length := by
    simpa using hperm.length_eq
  have hnd : p.mapping.Nodup := hperm.symm.nodup (List.nodup_range _)
  simp only [ColorPalette.colorCount] at hi
  have hi2 : i < p.mapping.length := by omega
  rw [List.getD_eq_getElem _ _ hi2]
  have hjlt : p.mapping[i] < p.entries.length := by
    have hmem := p.mapping.getElem_mem hi2
    have hr := hperm.mem_iff.mp hmem
    rw [List.mem_range] at hr
    exact hr
  rw [color_palette_get_color, color_palette_get_color]
  have hjn : p.mapping[i] <
      ((List.range p.colorCount).map p.orderedEntryAt).length := by
    simp only [List.length_map, List.length_range, ColorPalette.colorCount]
    omega
  rw [show (serializedPaletteOf p).entries =
      (List.range p.colorCount).map p.orderedEntryAt from rfl]
  rw [List.getD_eq_getElem _ _ hjn, List.getD_eq_getElem _ _ (by omega),
    List.getElem_map, List.getElem_range, ColorPalette.orderedEntryAt,
    List.indexOf_getElem hnd i hi2,
    List.getD_eq_getElem _ _ (by omega)]

/-- Parenting fields of a resolved shape: whenever the resolution phase of
chunk_v6_read_shape succeeds, the parent index and local transform of the
loaded shape are decided by the parent-lookup test of lines 1226-1246: on
success the 0-based index shapeParentId - 1 with the stored transform,
otherwise no parent and the default transform. -/
theorem resolve_parent_transform (b : LegacyBuiltins) (st : EnvState)
    (shapes : List LoadedShape) (fp : Option ColorPalette) (palID : Nat)
    (L : LoadedShape) (ss : List LoadedShape) (rp : Option ColorPalette)
    (hres : chunk_v6_resolve_shape b st shapes fp palID = some (L, ss, rp)) :
    L.parentIdx = (if 1 ≤ st.shapeParentId ∧
        st.shapeParentId - 1 < shapes.length + 1
      then some (st.shapeParentId - 1) else none) ∧
    L.localTransform = (if 1 ≤ st.shapeParentId ∧
        st.shapeParentId - 1 < shapes.length + 1
      then st.localTransform else defaultLocalTransform) := by
  rw [chunk_v6_resolve_shape.eq_def] at hres
  by_cases hs : st.hasShape = false
  · rw [if_pos hs] at hres
    exact absurd hres (by simp)
  · rw [if_neg hs] at hres
    repeat split at hres
    all_goals
      simp only [Option.some.injEq, Prod.mk.injEq] at hres
    all_goals
      obtain ⟨hL, -⟩ := hres
    all_goals subst hL
    all_goals simp_all

/-- Pre-order id assignment invariant of create_shape_buffers: flattening
a forest starting at counter n with parent id pid emits consecutive ids
n, n+1, ..., returns the next counter, and gives every entry either the
incoming parent id or the id of an entry emitted earlier (in particular
smaller than its own id). -/
theorem flattenList_preorder (ts : List ShapeTree) (n pid : Nat) :
    (flattenList ts n pid).2 = n + (flattenList ts n pid).1.length ∧
    (flattenList ts n pid).1.map Prod.fst =
      List.range' n (flattenList ts n pid).1.length ∧
    ∀ e ∈ (flattenList ts n pid).1,
      e.2.1 = pid ∨
        (e.2.1 ∈ (flattenList ts n pid).1.map Prod.fst ∧ e.2.1 < e.1) := by
  induction ts, n, pid using flattenList.induct with
  | case1 n pid =>
    simp [flattenList]
  | case2 d children ts n pid r ih1 ih2 =>
    have hA : r = flattenList children (n + 1) n := rfl
    rw [hA] at ih2
    obtain ⟨ih1a, ih1b, ih1c⟩ := ih1
    obtain ⟨ih2a, ih2b, ih2c⟩ := ih2
    simp only [flattenList, List.length_cons, List.length_append,
      List.map_cons, List.map_append]
    refine ⟨?_, ?_, ?_⟩
    · omega
    · have key : ∀ s a b : Nat,
          (s :: List.range' (s + 1) a) ++ List.range' (s + 1 + a) b =
            List.range' s (a + 1 + b) := by
        intro s a b
        rw [← List.range'_succ, show s + 1 + a = s + (a + 1) from by omega,
          List.range'_append_1, Nat.add_comm b (a + 1)]
      rw [ih1b, ih2b, ih1a]
      exact key n _ _
    · intro e he
      rcases List.mem_append.mp he with hca | hB1
      · rcases List.mem_cons.mp hca with rfl | hA1
        · exact Or.inl rfl
        · rcases ih1c e hA1 with h0 | ⟨hm, hlt⟩
          · refine Or.inr ⟨?_, ?_⟩
            · rw [h0]
              exact List.mem_append_left _ (List.mem_cons_self _ _)
            · have h1 : e.1 ∈
                  List.map Prod.fst (flattenList children (n + 1) n).1 :=
                List.mem_map_of_mem Prod.fst hA1
              rw [ih1b] at h1
              have h2 := List.mem_range'_1.mp h1
              omega
          · exact Or.inr
              ⟨List.mem_append_left _ (List.mem_cons_of_mem _ hm), hlt⟩
      · rcases ih2c e hB1 with h0 | ⟨hm, hlt⟩
        · exact Or.inl h0
        · exact Or.inr ⟨List.mem_append_right _ hm, hlt⟩


/-! ## Claim C9 -/

/-- Claim C9, counterexample: saving a scene with no shapes does not
succeed; serialization_v6_save_shape_as_buffer rejects a missing shape
(line 254) and produces no buffer at all, contradicting the claimed
success and header-only output. -/
theorem claim_C9_counterexample :
    serialization_v6_save_shape_as_buffer idZlib none none none = none := rfl

/-- Claim C9, amended: saving requires a shape, so a scene with no shapes
fails and yields no buffer; loading a buffer that holds exactly the magic
bytes, u32 version 6, u8 compression algo 1 and u32 total size 0 returns
an empty asset list with no error. -/
theorem claim_C9_corrected :
    (∀ (z : Zlib) (ap : Option ColorPalette) (pd : Option (List Cell)),
      serialization_v6_save_shape_as_buffer z none ap pd = none) ∧
    (∀ (z : Zlib) (b : LegacyBuiltins) (f : Nat) (settings : LoadShapeSettings),
      loadAssetsFromBuffer z b c9EmptyBuffer f settings =
        some { assets := [], error := false }) :=
  ⟨fun _ _ _ => rfl, fun _ _ _ _ => rfl⟩

/-! ## Claim C6 -/

/-- Claim C6, counterexample: at the concrete state c6State the cursor
sits at an unrecognized sub-chunk id with subSize 0 and plenty of bytes
remain, yet the step consumes 10 bytes of accounting
(1 for the id plus CHUNK_V6_HEADER_NO_ID_SIZE + subSize = 9), not the
1 + 4 + subSize = 5 bytes the claim asserts; consequently the
OBJECT_IS_HIDDEN sub-chunk that starts exactly 4 + subSize bytes past the
sub-id of c6Envelope is swallowed and the hidden flag stays unset. -/
theorem claim_C6_counterexample :
    ¬ ((readShapeStep 22 c6State).totalSizeRead =
        c6State.totalSizeRead + 1 + (4 + 0)) ∧
    (readShapeStep 22 c6State).totalSizeRead = c6State.totalSizeRead + 1 + (9 + 0) ∧
    (readShapeLoop 22 22 (initEnvState c6Envelope 0 none)).isHiddenSelf = 0 := by
  refine ⟨by decide, by decide, by decide⟩

/-- Claim C6, amended: when the shape envelope reader meets a sub-chunk
id it does not recognize and at least 4 bytes remain to be accounted, it
reads the u32 subSize and advances CHUNK_V6_HEADER_NO_ID_SIZE + subSize
(that is 9 + subSize) bytes past the sub-id byte, 5 more than the claimed
4 + subSize; when fewer than 4 bytes remain, totalSizeRead is set to the
envelope size so parsing of the envelope terminates immediately, without
any error and with no other state change. -/
theorem claim_C6_corrected (u : Nat) (st : EnvState) (chunkID subSize : Nat)
    (l : List Cell)
    (hrest : st.rest = Cell.u8 chunkID :: Cell.u32 subSize :: l)
    (hunknown : ¬ (chunkID = 17 ∨ chunkID = 19 ∨ chunkID = 20 ∨ chunkID = 21 ∨
      chunkID = 22 ∨ chunkID = 23 ∨ chunkID = 24 ∨ chunkID = 18 ∨ chunkID = 4 ∨
      chunkID = 5 ∨ chunkID = 6 ∨ chunkID = 8)) :
    (u ≥ st.totalSizeRead + 1 ∧ u - (st.totalSizeRead + 1) ≥ 4 →
      readShapeStep u st =
        { st with
          rest := dropBytes (9 + subSize) (Cell.u32 subSize :: l)
          totalSizeRead := st.totalSizeRead + 1 + (9 + subSize) }) ∧
    (¬ (u ≥ st.totalSizeRead + 1 ∧ u - (st.totalSizeRead + 1) ≥ 4) →
      readShapeStep u st =
        { st with
          rest := Cell.u32 subSize :: l
          totalSizeRead := u }) := by
  push_neg at hunknown
  obtain ⟨h17, h19, h20, h21, h22, h23, h24, h18, h4, h5, h6, h8⟩ := hunknown
  constructor
  · intro hroom
    simp only [readShapeStep, hrest, popU8, P3S_CHUNK_ID_SHAPE_ID,
      P3S_CHUNK_ID_SHAPE_PARENT_ID, P3S_CHUNK_ID_SHAPE_TRANSFORM,
      P3S_CHUNK_ID_SHAPE_PIVOT, P3S_CHUNK_ID_SHAPE_PALETTE,
      P3S_CHUNK_ID_OBJECT_COLLISION_BOX, P3S_CHUNK_ID_OBJECT_IS_HIDDEN,
      P3S_CHUNK_ID_SHAPE_NAME, P3S_CHUNK_ID_SHAPE_SIZE,
      P3S_CHUNK_ID_SHAPE_BLOCKS, P3S_CHUNK_ID_SHAPE_POINT,
      P3S_CHUNK_ID_SHAPE_POINT_ROTATION, CHUNK_V6_HEADER_NO_ID_SIZE,
      h17, h19, h20, h21, h22, h23, h24, h18, h4, h5, h6, h8,
      if_false, popU32]
    rw [if_pos hroom]
  · intro hroom
    simp only [readShapeStep, hrest, popU8, P3S_CHUNK_ID_SHAPE_ID,
      P3S_CHUNK_ID_SHAPE_PARENT_ID, P3S_CHUNK_ID_SHAPE_TRANSFORM,
      P3S_CHUNK_ID_SHAPE_PIVOT, P3S_CHUNK_ID_SHAPE_PALETTE,
      P3S_CHUNK_ID_OBJECT_COLLISION_BOX, P3S_CHUNK_ID_OBJECT_IS_HIDDEN,
      P3S_CHUNK_ID_SHAPE_NAME, P3S_CHUNK_ID_SHAPE_SIZE,
      P3S_CHUNK_ID_SHAPE_BLOCKS, P3S_CHUNK_ID_SHAPE_POINT,
      P3S_CHUNK_ID_SHAPE_POINT_ROTATION, CHUNK_V6_HEADER_NO_ID_SIZE,
      h17, h19, h20, h21, h22, h23, h24, h18, h4, h5, h6, h8,
      if_false, popU32]
    rw [if_neg hroom]

/-- Witness for claim C6: the corrected step applied at the concrete
state c6State, which satisfies the at-least-4-bytes-remain branch. -/
theorem claim_C6_corrected_witness :
    (c6State.rest = Cell.u8 9 :: Cell.u32 0 ::
        [Cell.u8 24, Cell.u32 1, Cell.u8 1]) ∧
    readShapeStep 22 c6State =
      { c6State with
        rest := dropBytes (9 + 0) [Cell.u32 0, Cell.u8 24, Cell.u32 1, Cell.u8 1]
        totalSizeRead := c6State.totalSizeRead + 1 + (9 + 0) } := by
  refine ⟨rfl, ?_⟩
  exact (claim_C6_corrected 22 c6State 9 0 [Cell.u8 24, Cell.u32 1, Cell.u8 1]
    rfl (by decide)).1 (by decide)

/-! ## Reading raw chunks and claim C3 -/

/-- Reading a chunk whose header declares an uncompressed payload of the
exact byte length present consumes the payload and hands it back raw. -/
theorem chunk_v6_read_raw (z : Zlib) (payload rest : List Cell) (size : Nat)
    (hsize : size = byteLen payload) (hpos : size ≠ 0)
    (hlt : size < 4294967296) :
    chunk_v6_read z ([mkU32 size, mkU8 0, mkU32 size] ++ (payload ++ rest)) =
      some (payload, size, size, rest) := by
  have hmod : size % 4294967296 = size := Nat.mod_eq_of_lt hlt
  simp only [mkU32, mkU8, hmod, List.cons_append, List.nil_append,
    chunk_v6_read]
  rw [if_neg (by omega)]
  rw [hsize, takeBytes_append]
  simp

/-- Reading the raw PALETTE chunk of a well-formed palette yields its
serialized-order reconstruction and consumes 9 bytes of header plus the
payload. -/
theorem chunk_v6_read_palette_raw (z : Zlib) (p : ColorPalette)
    (rest : List Cell) (hwf : p.Wf) :
    chunk_v6_read_palette z
        (([mkU32 (paletteDataSize p), mkU8 0, mkU32 (paletteDataSize p)] ++
          (paletteDataCells p ++ rest))) false =
      some (serializedPaletteOf p, CHUNK_V6_HEADER_NO_ID_SIZE + paletteDataSize p,
        rest) := by
  have hsz : paletteDataSize p = byteLen (paletteDataCells p) :=
    (byteLen_paletteDataCells p).symm
  have hcount : p.colorCount ≤ 255 := hwf.2.1
  have hpos : paletteDataSize p ≠ 0 := by
    simp only [paletteDataSize]; omega
  have hlt : paletteDataSize p < 4294967296 := by
    simp only [paletteDataSize]; omega
  rw [chunk_v6_read_palette, chunk_v6_read_raw z _ _ _ hsz hpos hlt]
  dsimp only
  rw [show chunk_v6_read_palette_data (paletteDataCells p) false =
      chunk_v6_read_palette_data (paletteDataCells p ++ []) false
    from by simp]
  rw [read_palette_data_roundTrip p [] hwf]

/-- The chunk loop returns the accumulator unchanged once the error flag
is set. -/
theorem loadLoop_error (z : Zlib) (b : LegacyBuiltins) (f : Nat)
    (set : LoadShapeSettings) (fuel : Nat) (s : List Cell) (ts tsr : Nat)
    (acc : LoadAcc) (herr : acc.error = true) :
    loadLoop z b f set fuel s ts tsr acc = acc := by
  cases fuel with
  | zero => rfl
  | succ fuel =>
    rw [loadLoop, if_neg]
    intro hc
    rw [herr] at hc
    exact absurd hc.2 (by decide)

/-- Claim C3, amended: an error met by the chunk loop (here a zero chunk
id after a valid PALETTE chunk) stops the loop and sets the error flag,
but the assets already materialized are not released: the caller receives
the partial asset list together with the logged error, not an
error-only result.  NULL is returned only when the header reads before
the loop fail. -/
theorem claim_C3_corrected (z : Zlib) (b : LegacyBuiltins)
    (set : LoadShapeSettings) (p : ColorPalette) (hwf : p.Wf) :
    serialization_load_assets_v6 z b (c3File p) AssetType_Any set =
      some { assets := [Asset.palette (some (serializedPaletteOf p))],
             error := true } := by
  have hcount : p.colorCount ≤ 255 := hwf.2.1
  have hszlt : 10 + paletteDataSize p + 1 < 4294967296 := by
    simp only [paletteDataSize]; omega
  have hmod : (10 + paletteDataSize p + 1) % 4294967296 =
      10 + paletteDataSize p + 1 := Nat.mod_eq_of_lt hszlt
  have hpalread := chunk_v6_read_palette_raw z p [Cell.u8 0] hwf
  simp only [mkU32, mkU8, Nat.reduceMod, List.cons_append, List.nil_append] at hpalread
  have hid16 : chunk_v6_read_identifier (Cell.u8 16 ::
      (Cell.u32 (paletteDataSize p % 4294967296) :: Cell.u8 0 ::
        Cell.u32 (paletteDataSize p % 4294967296) ::
        (paletteDataCells p ++ [Cell.u8 0]))) =
      (16, Cell.u32 (paletteDataSize p % 4294967296) :: Cell.u8 0 ::
        Cell.u32 (paletteDataSize p % 4294967296) ::
        (paletteDataCells p ++ [Cell.u8 0])) := by
    simp [chunk_v6_read_identifier, P3S_CHUNK_ID_MAX]
  have hstep1 : loadStep z b AssetType_Any set (Cell.u8 16 ::
      (Cell.u32 (paletteDataSize p % 4294967296) :: Cell.u8 0 ::
        Cell.u32 (paletteDataSize p % 4294967296) ::
        (paletteDataCells p ++ [Cell.u8 0]))) initLoadAcc =
      ([Cell.u8 0], 1 + (CHUNK_V6_HEADER_NO_ID_SIZE + paletteDataSize p),
        { list := [Asset.palette (some (serializedPaletteOf p))],
          serializedPalette := some (serializedPaletteOf p),
          serializedPaletteAssigned := true,
          rootShapePalette := none, paletteID := PALETTE_ID_CUSTOM,
          shapes := [], error := false }) := by
    rw [loadStep, hid16]
    dsimp only
    rw [if_neg (show ¬ (16 = P3S_CHUNK_ID_NONE) by simp [P3S_CHUNK_ID_NONE]),
      if_pos (show 16 = P3S_CHUNK_ID_PALETTE_LEGACY ∨ 16 = P3S_CHUNK_ID_PALETTE
        from Or.inr rfl)]
    rw [show (decide (16 = P3S_CHUNK_ID_PALETTE_LEGACY)) = false from rfl]
    rw [hpalread]
    dsimp only
    rw [if_pos (show AssetType_Any = AssetType_Any ∨
        0 < AssetType_Any &&& AssetType_Palette from Or.inl rfl)]
    rfl
  have hstep2 : loadStep z b AssetType_Any set [Cell.u8 0]
      { list := [Asset.palette (some (serializedPaletteOf p))],
        serializedPalette := some (serializedPaletteOf p),
        serializedPaletteAssigned := true,
        rootShapePalette := none, paletteID := PALETTE_ID_CUSTOM,
        shapes := [], error := false } =
      ([], 1,
        { list := [Asset.palette (some (serializedPaletteOf p))],
          serializedPalette := some (serializedPaletteOf p),
          serializedPaletteAssigned := true,
          rootShapePalette := none, paletteID := PALETTE_ID_CUSTOM,
          shapes := [], error := true }) := by
    rw [loadStep]
    rw [show chunk_v6_read_identifier [Cell.u8 0] = (0, ([] : List Cell))
      from by simp [chunk_v6_read_identifier]]
    dsimp only
    rw [if_pos (show (0 : Nat) = P3S_CHUNK_ID_NONE from rfl)]
  simp only [c3File, rawPaletteChunk, P3S_CHUNK_ID_PALETTE,
    serialization_load_assets_v6, mkU8, mkU32,
    Nat.reduceMod, hmod, List.cons_append, List.append_assoc, List.nil_append]
  rw [if_neg (by omega)]
  have hfuel : 10 + paletteDataSize p + 1 = (9 + paletteDataSize p) + 1 + 1 := by
    omega
  rw [hfuel, loadLoop, if_pos ⟨by omega, rfl⟩, hstep1]
  dsimp only
  rw [loadLoop, if_pos ⟨by simp only [CHUNK_V6_HEADER_NO_ID_SIZE]; omega, rfl⟩,
    hstep2]
  dsimp only
  rw [loadLoop_error _ _ _ _ _ _ _ _ _ rfl]

/-- Witness for claim C3: the amended behavior at the concrete one-color
palette. -/
theorem claim_C3_corrected_witness :
    cexPalette.Wf ∧
    serialization_load_assets_v6 idZlib cexBuiltins (c3File cexPalette)
        AssetType_Any cexSettings =
      some { assets := [Asset.palette (some (serializedPaletteOf cexPalette))],
             error := true } :=
  ⟨by decide, claim_C3_corrected idZlib cexBuiltins cexSettings cexPalette
    (by decide)⟩

/-- Claim C3, counterexample: a load that errors on a bad chunk id after
a palette chunk returns a nonempty partial asset list with the error
flag set; the materialized palette is not released and the caller does
not receive an error-only result, contradicting the claimed
complete-result-or-error contract. -/
theorem claim_C3_counterexample :
    serialization_load_assets_v6 idZlib cexBuiltins c3BadStream
        AssetType_Any cexSettings =
      some { assets := [Asset.palette (some cexPalette)], error := true } ∧
    [Asset.palette (some cexPalette)] ≠ [] := by
  exact ⟨by decide, by decide⟩

/-! ## Claim C2 -/

/-- The chunk loop depends on totalSize and totalSizeRead only through
their difference: shifting both by the same amount leaves the result
unchanged. -/
theorem loadLoop_shift (z : Zlib) (b : LegacyBuiltins) (f : Nat)
    (set : LoadShapeSettings) (fuel : Nat) :
    ∀ (s : List Cell) (ts tsr k : Nat) (acc : LoadAcc),
      loadLoop z b f set fuel s (ts + k) (tsr + k) acc =
        loadLoop z b f set fuel s ts tsr acc := by
  induction fuel with
  | zero => intro s ts tsr k acc; rfl
  | succ fuel ih =>
    intro s ts tsr k acc
    rw [loadLoop, loadLoop]
    have hguard : (tsr + k < ts + k ∧ acc.error = false) ↔
        (tsr < ts ∧ acc.error = false) := by
      constructor <;> (intro h; exact ⟨by omega, h.2⟩)
    by_cases h : tsr < ts ∧ acc.error = false
    · rw [if_pos (hguard.mpr h), if_pos h]
      rcases hs : loadStep z b f set s acc with ⟨s2, consumed, acc2⟩
      simp only [hs]
      have harith : tsr + k + consumed = tsr + consumed + k := by omega
      rw [harith]
      exact ih _ _ _ _ _
    · rw [if_neg (fun hc => h (hguard.mp hc)), if_neg h]

/-- Claim C2, amended: a chunk framed V5-style (u8 id, u32 size, then
size payload bytes) whose id lies in 4..24 and is neither 15 nor 16 is
dispatched to the default V5 skip of the chunk loop and leaves the
loaded result unchanged, at any boundary (any loop state) of any
stream; the claimed id set is too large, because
chunk_v6_read_identifier maps every id of 25 and above (such as 99) to
NONE, which aborts the load with an error instead of skipping. -/
theorem claim_C2_corrected (z : Zlib) (b : LegacyBuiltins) (f : Nat)
    (set : LoadShapeSettings) (fuel : Nat) (s payload : List Cell)
    (ts tsr : Nat) (acc : LoadAcc) (id : Nat)
    (h4 : 4 ≤ id) (h24 : id ≤ 24) (h15 : id ≠ 15) (h16 : id ≠ 16) :
    loadLoop z b f set (fuel + 1)
        (Cell.u8 id :: Cell.u32 (byteLen payload) :: (payload ++ s))
        (ts + (5 + byteLen payload)) tsr acc =
      loadLoop z b f set fuel s ts tsr acc := by
  rw [loadLoop]
  by_cases hguard : tsr < ts + (5 + byteLen payload) ∧ acc.error = false
  · rw [if_pos hguard]
    have hid : chunk_v6_read_identifier
        (Cell.u8 id :: Cell.u32 (byteLen payload) :: (payload ++ s)) =
        (id, Cell.u32 (byteLen payload) :: (payload ++ s)) := by
      simp only [chunk_v6_read_identifier, P3S_CHUNK_ID_MAX]
      rw [if_pos ⟨by omega, by omega⟩]
    have hstep : loadStep z b f set
        (Cell.u8 id :: Cell.u32 (byteLen payload) :: (payload ++ s)) acc =
        (s, 1 + (4 + byteLen payload), acc) := by
      simp only [loadStep, hid, P3S_CHUNK_ID_NONE, P3S_CHUNK_ID_PALETTE_LEGACY,
        P3S_CHUNK_ID_PALETTE, P3S_CHUNK_ID_PALETTE_ID, P3S_CHUNK_ID_SHAPE]
      rw [if_neg (by omega), if_neg (by omega), if_neg (by omega),
        if_neg (by omega)]
      simp only [chunk_v6_with_v5_header_skip, chunk_v6_read_size, stream_skip]
      rw [dropBytes_exact]
    rw [hstep]
    show loadLoop z b f set fuel s (ts + (5 + byteLen payload))
        (tsr + (1 + (4 + byteLen payload))) acc =
      loadLoop z b f set fuel s ts tsr acc
    have harith2 : tsr + (1 + (4 + byteLen payload)) =
        tsr + (5 + byteLen payload) := by omega
    rw [harith2]
    exact loadLoop_shift z b f set fuel s ts tsr (5 + byteLen payload) acc
  · rw [if_neg hguard]
    cases fuel with
    | zero => rfl
    | succ fuel =>
      rw [loadLoop]
      rw [if_neg (fun hc => hguard ⟨by omega, hc.2⟩)]

/-- Witness for claim C2: the corrected skip applied with id 10 and the
hello payload in front of the concrete palette stream. -/
theorem claim_C2_corrected_witness :
    4 ≤ 10 ∧ 10 ≤ 24 ∧ 10 ≠ 15 ∧ 10 ≠ 16 ∧
    loadLoop idZlib cexBuiltins AssetType_Any cexSettings 2
        (Cell.u8 10 :: Cell.u32 (byteLen [mkU8 104, mkU8 101, mkU8 108, mkU8 108,
          mkU8 111]) :: ([mkU8 104, mkU8 101, mkU8 108, mkU8 108,
          mkU8 111] ++ cexPaletteChunk))
        (16 + (5 + byteLen [mkU8 104, mkU8 101, mkU8 108, mkU8 108, mkU8 111]))
        0 initLoadAcc =
      loadLoop idZlib cexBuiltins AssetType_Any cexSettings 1 cexPaletteChunk
        16 0 initLoadAcc :=
  ⟨by decide, by decide, by decide, by decide,
    claim_C2_corrected idZlib cexBuiltins AssetType_Any cexSettings 1
      cexPaletteChunk [mkU8 104, mkU8 101, mkU8 108, mkU8 108, mkU8 111]
      16 0 initLoadAcc 10 (by decide) (by decide) (by decide) (by decide)⟩

/-- Claim C2, counterexample: injecting a V5-framed chunk with id 99 at
the inter-chunk boundary before the palette chunk changes the result of
the load entirely; the id is mapped to NONE, the loop errors out, and
the palette asset of the base stream is lost. -/
theorem claim_C2_counterexample :
    serialization_load_assets_v6 idZlib cexBuiltins (cexInjectedStream 99)
        AssetType_Any cexSettings =
      some { assets := [], error := true } ∧
    serialization_load_assets_v6 idZlib cexBuiltins cexBaseStream
        AssetType_Any cexSettings =
      some { assets := [Asset.palette (some cexPalette)], error := false } := by
  exact ⟨by decide, by decide⟩

/-! ## Claim C1 -/

/-- Claim C1: for a shape already in its own AABB-min frame, loading the
saved buffer yields the shape back modulo the palette index permutation
of the writer: size, name, pivot, points, point rotations, collision box
and hidden flag compare equal, each non-AIR block reappears at its cell
with its index remapped through the writer serialization table and its
color preserved — but the claim is corrected for the transform: a root
shape local transform is never serialized, so the loaded transform is
the default one, not the saved shape transform. -/
theorem claim_C1_corrected (z : Zlib) (hz : z.Lossless) (b : LegacyBuiltins)
    (settings : LoadShapeSettings) (S : ShapeData) (hwf : S.Wf)
    (haabb : S.aabbMin = (0, 0, 0))
    (husz : shapeUncompressedSize S 1 0 S.palette < 4294967296)
    (hcs0 : byteLen (z.compress (shapeEnvelopeCells S 1 0 S.palette)) ≠ 0)
    (hcs : 10 + byteLen (z.compress (shapeEnvelopeCells S 1 0 S.palette)) <
      4294967296) :
    serialization_v6_save_shape_as_buffer z (some (.node S [])) none none =
      some (singleShapeBuffer z S) ∧
    loadAssetsFromBuffer z b (singleShapeBuffer z S) AssetType_Any settings =
      some { assets := [Asset.shape (writerLoadedShape S)], error := false } ∧
    (writerLoadedShape S).width = S.width ∧
    (writerLoadedShape S).height = S.height ∧
    (writerLoadedShape S).depth = S.depth ∧
    (writerLoadedShape S).name =
      (if nameLenOf S > 0 then some S.name else none) ∧
    (writerLoadedShape S).pivot = S.pivot ∧
    (writerLoadedShape S).pois = S.pois ∧
    (writerLoadedShape S).poisRotation = S.poisRotation ∧
    (writerLoadedShape S).collisionBox = S.collisionBox ∧
    (writerLoadedShape S).isHiddenSelf = S.isHiddenSelf ∧
    (writerLoadedShape S).palette = serializedPaletteOf S.palette ∧
    (∀ x y zc : Nat, x < S.width → y < S.height → zc < S.depth →
      S.getBlock x y zc ≠ SHAPE_COLOR_INDEX_AIR_BLOCK →
      (writerLoadedShape S).blockAt (x, y, zc) =
          some (S.palette.mapping.getD (S.getBlock x y zc) 0) ∧
        color_palette_get_color (writerLoadedShape S).palette
            (S.palette.mapping.getD (S.getBlock x y zc) 0) =
          color_palette_get_color S.palette (S.getBlock x y zc)) ∧
    (writerLoadedShape S).localTransform = defaultLocalTransform := by
  have h1 : S.aabbMin.1 = 0 := by rw [haabb]
  have h2 : S.aabbMin.2.1 = 0 := by rw [haabb]
  have h3 : S.aabbMin.2.2 = 0 := by rw [haabb]
  have hwf2 := hwf
  obtain ⟨-, -, -, -, hPalWf, hBlk, -⟩ := hwf2
  refine ⟨save_single z S, load_single z hz b settings S hwf husz hcs0 hcs,
    rfl, rfl, rfl, rfl, ?_, ?_, rfl, rfl, rfl, rfl, ?_, rfl⟩
  · show S.pivot.subCoords S.aabbMin.1 S.aabbMin.2.1 S.aabbMin.2.2 = S.pivot
    rw [h1, h2, h3]
    simp [Float3.subCoords]
  · show S.pois.map (fun kv =>
        (kv.1, kv.2.subCoords S.aabbMin.1 S.aabbMin.2.1 S.aabbMin.2.2)) =
      S.pois
    rw [h1, h2, h3]
    have h0 : ∀ kv : List Nat × Float3,
        (kv.1, kv.2.subCoords 0 0 0) = kv := by
      intro kv
      simp [Float3.subCoords]
    calc S.pois.map (fun kv => (kv.1, kv.2.subCoords 0 0 0))
        = S.pois.map id := List.map_congr_left (fun kv _ => h0 kv)
      _ = S.pois := List.map_id S.pois
  · intro x y zc hx hy hz2 hsolid
    have hgb : S.getBlock (S.aabbMin.1 + (x : Int))
        (S.aabbMin.2.1 + (y : Int)) (S.aabbMin.2.2 + (zc : Int)) =
        S.getBlock x y zc := by
      rw [h1, h2, h3]
      simp
    have hwb : writtenBlockByte S (some S.palette.mapping) (x, y, zc) =
        S.palette.mapping.getD (S.getBlock x y zc) 0 := by
      rw [writtenBlockByte]
      dsimp only
      rw [hgb, blockByte, if_neg hsolid]
    have hb0 : S.getBlock x y zc < S.palette.colorCount := by
      have hd := hBlk x hx y hy zc hz2
      rw [hgb] at hd
      rcases hd with hair | hlt
      · exact absurd hair hsolid
      · exact hlt
    have hsolid2 : writtenBlockByte S (some S.palette.mapping) (x, y, zc) ≠
        SHAPE_COLOR_INDEX_AIR_BLOCK := by
      rw [hwb]
      have hlt := mapping_getD_lt_count S.palette hPalWf _ hb0
      have hle : S.palette.colorCount ≤ SHAPE_COLOR_INDEX_MAX_COUNT :=
        hPalWf.2.1
      simp only [SHAPE_COLOR_INDEX_AIR_BLOCK]
      simp only [SHAPE_COLOR_INDEX_MAX_COUNT] at hle
      omega
    refine ⟨?_, ?_⟩
    · rw [writerLoadedShape_blockAt S (x, y, zc)
        ((mem_gridCoords S.width S.height S.depth (x, y, zc)).mpr
          ⟨hx, hy, hz2⟩) hsolid2, hwb]
    · show color_palette_get_color (serializedPaletteOf S.palette)
          (S.palette.mapping.getD (S.getBlock x y zc) 0) =
        color_palette_get_color S.palette (S.getBlock x y zc)
      exact serializedPaletteOf_color S.palette hPalWf _ hb0

/-- Witness for claim C1 at the concrete shape c1Shape with the identity
codec: the hypotheses hold and the round trip loads the writer image. -/
theorem claim_C1_corrected_witness :
    idZlib.Lossless ∧ c1Shape.Wf ∧ c1Shape.aabbMin = (0, 0, 0) ∧
    shapeUncompressedSize c1Shape 1 0 c1Shape.palette < 4294967296 ∧
    byteLen (idZlib.compress (shapeEnvelopeCells c1Shape 1 0
      c1Shape.palette)) ≠ 0 ∧
    loadAssetsFromBuffer idZlib cexBuiltins (singleShapeBuffer idZlib c1Shape)
        AssetType_Any cexSettings =
      some { assets := [Asset.shape (writerLoadedShape c1Shape)],
             error := false } ∧
    (writerLoadedShape c1Shape).localTransform = defaultLocalTransform :=
  ⟨fun l => rfl, by decide, rfl, by decide, by decide,
    (claim_C1_corrected idZlib (fun l => rfl) cexBuiltins cexSettings c1Shape
      (by decide) rfl (by decide) (by decide) (by decide)).2.1,
    rfl⟩

/-- Counterexample to the unamended claim C1: c1Shape is in its own
AABB-min frame and has local position (1, 2, 3); the save and load both
succeed, yet the loaded local transform position is not the saved one. -/
theorem claim_C1_counterexample :
    c1Shape.aabbMin = (0, 0, 0) ∧
    c1Shape.localPosition = ⟨1, 2, 3⟩ ∧
    serialization_v6_save_shape_as_buffer idZlib (some (.node c1Shape []))
        none none = some (singleShapeBuffer idZlib c1Shape) ∧
    loadAssetsFromBuffer idZlib cexBuiltins (singleShapeBuffer idZlib c1Shape)
        AssetType_Any cexSettings =
      some { assets := [Asset.shape (writerLoadedShape c1Shape)],
             error := false } ∧
    (writerLoadedShape c1Shape).localTransform.position ≠
      c1Shape.localPosition :=
  ⟨rfl, rfl, save_single idZlib c1Shape,
    load_single idZlib (fun l => rfl) cexBuiltins cexSettings c1Shape
      (by decide) (by decide) (by decide) (by decide),
    by decide⟩

/-! ## Claim C4 -/

/-- Claim C4: the writer emits the block grid of the occupied AABB only,
writes the pivot and every point-of-interest position offset by the AABB
start and point rotations unchanged, and the reader reverses none of it:
the loaded shape lives in an origin-at-start frame, with every non-AIR
cell of the AABB found at its relative coordinates. -/
theorem claim_C4_confirmed (z : Zlib) (hz : z.Lossless) (b : LegacyBuiltins)
    (settings : LoadShapeSettings) (S : ShapeData) (hwf : S.Wf)
    (husz : shapeUncompressedSize S 1 0 S.palette < 4294967296)
    (hcs0 : byteLen (z.compress (shapeEnvelopeCells S 1 0 S.palette)) ≠ 0)
    (hcs : 10 + byteLen (z.compress (shapeEnvelopeCells S 1 0 S.palette)) <
      4294967296) :
    loadAssetsFromBuffer z b (singleShapeBuffer z S) AssetType_Any settings =
      some { assets := [Asset.shape (writerLoadedShape S)], error := false } ∧
    (writerLoadedShape S).width = S.width ∧
    (writerLoadedShape S).height = S.height ∧
    (writerLoadedShape S).depth = S.depth ∧
    (writerLoadedShape S).pivot =
      S.pivot.subCoords S.aabbMin.1 S.aabbMin.2.1 S.aabbMin.2.2 ∧
    (writerLoadedShape S).pois = S.pois.map (fun kv =>
      (kv.1, kv.2.subCoords S.aabbMin.1 S.aabbMin.2.1 S.aabbMin.2.2)) ∧
    (writerLoadedShape S).poisRotation = S.poisRotation ∧
    ∀ c : Nat × Nat × Nat, c.1 < S.width → c.2.1 < S.height →
      c.2.2 < S.depth →
      writtenBlockByte S (some S.palette.mapping) c ≠
        SHAPE_COLOR_INDEX_AIR_BLOCK →
      (writerLoadedShape S).blockAt c =
        some (writtenBlockByte S (some S.palette.mapping) c) :=
  ⟨load_single z hz b settings S hwf husz hcs0 hcs, rfl, rfl, rfl, rfl, rfl,
    rfl, fun c hx hy hz2 hs => writerLoadedShape_blockAt S c
      ((mem_gridCoords S.width S.height S.depth c).mpr ⟨hx, hy, hz2⟩) hs⟩

/-- Witness for claim C4 at c4Shape: the single block at absolute
(5, 2, 7) loads at (0, 0, 0), the point of interest at (5.5, 2.5, 7.5)
loads at (0.5, 0.5, 0.5), and the point rotation is unchanged. -/
theorem claim_C4_confirmed_witness :
    idZlib.Lossless ∧ c4Shape.Wf ∧ c4Shape.aabbMin = (5, 2, 7) ∧
    loadAssetsFromBuffer idZlib cexBuiltins (singleShapeBuffer idZlib c4Shape)
        AssetType_Any cexSettings =
      some { assets := [Asset.shape (writerLoadedShape c4Shape)],
             error := false } ∧
    (writerLoadedShape c4Shape).blockAt (0, 0, 0) = some 0 ∧
    (writerLoadedShape c4Shape).pivot = ⟨1/2, 1/2, 1/2⟩ ∧
    (writerLoadedShape c4Shape).pois = [([112], ⟨1/2, 1/2, 1/2⟩)] ∧
    (writerLoadedShape c4Shape).poisRotation = [([112], ⟨1, 2, 3⟩)] :=
  ⟨fun l => rfl, by decide, rfl,
    (claim_C4_confirmed idZlib (fun l => rfl) cexBuiltins cexSettings c4Shape
      (by decide) (by decide) (by decide) (by decide)).1,
    by decide,
    by norm_num [writerLoadedShape, c4Shape, Float3.subCoords],
    by norm_num [writerLoadedShape, c4Shape, Float3.subCoords],
    rfl⟩

/-! ## Claim C5 -/

/-- Claim C5: the SHAPE_NAME sub-chunk is framed as a bare u8 sub id,
u8 name length and the name bytes, with no u32 sub size field: the
writer emits exactly 2 + nameLen bytes for it, and the reader consumes
exactly 1 + nameLen bytes after the sub id (2 + nameLen in total). -/
theorem claim_C5_confirmed (S : ShapeData) (u : Nat) (st : EnvState)
    (rest : List Cell)
    (hlen : S.name.length ≤ 255) (hlen0 : 0 < S.name.length)
    (hb : ∀ v ∈ S.name, v < 256)
    (hrest : st.rest = nameSec S ++ rest) :
    byteLen (nameSec S) = 2 + nameLenOf S ∧
    nameSec S = [mkU8 P3S_CHUNK_ID_SHAPE_NAME, mkU8 (nameLenOf S)] ++
      (S.name.take (nameLenOf S)).map mkU8 ∧
    readShapeStep u st =
      { st with
        rest := rest
        name := some S.name
        totalSizeRead := st.totalSizeRead + 2 + S.name.length } :=
  ⟨byteLen_nameSec S, rfl,
    step_name u st S.name rest hlen hlen0 hb (by rw [hrest, nameSec, nameLenOf])⟩

/-- Witness for claim C5 at c4Shape (name of length 2): one reader step
over the bare name section consumes the whole section. -/
theorem claim_C5_confirmed_witness :
    c4Shape.name.length ≤ 255 ∧ 0 < c4Shape.name.length ∧
    (∀ v ∈ c4Shape.name, v < 256) ∧
    (initEnvState (nameSec c4Shape) 0 none).rest = nameSec c4Shape ++ [] ∧
    readShapeStep 100 (initEnvState (nameSec c4Shape) 0 none) =
      { initEnvState (nameSec c4Shape) 0 none with
        rest := []
        name := some c4Shape.name
        totalSizeRead :=
          (initEnvState (nameSec c4Shape) 0 none).totalSizeRead + 2 +
            c4Shape.name.length } :=
  ⟨by decide, by decide, by decide, (List.append_nil _).symm,
    (claim_C5_confirmed c4Shape 100 (initEnvState (nameSec c4Shape) 0 none) []
      (by decide) (by decide) (by decide) (List.append_nil _).symm).2.2⟩

/-! ## Claim C7 -/

/-- Claim C7, amended: in SINGLE palette mode (top-level PALETTE chunk,
no embedded SHAPE_PALETTE and no shared root palette) each shape receives
a copy of the file palette only when its color count is strictly below
SHAPE_COLOR_INDEX_MAX_COUNT = 255; at 255 or more — not only above the
limit — the shape receives a fresh empty palette and every streamed
non-AIR block index is remapped by looking its color up in the file
palette and check-and-adding it to the shape palette. -/
theorem claim_C7_corrected (b : LegacyBuiltins) (st : EnvState)
    (shapes : List LoadedShape) (fpal : ColorPalette) (palID : Nat)
    (sp : ColorPalette) (acc : ColorPalette × List ((Nat × Nat × Nat) × Nat))
    (c : Nat × Nat × Nat) (v : Nat)
    (hshape : st.hasShape = true) (hnopal : st.palette = none)
    (hnorsp : st.rootShapePalette = none) (hnoblocks : st.blocksRest = none)
    (hv : v ≠ SHAPE_COLOR_INDEX_AIR_BLOCK) :
    (fpal.colorCount < SHAPE_COLOR_INDEX_MAX_COUNT →
      (chunk_v6_resolve_shape b st shapes (some fpal) palID).map
        (fun res => res.1.palette) = some (color_palette_new_copy fpal)) ∧
    (SHAPE_COLOR_INDEX_MAX_COUNT ≤ fpal.colorCount →
      (chunk_v6_resolve_shape b st shapes (some fpal) palID).map
        (fun res => res.1.palette) = some color_palette_new) ∧
    processOneBlock b PALETTE_ID_CUSTOM (some sp) acc c v =
      ((color_palette_check_and_add_color acc.1
          (color_palette_get_color sp v)).1,
        acc.2 ++ [(c, if (color_palette_check_and_add_color acc.1
            (color_palette_get_color sp v)).2.2
          then (color_palette_check_and_add_color acc.1
            (color_palette_get_color sp v)).2.1
          else 0)]) := by
  have hns : ¬ st.hasShape = false := by rw [hshape]; simp
  refine ⟨?_, ?_, ?_⟩
  · intro hlt
    simp only [chunk_v6_resolve_shape.eq_def, if_neg hns, hnorsp, hnopal,
      hnoblocks,
      if_neg (show ¬ SHAPE_COLOR_INDEX_MAX_COUNT ≤ fpal.colorCount from by
        omega)]
    rfl
  · intro hle
    simp only [chunk_v6_resolve_shape.eq_def, if_neg hns, hnorsp, hnopal,
      hnoblocks, if_pos hle]
    rfl
  · rcases hr : color_palette_check_and_add_color acc.1
        (color_palette_get_color sp v) with ⟨pal2, idx2, succ2⟩
    simp only [processOneBlock, if_neg hv, PALETTE_ID_CUSTOM,
      PALETTE_ID_IOS_ITEM_EDITOR_LEGACY, PALETTE_ID_2021, hr]
    rw [if_neg (show ¬ (255 : Nat) = 0 from by omega),
      if_neg (show ¬ (255 : Nat) = 1 from by omega)]

/-- Witness for claim C7: with the one-color file palette cexPalette
(count 1 < 255) the resolved shape receives the palette copy. -/
theorem claim_C7_corrected_witness :
    c7State.hasShape = true ∧ c7State.palette = none ∧
    c7State.rootShapePalette = none ∧ c7State.blocksRest = none ∧
    ((0 : Nat) ≠ SHAPE_COLOR_INDEX_AIR_BLOCK) ∧
    cexPalette.colorCount < SHAPE_COLOR_INDEX_MAX_COUNT ∧
    (chunk_v6_resolve_shape cexBuiltins c7State [] (some cexPalette)
        PALETTE_ID_CUSTOM).map (fun res => res.1.palette) =
      some (color_palette_new_copy cexPalette) := by
  have h := claim_C7_corrected cexBuiltins c7State [] cexPalette
    PALETTE_ID_CUSTOM cexPalette (color_palette_new, []) (0, 0, 0) 0
    rfl rfl rfl rfl (by decide)
  exact ⟨rfl, rfl, rfl, rfl, by decide, by decide, h.1 (by decide)⟩

set_option maxRecDepth 8192 in
/-- Counterexample to the unamended claim C7: a file palette with exactly
255 colors does not overflow the per-shape limit, yet the shape receives
the fresh empty palette of the shrink path, not a copy. -/
theorem claim_C7_counterexample :
    c7Palette.colorCount = SHAPE_COLOR_INDEX_MAX_COUNT ∧
    (chunk_v6_resolve_shape cexBuiltins c7State [] (some c7Palette)
        PALETTE_ID_CUSTOM).map (fun res => res.1.palette) =
      some color_palette_new ∧
    color_palette_new_copy c7Palette ≠ color_palette_new := by
  refine ⟨by decide, by decide, by decide⟩

/-! ## Claim C8 -/

/-- Claim C8: the writer assigns shape ids from a counter starting at 1
in pre-order, so the emitted id sequence is 1, 2, ...; every emitted
entry carries either the incoming root parent id 0 or the id of an
earlier-emitted shape (smaller than its own id); and on read a non-root
parent id within the declaration list resolves to declaration index
parentId - 1 — an already-loaded shape — with the local transform equal
to the stored one. -/
theorem claim_C8_confirmed (t : ShapeTree) (b : LegacyBuiltins)
    (st : EnvState) (shapes : List LoadedShape) (fp : Option ColorPalette)
    (palID : Nat) (L : LoadedShape) (ss : List LoadedShape)
    (rp : Option ColorPalette)
    (hnonroot : 1 ≤ st.shapeParentId)
    (hearlier : st.shapeParentId - 1 < shapes.length + 1)
    (hres : chunk_v6_resolve_shape b st shapes fp palID = some (L, ss, rp)) :
    ((flattenTree t 1 0).1.map Prod.fst =
        List.range' 1 (flattenTree t 1 0).1.length ∧
      (flattenTree t 1 0).2 = 1 + (flattenTree t 1 0).1.length ∧
      ∀ e ∈ (flattenTree t 1 0).1,
        e.2.1 = 0 ∨ (e.2.1 ∈ (flattenTree t 1 0).1.map Prod.fst ∧
          e.2.1 < e.1)) ∧
    L.parentIdx = some (st.shapeParentId - 1) ∧
    st.shapeParentId - 1 ≤ shapes.length ∧
    L.localTransform = st.localTransform := by
  have hp := flattenList_preorder [t] 1 0
  have h := resolve_parent_transform b st shapes fp palID L ss rp hres
  rw [if_pos ⟨hnonroot, hearlier⟩, if_pos ⟨hnonroot, hearlier⟩] at h
  exact ⟨⟨hp.2.1, hp.1, hp.2.2⟩, h.1, by omega, h.2⟩

set_option maxRecDepth 8192 in
/-- Witness for claim C8: the three-shape tree c8Tree flattens to ids
1, 2, 3 with parent ids 0, 1, 1, and the non-root state c8State resolves
to a shape attached at declaration index 0 with the stored transform. -/
theorem claim_C8_confirmed_witness :
    1 ≤ c8State.shapeParentId ∧
    c8State.shapeParentId - 1 < ([] : List LoadedShape).length + 1 ∧
    chunk_v6_resolve_shape cexBuiltins c8State [] none PALETTE_ID_CUSTOM =
      some (c8Loaded, [c8Loaded], none) ∧
    (flattenTree c8Tree 1 0).1.map Prod.fst = [1, 2, 3] ∧
    (flattenTree c8Tree 1 0).1.map (fun e => e.2.1) = [0, 1, 1] ∧
    c8Loaded.parentIdx = some 0 ∧
    c8Loaded.localTransform = c8State.localTransform := by
  have h := claim_C8_confirmed c8Tree cexBuiltins c8State [] none
    PALETTE_ID_CUSTOM c8Loaded [c8Loaded] none (by decide) (by decide) rfl
  refine ⟨by decide, by decide, rfl, ?_, ?_, h.2.1, h.2.2.2⟩
  · simp [c8Tree, flattenTree, flattenList]
  · simp [c8Tree, flattenTree, flattenList]

/-! ## Claim C10 -/

/-- Claim C10: the writer emits the SHAPE_PARENT_ID and SHAPE_TRANSFORM
sub-chunks (both inside parentSec) only for non-root shapes: a root
envelope is the concatenation without any parent section and does not
depend on the shape local position, rotation or scale; and on read a
stored transform is applied only when the parent lookup succeeds, so a
shape whose parsed parent id is 0 resolves with no parent and the
default transform, whatever transform its envelope stored. -/
theorem claim_C10_confirmed (S : ShapeData) (sharedPalette : ColorPalette)
    (p r sc : Float3) (b : LegacyBuiltins) (st : EnvState)
    (shapes : List LoadedShape) (fp : Option ColorPalette) (palID : Nat)
    (L : LoadedShape) (ss : List LoadedShape) (rp : Option ColorPalette)
    (hroot : st.shapeParentId = 0)
    (hres : chunk_v6_resolve_shape b st shapes fp palID = some (L, ss, rp)) :
    shapeEnvelopeCells S 1 0 sharedPalette =
      sizeSec S ++ idSec 1 ++ pivotSec S ++
        (match S.collisionBox with
          | some (mn, mx) => collisionSec mn mx
          | none => []) ++
        (if S.isHiddenSelf then hiddenSec else []) ++
        (if writesPalette S 0 sharedPalette then paletteSec S.palette
          else []) ++
        blocksSec S (paletteMappingOf S 0 sharedPalette) ++
        poiSecs S ++ poiRotationSecs S ++
        (if nameLenOf S > 0 then nameSec S ++ namePadCells else []) ∧
    (∀ pid : Nat, pid ≠ 0 → shapeEnvelopeCells S 1 pid sharedPalette =
      sizeSec S ++ idSec 1 ++ parentSec S pid ++ pivotSec S ++
        (match S.collisionBox with
          | some (mn, mx) => collisionSec mn mx
          | none => []) ++
        (if S.isHiddenSelf then hiddenSec else []) ++
        (if writesPalette S pid sharedPalette then paletteSec S.palette
          else []) ++
        blocksSec S (paletteMappingOf S pid sharedPalette) ++
        poiSecs S ++ poiRotationSecs S ++
        (if nameLenOf S > 0 then nameSec S ++ namePadCells else [])) ∧
    shapeEnvelopeCells
        { S with localPosition := p, localRotation := r, localScale := sc }
        1 0 sharedPalette =
      shapeEnvelopeCells S 1 0 sharedPalette ∧
    L.parentIdx = none ∧
    L.localTransform = defaultLocalTransform := by
  have h := resolve_parent_transform b st shapes fp palID L ss rp hres
  rw [hroot] at h
  rw [if_neg (show ¬ ((1 : Nat) ≤ 0 ∧ 0 - 1 < shapes.length + 1) from by
      omega),
    if_neg (show ¬ ((1 : Nat) ≤ 0 ∧ 0 - 1 < shapes.length + 1) from by
      omega)] at h
  refine ⟨by simp [shapeEnvelopeCells], ?_, rfl, h.1, h.2⟩
  intro pid hpid
  simp [shapeEnvelopeCells, hpid]

set_option maxRecDepth 8192 in
/-- Witness for claim C10: c10State parsed a SHAPE_TRANSFORM with
position (1, 2, 3) but parent id 0; the resolved shape has no parent and
the default transform. -/
theorem claim_C10_confirmed_witness :
    c10State.shapeParentId = 0 ∧
    c10State.localTransform = ⟨⟨1, 2, 3⟩, ⟨4, 5, 6⟩, ⟨7, 8, 9⟩⟩ ∧
    chunk_v6_resolve_shape cexBuiltins c10State [] none PALETTE_ID_CUSTOM =
      some (c10Loaded, [c10Loaded], none) ∧
    c10Loaded.parentIdx = none ∧
    c10Loaded.localTransform = defaultLocalTransform := by
  have h := claim_C10_confirmed c1Shape cexPalette ⟨0, 0, 0⟩ ⟨0, 0, 0⟩
    ⟨0, 0, 0⟩ cexBuiltins c10State [] none PALETTE_ID_CUSTOM c10Loaded
    [c10Loaded] none rfl rfl
  exact ⟨rfl, rfl, rfl, h.2.2.2.1, h.2.2.2.2⟩


end CubzhV6

